import Mathlib

/-!
# go-wopr: a verification development

A shallow embedding of `wopr.go` (the WOPR terminal conversation from the film
"WarGames", served on a local console or over TCP) together with theorems about
its session engine.

Conventions of the embedding

* A Go `string` is a sequence of bytes: `GoString = List Nat`, each byte below 256.
* The process state touched by the program (the global map `tcpClients`, the
  global `currentRow`, the standard input of the console, and everything the
  program writes or closes) is the explicit record `World`.  Effects are
  recorded, in order, in `World.trace`.
* `time.Sleep` is not modelled: it has no effect on any value of the program.
* Functions of Go's standard library (`strings`, `unicode/utf8`, `fmt`) are
  modelled by their documented meaning.  The Unicode case table behind
  `unicode.ToUpper` for runes above ASCII is a parameter `tbl`.
-/

namespace Wopr

/-! ## Go strings and `unicode/utf8` -/

/-- Go `string`: a sequence of bytes. -/
abbrev GoString := List Nat

/-- The constant `utf8.RuneError`, U+FFFD. -/
def RuneError : Nat := 0xFFFD

/-- Valid Unicode scalar values: what `utf8.ValidRune` accepts. -/
def ValidRune (r : Nat) : Prop := r < 0xD800 ∨ (0xDFFF < r ∧ r ≤ 0x10FFFF)

instance (r : Nat) : Decidable (ValidRune r) := by
  unfold ValidRune; exact inferInstance

/-- Go `utf8.AppendRune` on an empty buffer: the UTF-8 encoding of a rune;
surrogates and values beyond U+10FFFF are encoded as `RuneError`. -/
def EncodeRune (r : Nat) : GoString :=
  if r ≤ 0x7F then [r]
  else if r ≤ 0x7FF then [0xC0 + r / 64, 0x80 + r % 64]
  else if 0x10FFFF < r ∨ (0xD800 ≤ r ∧ r ≤ 0xDFFF) then [0xEF, 0xBF, 0xBD]
  else if r ≤ 0xFFFF then [0xE0 + r / 4096, 0x80 + r / 64 % 64, 0x80 + r % 64]
  else [0xF0 + r / 262144, 0x80 + r / 4096 % 64, 0x80 + r / 64 % 64, 0x80 + r % 64]

/-- Go `utf8.DecodeRuneInString`: the first rune of `s` and its width in bytes.
An empty string gives `(RuneError, 0)`, an invalid encoding `(RuneError, 1)`. -/
def DecodeRune : GoString → Nat × Nat
  | [] => (RuneError, 0)
  | s0 :: rest =>
    if s0 < 0x80 then (s0, 1)
    else if s0 < 0xC2 then (RuneError, 1)
    else if s0 < 0xE0 then
      match rest with
      | s1 :: _ =>
        if 0x80 ≤ s1 ∧ s1 ≤ 0xBF then (s0 % 32 * 64 + s1 % 64, 2) else (RuneError, 1)
      | [] => (RuneError, 1)
    else if s0 < 0xF0 then
      match rest with
      | s1 :: s2 :: _ =>
        if (if s0 = 0xE0 then 0xA0 else 0x80) ≤ s1 ∧ s1 ≤ (if s0 = 0xED then 0x9F else 0xBF) then
          if 0x80 ≤ s2 ∧ s2 ≤ 0xBF then (s0 % 16 * 4096 + s1 % 64 * 64 + s2 % 64, 3)
          else (RuneError, 1)
        else (RuneError, 1)
      | _ => (RuneError, 1)
    else if s0 < 0xF5 then
      match rest with
      | s1 :: s2 :: s3 :: _ =>
        if (if s0 = 0xF0 then 0x90 else 0x80) ≤ s1 ∧ s1 ≤ (if s0 = 0xF4 then 0x8F else 0xBF) then
          if 0x80 ≤ s2 ∧ s2 ≤ 0xBF then
            if 0x80 ≤ s3 ∧ s3 ≤ 0xBF then
              (s0 % 8 * 262144 + s1 % 64 * 4096 + s2 % 64 * 64 + s3 % 64, 4)
            else (RuneError, 1)
          else (RuneError, 1)
        else (RuneError, 1)
      | _ => (RuneError, 1)
    else (RuneError, 1)

/-- Runes of a string as `for _, c := range s` yields them.  The first argument
counts the bytes still to skip of the rune decoded last. -/
def runesFrom : Nat → GoString → List Nat
  | _, [] => []
  | skip + 1, _ :: cs => runesFrom skip cs
  | 0, c :: cs => (DecodeRune (c :: cs)).1 :: runesFrom ((DecodeRune (c :: cs)).2 - 1) cs

/-- Runes of a string, in order (`range s`). -/
def runes (s : GoString) : List Nat := runesFrom 0 s

/-- Go `utf8.RuneCountInString`. -/
def RuneCount (s : GoString) : Nat := (runes s).length

/-- Bytes of a string literal of the source (Go source text is UTF-8). -/
def lit (s : String) : GoString := s.toList.flatMap (fun ch => EncodeRune ch.toNat)

/-! ## `strings` and `unicode` -/

/-- Worker of `Replace`: the counter is the number of bytes still to drop of the
occurrence of `old` matched last. -/
def replaceFrom (old new : GoString) : Nat → GoString → GoString
  | _, [] => []
  | skip + 1, _ :: cs => replaceFrom old new skip cs
  | 0, c :: cs =>
    if old.isPrefixOf (c :: cs) then new ++ replaceFrom old new (old.length - 1) cs
    else c :: replaceFrom old new 0 cs

/-- Go `strings.Replace(s, old, new, -1)` for a non-empty `old`: every
non-overlapping occurrence of `old`, from the left, is replaced by `new`. -/
def Replace (s old new : GoString) : GoString := replaceFrom old new 0 s

/-- The ASCII case of the upper-case mapping: `if 'a' <= c && c <= 'z' { c -= 'a' - 'A' }`. -/
def upperASCII (c : Nat) : Nat := if 97 ≤ c ∧ c ≤ 122 then c - 32 else c

/-- Go `unicode.ToUpper`: ASCII is handled in the function itself, every other
rune by the case table `tbl` of the `unicode` package. -/
def unicodeToUpper (tbl : Nat → Nat) (r : Nat) : Nat :=
  if r ≤ 0x7F then upperASCII r else tbl r

/-- Go `strings.Map`: every rune of `s` (an invalid byte counts as `RuneError`)
is replaced by the encoding of its image. -/
def Map (mapping : Nat → Nat) (s : GoString) : GoString :=
  (runes s).flatMap (fun r => EncodeRune (mapping r))

/-- Go `strings.ToUpper`: an all-ASCII string is mapped byte by byte, any other
string goes through `Map(unicode.ToUpper, s)`. -/
def ToUpper (tbl : Nat → Nat) (s : GoString) : GoString :=
  if s.all (fun c => decide (c < 0x80)) then
    s.map upperASCII
  else Map (unicodeToUpper tbl) s

/-- Source `stripInput` (wopr.go 279-285). -/
def stripInput (tbl : Nat → Nat) (input : GoString) : GoString :=
  let input := Replace input (lit "\r") (lit "")
  let input := Replace input (lit "\n") (lit "")
  let input := ToUpper tbl input
  input

/-- What the proofs use of the case table of Go's `unicode` package, for valid
runes above ASCII: the upper case of a rune is a valid rune; when it is ASCII it
is a capital letter (as `S` for the long s); when it is above ASCII it is its
own upper case. -/
def CaseTable (tbl : Nat → Nat) : Prop :=
  ∀ r, 128 ≤ r → ValidRune r →
    ValidRune (tbl r) ∧ (tbl r < 128 → 65 ≤ tbl r ∧ tbl r ≤ 90) ∧ (128 ≤ tbl r → tbl (tbl r) = tbl r)

/-- A small case table, for examples: the lower-case letters of Latin-1 map to
their capitals, the long s maps to `S`, every other rune to itself. -/
def sampleTable (r : Nat) : Nat :=
  if 0xE0 ≤ r ∧ r ≤ 0xFE ∧ r ≠ 0xF7 then r - 32
  else if r = 0x17F then 83
  else r

/-- What a decoder sees of a rune that was encoded: the rune itself, or
`RuneError` for a value that is no valid rune. -/
def san (u : Nat) : Nat := if ValidRune u then u else RuneError

/-- A decoded rune is an ASCII byte standing first in the string, or a valid
rune beyond ASCII. -/
def DecodedOk (s : GoString) (r : Nat) : Prop :=
  (r < 128 ∧ s.head? = some r) ∨ (128 ≤ r ∧ ValidRune r)

/-- Runes that `stripInput` leaves alone: valid, neither CR nor LF, no small
ASCII letter, and their own upper case. -/
def Settled (tbl : Nat → Nat) (u : Nat) : Prop :=
  ValidRune u ∧ u ≠ 10 ∧ u ≠ 13 ∧ ¬ (97 ≤ u ∧ u ≤ 122) ∧ unicodeToUpper tbl u = u

/-- The bytes of `x` that are neither CR nor LF, in order. -/
def dropCRLF (x : GoString) : GoString := x.filter (fun b => decide (b ≠ 13) && decide (b ≠ 10))

/-! ## `fmt` -/

/-- Go `%d` for an `int`. -/
def fmtD (i : Int) : GoString :=
  if i < 0 then 45 :: (Nat.toDigits 10 (-i).toNat).map Char.toNat
  else (Nat.toDigits 10 i.toNat).map Char.toNat

/-- Go `%c` for a byte value: the UTF-8 encoding of the rune with that number. -/
def fmtC (c : Nat) : GoString := EncodeRune c

/-- Go `%*s` and `%Ns`: pad with spaces on the left up to `width` runes. -/
def padLeft (width : Nat) (s : GoString) : GoString :=
  List.replicate (width - RuneCount s) 32 ++ s

/-- Go `%-Ns`: pad with spaces on the right up to `width` runes. -/
def padRight (width : Nat) (s : GoString) : GoString :=
  s ++ List.replicate (width - RuneCount s) 32

/-- Worker of `Split`: `cur` is the piece being read, reversed. -/
def splitFrom (sep : Nat) : GoString → GoString → List GoString
  | cur, [] => [cur.reverse]
  | cur, c :: cs => if c = sep then cur.reverse :: splitFrom sep [] cs else splitFrom sep (c :: cur) cs

/-- Go `strings.Split(s, sep)` for a separator of one byte. -/
def Split (s : GoString) (sep : Nat) : List GoString := splitFrom sep [] s

/-- Go `int` arithmetic: results wrap around at 64 bits. -/
def wrapInt (x : Int) : Int := (x + 2 ^ 63) % 2 ^ 64 - 2 ^ 63

/-! ## Data model (wopr.go 17-80) -/

/-- Source `Screen` (wopr.go 17-31). -/
inductive Screen
  | LOGON
  | GAMES
  | GREETING
  | WELLBEING
  | EXPLANATION
  | PLAY_GAME
  | PLAY_GAME_VERIFY
  | GLOBAL_THERMONOCULEAR_WAR
  | STRIKE_COMMAND
  | STRIKE_COMMAND_2
  deriving DecidableEq, Repr

open Screen

/-- Source `ClientState` (wopr.go 33-36). -/
structure ClientState where
  Authenticated : Bool
  Screen : Screen
  deriving DecidableEq, Repr

/-- The zero value of `ClientState`, which a Go map lookup yields for a missing key. -/
def ClientState.zero : ClientState := ⟨false, LOGON⟩

/-- Identity of a `net.Conn`. -/
abbrev Conn := Nat

/-- Source `Messenger` with its two implementations `ConsoleMessenger` and
`NetworkMessenger` (wopr.go 86-111). -/
inductive Messenger
  | ConsoleMessenger
  | NetworkMessenger (client : Conn)
  deriving DecidableEq, Repr

/-- Effects of the program on the outside, in the order they happen. -/
inductive Event
  /-- `fmt.Print` and `fmt.Println`: bytes written to the standard output. -/
  | stdout (s : GoString)
  /-- A call `client.Write(s)` on a connection. -/
  | write (c : Conn) (s : GoString)
  /-- A call `client.Close()` on a connection. -/
  | close (c : Conn)
  /-- The console session waits in `scan()` for a line that has not been typed
  yet; the line is for `handleInput(msgr, next, line)`. -/
  | await (next : Screen)
  deriving DecidableEq, Repr

/-- Process state: the globals `tcpClients` and `currentRow`, the lines the
console will read, the result of `term.GetSize(0)`, and the effects so far. -/
structure World where
  /-- Global `tcpClients` (wopr.go 39). -/
  tcpClients : Conn → Option ClientState
  /-- Global `currentRow` (wopr.go 78). -/
  currentRow : Int
  /-- Lines still to come on the standard input, one for each `scan()`. -/
  stdin : List GoString
  /-- Width returned by `term.GetSize(0)`. -/
  termWidth : Int
  /-- Whether `term.GetSize(0)` returns an error. -/
  termErr : Bool
  /-- Effects so far. -/
  trace : List Event

/-- Some common characters and ASCII codes (wopr.go 42-49). -/
def FULL_BLOCK : GoString := lit "█"
/-- Source `UNDERLINE`. -/
def UNDERLINE : GoString := lit "-"
/-- Source `CLEAR`. -/
def CLEAR : GoString := lit "\x1b[2J"
/-- Source `CLEAR_AND_RESTORE`. -/
def CLEAR_AND_RESTORE : GoString := lit "\x1b[u\x1b[K"

/-- Source `US` (wopr.go 51-62). -/
def US : GoString :=
  lit ("\n" ++
    "    ,------~~v,                \n" ++
    "    |'         Ż\\   ,__/Ż||    \n" ++
    "   /             \\,/     /     \n" ++
    "   |                    /      \n" ++
    "   \\                   |       \n" ++
    "    \\                 /        \n" ++
    "     ^Ż~_            /         \n" ++
    "         '~~,  ,Ż~Ż\\ \\         \n" ++
    "             \\/     \\/         \n" ++
    "                               \n" ++
    "    ")

/-- Source `SOVIET_UNION` (wopr.go 64-75). -/
def SOVIET_UNION : GoString :=
  lit ("\n" ++
    "              _--^\\\n" ++
    "            _/    /,_\n" ++
    "   ,,   ,,/^      Ż  vŻv-__\n" ++
    "   |'~^Ż                   Ż\\\n" ++
    " _/                     _  /^\n" ++
    "/                   ,~~^/|ŻŻ\n" ++
    "|          __,,  v__\\   \\/\n" ++
    " ^~       /    ~Ż  //\n" ++
    "   \\~,  ,/         Ż\n" ++
    "      ~~\n" ++
    "    ")

/-! ## Messengers (wopr.go 93-137) -/

/-- Append one effect to the trace. -/
def World.emit (w : World) (e : Event) : World := { w with trace := w.trace ++ [e] }

/-- Source `Send` of both messengers (wopr.go 95-98, 120-122). -/
def Send : Messenger → GoString → World → World
  | .ConsoleMessenger, msg, w => w.emit (Event.stdout msg)
  | .NetworkMessenger client, msg, w => w.emit (Event.write client msg)

/-- Go `delete(m, k)` on `tcpClients`. -/
def mapDelete (m : Conn → Option ClientState) (k : Conn) : Conn → Option ClientState :=
  fun c => if c = k then none else m c

/-- Go `m[k] = v` on `tcpClients`. -/
def mapSet (m : Conn → Option ClientState) (k : Conn) (v : ClientState) :
    Conn → Option ClientState :=
  fun c => if c = k then some v else m c

/-- Go `m[k]` on `tcpClients`: the zero value for a missing key. -/
def mapGet (m : Conn → Option ClientState) (k : Conn) : ClientState :=
  (m k).getD ClientState.zero

/-- Source `Disconnect` of both messengers (wopr.go 102, 125-129). -/
def Disconnect : Messenger → World → World
  | .ConsoleMessenger, w => w
  | .NetworkMessenger client, w =>
    let w := Send (.NetworkMessenger client) (lit "\x1b[0m") w
    let w := { w with tcpClients := mapDelete w.tcpClients client }
    w.emit (Event.close client)

/-- Source `ScanSupport` of both messengers (wopr.go 105, 131). -/
def ScanSupport : Messenger → Bool
  | .ConsoleMessenger => true
  | .NetworkMessenger _ => false

/-- Source `UpdateState` of both messengers (wopr.go 107, 133-137). -/
def UpdateState : Messenger → Screen → World → World
  | .ConsoleMessenger, _, w => w
  | .NetworkMessenger client, scr, w =>
    let state := mapGet w.tcpClients client
    let state := { state with Screen := scr }
    { w with tcpClients := mapSet w.tcpClients client state }

/-- Registration of an accepted connection in `main` (wopr.go 172-175). -/
def register (client : Conn) (w : World) : World :=
  { w with tcpClients := mapSet w.tcpClients client ⟨false, LOGON⟩ }

/-! ## Rendering helpers (wopr.go 456-466, 560-602) -/

/-- Source `scan` (wopr.go 560-571) on an interactive console: the next line
typed, or `none` while no further line has been typed. -/
def scan (w : World) : Option (GoString × World) :=
  match w.stdin with
  | [] => none
  | line :: rest => some (line, { w with stdin := rest })

/-- Source `setCursorPosition` (wopr.go 573-576). -/
def setCursorPosition (row col : Int) (msgr : Messenger) (w : World) : World :=
  Send msgr (lit "\x1b[" ++ fmtD (wrapInt (row + 1)) ++ lit ";" ++ fmtD (wrapInt (col + 1)) ++ lit "f") w

/-- Source `getTerminalWidth` (wopr.go 578-587): `width, _, err := term.GetSize(0)`
assigns the already declared `width`, so both branches return what `GetSize`
returned. -/
def getTerminalWidth (w : World) : Int :=
  let _width : Int := 80
  let width := w.termWidth
  let err := w.termErr
  if err then width else width

/-- Source `bumpLine` (wopr.go 591-602); the variadic `n` is a list. -/
def bumpLine (msgr : Messenger) (n : List Int) (w : World) : World :=
  let numOfTimes : Int := n.length
  let numOfTimes : Int := if numOfTimes = 0 then 1 else n.headD 0
  (List.range numOfTimes.toNat).foldl
    (fun w _ => let w := Send msgr (lit "\n") w; { w with currentRow := wrapInt (w.currentRow + 1) }) w

/-- Source `animateMessage` (wopr.go 456-466): one `Send` for each byte of
`msg`.  The optional duration only sets the pause between two bytes. -/
def animateMessage (msgr : Messenger) (msg : GoString) (w : World) : World :=
  msg.foldl (fun w c => Send msgr (fmtC c) w) w

/-! ## The screens and the input handler (wopr.go 207-558)

`handleInput` and the screen functions call each other.  Every such cycle on the
console goes through one `scan()`; on a network messenger no screen function
calls back.  The functions below take the handler they call back as the
argument `hi`, and `handleInputFuel` closes the loop. -/

/-- Type of `handleInput`. -/
abbrev Handler := Messenger → Screen → GoString → World → World

/-- Source `logon` (wopr.go 321-330). -/
def logon (hi : Handler) (msgr : Messenger) (w : World) : World :=
  let w := UpdateState msgr LOGON w
  let w := bumpLine msgr [] w
  let w := animateMessage msgr (lit "LOGON: ") w
  if ScanSupport msgr then
    match scan w with
    | some (login, w) => hi msgr LOGON login w
    | none => w.emit (Event.await LOGON)
  else w

/-- Source `help` (wopr.go 332-337). -/
def help (hi : Handler) (msgr : Messenger) (w : World) : World :=
  let w := bumpLine msgr [] w
  let w := animateMessage msgr (lit "HELP NOT AVAILABLE") w
  let w := bumpLine msgr [] w
  logon hi msgr w

/-- Source `helpGames` (wopr.go 339-352). -/
def helpGames (hi : Handler) (msgr : Messenger) (w : World) : World :=
  let w := UpdateState msgr GAMES w
  let w := bumpLine msgr [] w
  let w := animateMessage msgr (lit "'GAMES' REFERS TO MODELS, SIMULATIONS AND GAMES") w
  let w := bumpLine msgr [] w
  let w := animateMessage msgr (lit "WHICH HAVE TACTICAL AND STRATEGIC APPLICATIONS.") w
  let w := bumpLine msgr [2] w
  if ScanSupport msgr then
    match scan w with
    | some (games, w) => hi msgr GAMES games w
    | none => w.emit (Event.await GAMES)
  else w

/-- The slice `games` of `listGames` (wopr.go 355-371). -/
def games : List GoString :=
  [ lit "FALKEN'S MAZE",
    lit "BLACK JACK",
    lit "GIN RUMMY",
    lit "HEARTS",
    lit "BRIDGE",
    lit "CHECKERS",
    lit "CHESS",
    lit "POKER",
    lit "FIGHTER COMBAT",
    lit "GUERILLA ENGAGEMENT",
    lit "DESERT WARFARE",
    lit "AIR-TO-GROUND ACTIONS",
    lit "THEATERWIDE TACTICAL WARFARE",
    lit "THEATERWIDE BIOTOXIC AND CHEMICAL WARFARE",
    lit "GLOBAL THERMONUCLEAR WAR" ]

/-- Source `listGames` (wopr.go 354-391). -/
def listGames (hi : Handler) (msgr : Messenger) (w : World) : World :=
  let w := bumpLine msgr [] w
  let w := games.enum.foldl
    (fun w ig =>
      let w := if ig.1 = games.length - 1 then bumpLine msgr [] w else w
      let w := animateMessage msgr ig.2 w
      let w := bumpLine msgr [] w
      if ig.1 = games.length - 1 then bumpLine msgr [] w else w) w
  logon hi msgr w

/-- Source `greeting` (wopr.go 393-404). -/
def greeting (hi : Handler) (msgr : Messenger) (w : World) : World :=
  let w := UpdateState msgr GREETING w
  let w := Send msgr CLEAR w
  let w := setCursorPosition 0 0 msgr w
  let w := animateMessage msgr (lit "GREETINGS PROFESSOR FALKEN.") w
  let w := bumpLine msgr [2] w
  if ScanSupport msgr then
    match scan w with
    | some (greetings, w) => hi msgr GREETING greetings w
    | none => w.emit (Event.await GREETING)
  else w

/-- Source `wellbeing` (wopr.go 406-416). -/
def wellbeing (hi : Handler) (msgr : Messenger) (w : World) : World :=
  let w := UpdateState msgr WELLBEING w
  let w := bumpLine msgr [2] w
  let w := animateMessage msgr (lit "HOW ARE YOU FEELING TODAY?") w
  let w := bumpLine msgr [2] w
  if ScanSupport msgr then
    match scan w with
    | some (feeling, w) => hi msgr WELLBEING feeling w
    | none => w.emit (Event.await WELLBEING)
  else w

/-- Source `explanation` (wopr.go 418-430). -/
def explanation (hi : Handler) (msgr : Messenger) (w : World) : World :=
  let w := UpdateState msgr EXPLANATION w
  let w := bumpLine msgr [2] w
  let w := animateMessage msgr (lit "EXCELLENT. IT'S BEEN A LONG TIME. CAN YOU EXPLAIN") w
  let w := bumpLine msgr [] w
  let w := animateMessage msgr (lit "THE REMOVAL OF YOUR USER ACCOUNT NUMBER ON 6/23/73?") w
  let w := bumpLine msgr [2] w
  if ScanSupport msgr then
    match scan w with
    | some (explanation, w) => hi msgr EXPLANATION explanation w
    | none => w.emit (Event.await EXPLANATION)
  else w

/-- Source `playGame` (wopr.go 432-442). -/
def playGame (hi : Handler) (msgr : Messenger) (w : World) : World :=
  let w := UpdateState msgr PLAY_GAME w
  let w := bumpLine msgr [2] w
  let w := animateMessage msgr (lit "YES, THEY DO. SHALL WE PLAY A GAME?") w
  let w := bumpLine msgr [2] w
  if ScanSupport msgr then
    match scan w with
    | some (playGame, w) => hi msgr PLAY_GAME playGame w
    | none => w.emit (Event.await PLAY_GAME)
  else w

/-- Source `playGameVerify` (wopr.go 444-454). -/
def playGameVerify (hi : Handler) (msgr : Messenger) (w : World) : World :=
  let w := UpdateState msgr PLAY_GAME_VERIFY w
  let w := bumpLine msgr [2] w
  let w := animateMessage msgr (lit "WOULDN'T YOU PREFER A GOOD GAME OF CHESS?") w
  let w := bumpLine msgr [2] w
  if ScanSupport msgr then
    match scan w with
    | some (verify, w) => hi msgr PLAY_GAME_VERIFY verify w
    | none => w.emit (Event.await PLAY_GAME_VERIFY)
  else w

/-- Source `globalThermoNuclearWar` (wopr.go 468-516). -/
def globalThermoNuclearWar (hi : Handler) (msgr : Messenger) (w : World) : World :=
  let w := UpdateState msgr GLOBAL_THERMONOCULEAR_WAR w
  let w := animateMessage msgr (lit "Fine.") w
  let w := Send msgr CLEAR w
  let w := setCursorPosition 0 0 msgr w
  let usLines := Split US 10
  let sovietLines := Split SOVIET_UNION 10
  let maxLines := usLines.length
  let maxLines := if sovietLines.length > maxLines then sovietLines.length else maxLines
  let w := (List.range maxLines).foldl
    (fun w i =>
      let line1 := if i < usLines.length then usLines.getD i [] else lit ""
      let line2 := if i < sovietLines.length then sovietLines.getD i [] else lit ""
      animateMessage msgr (padRight 40 line1 ++ lit "  " ++ padRight 40 line2 ++ lit "\n") w) w
  let w := bumpLine msgr [] w
  let w := animateMessage msgr
    (padLeft 24 (lit "UNITED STATES") ++ padLeft 36 (lit "SOVIET UNION") ++ lit "\n\n") w
  let w := bumpLine msgr [2] w
  let w := animateMessage msgr (lit "WHICH SIDE DO YOU WANT?") w
  let w := bumpLine msgr [2] w
  let w := animateMessage msgr (lit "  1.    UNITED STATES") w
  let w := bumpLine msgr [] w
  let w := animateMessage msgr (lit "  2.    SOVIET UNION") w
  let w := bumpLine msgr [2] w
  let w := animateMessage msgr (lit "PLEASE CHOOSE ONE: ") w
  if ScanSupport msgr then
    match scan w with
    | some (_, w) => hi msgr GLOBAL_THERMONOCULEAR_WAR (lit "") w
    | none => w.emit (Event.await GLOBAL_THERMONOCULEAR_WAR)
  else w

/-- Go `strings.Repeat`. -/
def Repeat (s : GoString) (count : Nat) : GoString := (List.replicate count s).flatten

/-- Source `strikeCommands` (wopr.go 518-538). -/
def strikeCommands (hi : Handler) (msgr : Messenger) (w : World) : World :=
  let w := UpdateState msgr STRIKE_COMMAND w
  let w := Send msgr CLEAR w
  let w := setCursorPosition 0 0 msgr w
  let awaitingMsg := lit "AWAITING FIRST STRIKE COMMAND"
  let w := animateMessage msgr awaitingMsg w
  let w := bumpLine msgr [] w
  let w := animateMessage msgr (Repeat UNDERLINE awaitingMsg.length) w
  let w := bumpLine msgr [2] w
  let w := animateMessage msgr (lit "PLEASE LIST PRIMARY TARGETS BY") w
  let w := bumpLine msgr [] w
  let w := animateMessage msgr (lit "CITY AND/OR COUNTY NAME:") w
  let w := bumpLine msgr [2] w
  if ScanSupport msgr then
    match scan w with
    | some (city, w) => hi msgr STRIKE_COMMAND city w
    | none => w.emit (Event.await STRIKE_COMMAND)
  else w

/-- Source `strikeCommandDos` (wopr.go 540-549). -/
def strikeCommandDos (hi : Handler) (msgr : Messenger) (w : World) : World :=
  let w := UpdateState msgr STRIKE_COMMAND_2 w
  let w := bumpLine msgr [] w
  if ScanSupport msgr then
    match scan w with
    | some (city, w) => hi msgr LOGON city w
    | none => w.emit (Event.await LOGON)
  else w

/-- Source `notRecognized` (wopr.go 551-558). -/
def notRecognized (hi : Handler) (msgr : Messenger) (w : World) : World :=
  let w := bumpLine msgr [] w
  let w := animateMessage msgr (lit "IDENTIFICATION NOT RECOGNIZED BY SYSTEM\n") w
  let w := animateMessage msgr (lit "--CONNECTION TERMINATED--") w
  let w := bumpLine msgr [] w
  let w := Disconnect msgr w
  logon hi msgr w

/-- Body of source `handleInput` (wopr.go 207-277), calling back through `hi`. -/
def handleInputBody (tbl : Nat → Nat) (hi : Handler) (msgr : Messenger) (screen : Screen)
    (msg : GoString) (w : World) : World :=
  let msg := stripInput tbl msg
  let w := if !ScanSupport msgr then w.emit (Event.stdout (msg ++ lit "\n")) else w
  match screen with
  | LOGON =>
    if msg = lit "JOSHUA" then greeting hi msgr w
    else if msg = lit "HELP" ∨ msg = lit "HELP LOGON" then help hi msgr w
    else if msg = lit "HELP GAMES" then helpGames hi msgr w
    else notRecognized hi msgr w
  | GAMES =>
    if msg = lit "LIST GAMES" then listGames hi msgr w
    else logon hi msgr w
  | GREETING => wellbeing hi msgr w
  | WELLBEING => explanation hi msgr w
  | EXPLANATION => playGame hi msgr w
  | PLAY_GAME => playGameVerify hi msgr w
  | PLAY_GAME_VERIFY => globalThermoNuclearWar hi msgr w
  | GLOBAL_THERMONOCULEAR_WAR => strikeCommands hi msgr w
  | STRIKE_COMMAND => strikeCommandDos hi msgr w
  | STRIKE_COMMAND_2 => w

/-- Source `handleInput` with a bound on the nesting of calls: `fuel` is the
number of nested `handleInput` calls allowed. -/
def handleInputFuel (tbl : Nat → Nat) : Nat → Handler
  | 0 => fun _ _ _ w => w
  | fuel + 1 => handleInputBody tbl (handleInputFuel tbl fuel)

/-- Source `handleInput` (wopr.go 207-277).  Every nested call consumes one
line of the standard input, so one more level than there are lines is enough
(see `handleInputFuel_enough`). -/
def handleInput (tbl : Nat → Nat) (msgr : Messenger) (screen : Screen) (msg : GoString)
    (w : World) : World :=
  handleInputFuel tbl (w.stdin.length + 1) msgr screen msg w

/-- Source `identifyServer` (wopr.go 299-319). -/
def identifyServer (msgr : Messenger) (w : World) : World :=
  let w := Send msgr CLEAR w
  let w := setCursorPosition 0 0 msgr w
  let curWidth := getTerminalWidth w
  let printBlocks := fun (w : World) =>
    let w := (List.range curWidth.toNat).foldl
      (fun w i => Send msgr (lit "\r" ++ padLeft i FULL_BLOCK) w) w
    Send msgr CLEAR_AND_RESTORE w
  let w := printBlocks w
  let w := bumpLine msgr [] w
  printBlocks w

/-- Source `initWOPR` (wopr.go 287-297). -/
def initWOPR (tbl : Nat → Nat) (msgr : Messenger) (w : World) : World :=
  let w := Send msgr (lit "\x1b[38;5;51m") w
  let w := identifyServer msgr w
  let w := logon (handleInput tbl) msgr w
  Send msgr (lit "\x1b[0m") w

/-- A handler that does nothing: what `handleInputFuel` is without fuel. -/
def idle : Handler := fun _ _ _ w => w

/-- The network session loop body without the telnet filter (wopr.go 203): each
input is handled at the screen recorded for the connection. -/
def feed (tbl : Nat → Nat) (c : Conn) (inputs : List GoString) (w : World) : World :=
  inputs.foldl
    (fun w input => handleInput tbl (.NetworkMessenger c) (mapGet w.tcpClients c).Screen input w) w

/-- A world in which nothing has happened: no connection, no input typed, an
80 column terminal. -/
def World.initial : World :=
  { tcpClients := fun _ => none, currentRow := 0, stdin := [], termWidth := 80, termErr := false,
    trace := [] }

/-- The tail shared by the screen functions (`if msgr.ScanSupport()` followed by
`scan()` and `handleInput`): `next` is the screen passed on and `arg` turns the
line read into the message passed on. -/
def scanThen (hi : Handler) (msgr : Messenger) (next : Screen) (arg : GoString → GoString)
    (w : World) : World :=
  if ScanSupport msgr then
    match scan w with
    | some (line, w) => hi msgr next (arg line) w
    | none => w.emit (Event.await next)
  else w

/-- Two handlers agree on every world with fewer than `n` lines left to read. -/
def agreeBelow (n : Nat) (h1 h2 : Handler) : Prop :=
  ∀ (m : Messenger) (s : Screen) (msg : GoString) (w : World),
    w.stdin.length < n → h1 m s msg w = h2 m s msg w

/-- The text typed by the loop of `globalThermoNuclearWar` (wopr.go 474-496):
the rows of the two maps side by side. -/
def artText : GoString :=
  let usLines := Split US 10
  let sovietLines := Split SOVIET_UNION 10
  let maxLines := usLines.length
  let maxLines := if sovietLines.length > maxLines then sovietLines.length else maxLines
  ((List.range maxLines).map (fun i =>
    let line1 := if i < usLines.length then usLines.getD i [] else lit ""
    let line2 := if i < sovietLines.length then sovietLines.getD i [] else lit ""
    padRight 40 line1 ++ lit "  " ++ padRight 40 line2 ++ lit "\n")).flatten

/-- The loop of `listGames` (wopr.go 374-387). -/
def listGamesLoop (msgr : Messenger) (w : World) : World :=
  games.enum.foldl
    (fun w ig =>
      let w := if ig.1 = games.length - 1 then bumpLine msgr [] w else w
      let w := animateMessage msgr ig.2 w
      let w := bumpLine msgr [] w
      if ig.1 = games.length - 1 then bumpLine msgr [] w else w) w

/-! ## Observations on a trace -/

/-- The effect of one `Send` of a messenger. -/
def sendEvent : Messenger → GoString → Event
  | .ConsoleMessenger, s => Event.stdout s
  | .NetworkMessenger client, s => Event.write client s

/-- Bytes passed to `client.Write` on connection `c`, concatenated in order. -/
def written (c : Conn) (t : List Event) : GoString :=
  t.flatMap (fun e => match e with
    | Event.write d s => if d = c then s else []
    | _ => [])

/-- Bytes printed on the standard output, concatenated in order. -/
def printed (t : List Event) : GoString :=
  t.flatMap (fun e => match e with
    | Event.stdout s => s
    | _ => [])

/-- Number of `Close` calls in a trace.  `Close` is called by `Disconnect` of a
network messenger and nowhere else, once for each call. -/
def closes (t : List Event) : Nat :=
  t.countP (fun e => match e with
    | Event.close _ => true
    | _ => false)

/-- Screen recorded in `tcpClients` for a connection, if it has an entry. -/
def screenOf (w : World) (c : Conn) : Option Screen := (w.tcpClients c).map (fun st => st.Screen)

/-- Number of iterations of the loop of `bumpLine`. -/
def bumpCount (n : List Int) : Nat := (if (n.length : Int) = 0 then (1 : Int) else n.headD 0).toNat

/-- Bytes written to connection `c` between the world `w` and the later world `w'`. -/
def writtenSince (c : Conn) (w w' : World) : GoString :=
  (written c w'.trace).drop (written c w.trace).length

/-- The four tokens LOGON accepts (wopr.go 220-230). -/
def logonTokens : List GoString := [lit "JOSHUA", lit "HELP", lit "HELP LOGON", lit "HELP GAMES"]

/-- The reject action as seen from outside, between the world `w` before an
input and the world `w'` after it: both messages were sent to the connection,
`Disconnect` ran exactly once, and the screen recorded for it is LOGON. -/
def rejected (c : Conn) (w w' : World) : Prop :=
  lit "IDENTIFICATION NOT RECOGNIZED BY SYSTEM" <:+: writtenSince c w w'
  ∧ lit "--CONNECTION TERMINATED--" <:+: writtenSince c w w'
  ∧ closes w'.trace = closes w.trace + 1
  ∧ screenOf w' c = some LOGON

/-- The game list as the specification describes it: one newline, the first
fourteen names each followed by a newline, one more newline, the last name,
two newlines. -/
def gamesText : GoString :=
  lit "\n" ++ (games.take 14).flatMap (fun g => g ++ lit "\n") ++ lit "\n"
    ++ lit "GLOBAL THERMONUCLEAR WAR" ++ lit "\n\n"

/-- The side-selection menu, as it appears on the terminal. -/
def menuText : GoString :=
  lit "WHICH SIDE DO YOU WANT?\n\n  1.    UNITED STATES\n  2.    SOVIET UNION\n\nPLEASE CHOOSE ONE: "

/-- What `globalThermoNuclearWar` types before the side-selection menu. -/
def warIntro : GoString :=
  lit "Fine." ++ CLEAR ++ lit "\x1b[1;1f" ++ artText.flatMap fmtC ++ lit "\n"
    ++ (padLeft 24 (lit "UNITED STATES") ++ padLeft 36 (lit "SOVIET UNION")
        ++ lit "\n\n").flatMap fmtC
    ++ lit "\n\n"

/-- What the first five screens of the conversation type on the terminal:
GREETING, WELLBEING, EXPLANATION, PLAY_GAME and PLAY_GAME_VERIFY. -/
def fiveText : GoString :=
  lit ("\x1b[2J\x1b[1;1fGREETINGS PROFESSOR FALKEN.\n\n" ++
    "\n\nHOW ARE YOU FEELING TODAY?\n\n" ++
    "\n\nEXCELLENT. IT'S BEEN A LONG TIME. CAN YOU EXPLAIN\n" ++
    "THE REMOVAL OF YOUR USER ACCOUNT NUMBER ON 6/23/73?\n\n" ++
    "\n\nYES, THEY DO. SHALL WE PLAY A GAME?\n\n" ++
    "\n\nWOULDN'T YOU PREFER A GOOD GAME OF CHESS?\n\n")

/-! ## The network server (wopr.go 146-205) -/

/-- The result of one `client.Read(buf)` on a fresh buffer: the bytes received
(`buf[0:numBytes]`) and whether an error is returned with them. -/
structure ReadResult where
  /-- Bytes put into the buffer. -/
  bytes : GoString
  /-- Whether `err != nil`. -/
  err : Bool

/-- One round of the loop of `connectClient` (wopr.go 190-204) for one read
result: `none` when the function returns, else the world after the round. -/
def readStep (tbl : Nat → Nat) (client : Conn) (r : ReadResult) (w : World) : Option World :=
  if r.bytes.length = 0 ∨ r.err = true then none
  else if r.bytes.headD 0 = 255 then some w
  else some (handleInput tbl (.NetworkMessenger client) (mapGet w.tcpClients client).Screen
    r.bytes w)

/-- The loop of `connectClient` (wopr.go 190-204) over the results of the
successive `Read` calls.  The Boolean tells whether the function has returned;
it is false when the read results are used up, that is, while the session
waits in `Read`. -/
def connectClientLoop (tbl : Nat → Nat) (client : Conn) : List ReadResult → World → World × Bool
  | [], w => (w, false)
  | r :: rest, w =>
    match readStep tbl client r w with
    | none => (w, true)
    | some w => connectClientLoop tbl client rest w

/-- Source `connectClient` (wopr.go 185-205). -/
def connectClient (tbl : Nat → Nat) (client : Conn) (reads : List ReadResult) (w : World) :
    World × Bool :=
  let w := initWOPR tbl (.NetworkMessenger client) w
  connectClientLoop tbl client reads w

/-- One result of `listener.Accept()`: an error, or a connection together with
the results of the reads that will be made on it. -/
inductive Accepted
  | error
  | conn (client : Conn) (reads : List ReadResult)

/-- The accept loop of `main` in server mode (wopr.go 167-178) over the results
of the successive `Accept` calls.  The second component tells where `main` is
when the results are used up: `none` in `Accept`, `some c` inside
`connectClient` for the connection `c`, which waits in `Read`. -/
def acceptLoop (tbl : Nat → Nat) : List Accepted → World → World × Option Conn
  | [], w => (w, none)
  | Accepted.error :: rest, w => acceptLoop tbl rest w
  | Accepted.conn client reads :: rest, w =>
    let w := register client w
    match connectClient tbl client reads w with
    | (w, true) => acceptLoop tbl rest w
    | (w, false) => (w, some client)

/-- Steps that touch the registry of a running server: a connection is accepted
and greeted, a read result arrives for a connection, a screen is recorded, a
messenger is disconnected. -/
inductive Op
  | accept (client : Conn)
  | read (client : Conn) (r : ReadResult)
  | update (client : Conn) (scr : Screen)
  | disconnect (client : Conn)

/-- The world after one step. -/
def Op.run (tbl : Nat → Nat) : Op → World → World
  | Op.accept client, w => initWOPR tbl (.NetworkMessenger client) (register client w)
  | Op.read client r, w => (readStep tbl client r w).getD w
  | Op.update client scr, w => UpdateState (.NetworkMessenger client) scr w
  | Op.disconnect client, w => Disconnect (.NetworkMessenger client) w

/-- Every entry of the registry has `Authenticated = false`. -/
def NoneAuthenticated (w : World) : Prop :=
  ∀ (k : Conn) (st : ClientState), w.tcpClients k = some st → st.Authenticated = false

/-- Number of `Send` calls on connection `c` whose message is one newline. -/
def newlineWrites (c : Conn) (t : List Event) : Nat :=
  t.countP (fun e => decide (e = Event.write c (lit "\n")))

/-- Between the worlds `w` and `w'` there were `writes` sends of one newline to
connection `c`, and the row counter `currentRow` went up by `bumps`. -/
def Accounts (c : Conn) (w w' : World) (writes bumps : Nat) : Prop :=
  newlineWrites c w'.trace = newlineWrites c w.trace + writes
  ∧ w'.currentRow = w.currentRow + bumps

/-! ## The transition table -/

/-- The transition table of the dialogue, output part: the bytes a network
session is sent in answer to a token at a screen. -/
def reply (screen : Screen) (token : GoString) : GoString :=
  match screen with
  | LOGON =>
    if token = lit "JOSHUA" then lit "\x1b[2J\x1b[1;1fGREETINGS PROFESSOR FALKEN.\n\n"
    else if token = lit "HELP" ∨ token = lit "HELP LOGON" then lit "\nHELP NOT AVAILABLE\n\nLOGON: "
    else if token = lit "HELP GAMES" then
      lit ("\n'GAMES' REFERS TO MODELS, SIMULATIONS AND GAMES\n"
        ++ "WHICH HAVE TACTICAL AND STRATEGIC APPLICATIONS.\n\n")
    else lit
      "\nIDENTIFICATION NOT RECOGNIZED BY SYSTEM\n--CONNECTION TERMINATED--\n\x1b[0m\nLOGON: "
  | GAMES => if token = lit "LIST GAMES" then gamesText ++ lit "\nLOGON: " else lit "\nLOGON: "
  | GREETING => lit "\n\nHOW ARE YOU FEELING TODAY?\n\n"
  | WELLBEING =>
    lit ("\n\nEXCELLENT. IT'S BEEN A LONG TIME. CAN YOU EXPLAIN\n"
      ++ "THE REMOVAL OF YOUR USER ACCOUNT NUMBER ON 6/23/73?\n\n")
  | EXPLANATION => lit "\n\nYES, THEY DO. SHALL WE PLAY A GAME?\n\n"
  | PLAY_GAME => lit "\n\nWOULDN'T YOU PREFER A GOOD GAME OF CHESS?\n\n"
  | PLAY_GAME_VERIFY => warIntro ++ menuText
  | GLOBAL_THERMONOCULEAR_WAR =>
    lit ("\x1b[2J\x1b[1;1fAWAITING FIRST STRIKE COMMAND\n"
      ++ "-----------------------------\n\n"
      ++ "PLEASE LIST PRIMARY TARGETS BY\nCITY AND/OR COUNTY NAME:\n\n")
  | STRIKE_COMMAND => lit "\n"
  | STRIKE_COMMAND_2 => []

/-- The transition table of the dialogue, screen part: the screen recorded
for a network session after a token at a screen; `none` where nothing is
recorded. -/
def nextScreen (screen : Screen) (token : GoString) : Option Screen :=
  match screen with
  | LOGON =>
    if token = lit "JOSHUA" then some GREETING
    else if token = lit "HELP" ∨ token = lit "HELP LOGON" then some LOGON
    else if token = lit "HELP GAMES" then some GAMES
    else some LOGON
  | GAMES => some LOGON
  | GREETING => some WELLBEING
  | WELLBEING => some EXPLANATION
  | EXPLANATION => some PLAY_GAME
  | PLAY_GAME => some PLAY_GAME_VERIFY
  | PLAY_GAME_VERIFY => some GLOBAL_THERMONOCULEAR_WAR
  | GLOBAL_THERMONOCULEAR_WAR => some STRIKE_COMMAND
  | STRIKE_COMMAND => some STRIKE_COMMAND_2
  | STRIKE_COMMAND_2 => none

/-- The transition table of the dialogue, reject part: whether the token is
rejected at the screen, which is when `Disconnect` runs. -/
def isReject (screen : Screen) (token : GoString) : Bool :=
  match screen with
  | LOGON => decide (token ∉ logonTokens)
  | _ => false

/-- The entry of a connection after a step of the dialogue, from its entry before. -/
def nextEntry (screen : Screen) (token : GoString) (e : Option ClientState) : Option ClientState :=
  match nextScreen screen token with
  | none => e
  | some s =>
    if isReject screen token then some ⟨false, s⟩
    else some { Authenticated := (e.getD ClientState.zero).Authenticated, Screen := s }

/-! ## Theorems -/

/-! ### Basic facts on the helpers -/

theorem Send_eq (m : Messenger) (s : GoString) (w : World) :
    Send m s w = { w with trace := w.trace ++ [sendEvent m s] } := by
  cases m <;> rfl

theorem animateMessage_eq (m : Messenger) (msg : GoString) (w : World) :
    animateMessage m msg w
      = { w with trace := w.trace ++ msg.map (fun c => sendEvent m (fmtC c)) } := by
  unfold animateMessage
  induction msg generalizing w with
  | nil => simp
  | cons c cs ih =>
    rw [List.foldl_cons, ih, Send_eq]
    simp

theorem bumpLine_loop (m : Messenger) (k : Nat) (w : World) :
    (List.range k).foldl
      (fun w _ => { Send m (lit "\n") w with
        currentRow := wrapInt ((Send m (lit "\n") w).currentRow + 1) }) w
      = { w with trace := w.trace ++ List.replicate k (sendEvent m (lit "\n")),
                 currentRow := (fun r => wrapInt (r + 1))^[k] w.currentRow } := by
  induction k generalizing w with
  | zero => simp
  | succ k ih =>
    rw [List.range_succ, List.foldl_append, ih]
    simp [Send_eq, List.replicate_succ', Function.iterate_succ_apply']

theorem bumpLine_eq (m : Messenger) (n : List Int) (w : World) :
    bumpLine m n w
      = { w with trace := w.trace ++ List.replicate (bumpCount n) (sendEvent m (lit "\n")),
                 currentRow := (fun r => wrapInt (r + 1))^[bumpCount n] w.currentRow } := by
  unfold bumpLine bumpCount
  exact bumpLine_loop m _ w

theorem setCursorPosition_eq (row col : Int) (m : Messenger) (w : World) :
    setCursorPosition row col m w
      = { w with trace := w.trace ++ [sendEvent m
          (lit "\x1b[" ++ fmtD (wrapInt (row + 1)) ++ lit ";" ++ fmtD (wrapInt (col + 1)) ++ lit "f")] } := by
  unfold setCursorPosition
  rw [Send_eq]

/-! ### Observations are additive -/

@[simp] theorem sendEvent_network (c : Conn) (s : GoString) :
    sendEvent (.NetworkMessenger c) s = Event.write c s := rfl

@[simp] theorem sendEvent_console (s : GoString) :
    sendEvent .ConsoleMessenger s = Event.stdout s := rfl

@[simp] theorem written_nil (c : Conn) : written c [] = [] := rfl

@[simp] theorem written_append (c : Conn) (a b : List Event) :
    written c (a ++ b) = written c a ++ written c b := by
  simp [written]

@[simp] theorem written_cons_write (c : Conn) (s : GoString) (t : List Event) :
    written c (Event.write c s :: t) = s ++ written c t := by
  simp [written]

@[simp] theorem written_cons_stdout (c : Conn) (s : GoString) (t : List Event) :
    written c (Event.stdout s :: t) = written c t := by
  simp [written]

@[simp] theorem written_cons_close (c d : Conn) (t : List Event) :
    written c (Event.close d :: t) = written c t := by
  simp [written]

@[simp] theorem written_animate (c : Conn) (msg : GoString) :
    written c (msg.map (fun b => Event.write c (fmtC b))) = msg.flatMap fmtC := by
  induction msg with
  | nil => rfl
  | cons s ss ih =>
    simp only [List.map_cons, List.flatMap_cons]
    rw [← ih]
    simp [written]

@[simp] theorem written_replicate (c : Conn) (k : Nat) (s : GoString) :
    written c (List.replicate k (Event.write c s)) = (List.replicate k s).flatten := by
  induction k with
  | zero => rfl
  | succ k ih => simp [List.replicate_succ, written] at ih ⊢; exact ih

@[simp] theorem closes_nil : closes [] = 0 := rfl

@[simp] theorem closes_append (a b : List Event) : closes (a ++ b) = closes a + closes b := by
  simp [closes]

@[simp] theorem closes_cons_write (c : Conn) (s : GoString) (t : List Event) :
    closes (Event.write c s :: t) = closes t := by
  simp [closes]

@[simp] theorem closes_cons_stdout (s : GoString) (t : List Event) :
    closes (Event.stdout s :: t) = closes t := by
  simp [closes]

@[simp] theorem closes_cons_close (d : Conn) (t : List Event) :
    closes (Event.close d :: t) = closes t + 1 := by
  simp [closes]

@[simp] theorem closes_animate (m : Messenger) (msg : GoString) :
    closes (msg.map (fun b => sendEvent m (fmtC b))) = 0 := by
  cases m <;> simp [closes, sendEvent]

@[simp] theorem closes_animate_write (c : Conn) (msg : GoString) :
    closes (msg.map (fun b => Event.write c (fmtC b))) = 0 :=
  closes_animate (.NetworkMessenger c) msg

@[simp] theorem closes_replicate (m : Messenger) (k : Nat) (s : GoString) :
    closes (List.replicate k (sendEvent m s)) = 0 := by
  cases m <;> simp [closes, sendEvent, List.countP_replicate]

@[simp] theorem closes_replicate_write (c : Conn) (k : Nat) (s : GoString) :
    closes (List.replicate k (Event.write c s)) = 0 :=
  closes_replicate (.NetworkMessenger c) k s

@[simp] theorem bumpCount_nil : bumpCount [] = 1 := rfl

@[simp] theorem bumpCount_two : bumpCount [2] = 2 := rfl

/-- A loop of `animateMessage` calls appends the bytes of all messages. -/
theorem foldl_animate {α : Type} (m : Messenger) (f : α → GoString) (l : List α) (w : World) :
    l.foldl (fun w i => animateMessage m (f i) w) w
      = { w with trace := w.trace
            ++ l.flatMap (fun i => (f i).map (fun b => sendEvent m (fmtC b))) } := by
  induction l generalizing w with
  | nil => simp
  | cons i l ih =>
    rw [List.foldl_cons, ih, animateMessage_eq]
    simp

@[simp] theorem closes_flatMap_animate {α : Type} (m : Messenger) (f : α → GoString) (l : List α) :
    closes (l.flatMap (fun i => (f i).map (fun b => sendEvent m (fmtC b)))) = 0 := by
  induction l with
  | nil => rfl
  | cons i l ih => simp [List.flatMap_cons, ih]

/-! ### A network messenger never calls back -/

set_option maxRecDepth 4000 in
/-- On a network messenger `ScanSupport` is false, so no screen function calls
the handler it was given. -/
theorem handleInputBody_network (tbl : Nat → Nat) (hi : Handler) (c : Conn) (screen : Screen)
    (msg : GoString) (w : World) :
    handleInputBody tbl hi (.NetworkMessenger c) screen msg w
      = handleInputBody tbl idle (.NetworkMessenger c) screen msg w := by
  cases screen
  · unfold handleInputBody
    simp only []
    split_ifs <;> rfl
  · unfold handleInputBody
    simp only []
    split_ifs <;> rfl
  all_goals rfl

theorem handleInput_network (tbl : Nat → Nat) (c : Conn) (screen : Screen) (msg : GoString)
    (w : World) :
    handleInput tbl (.NetworkMessenger c) screen msg w
      = handleInputBody tbl idle (.NetworkMessenger c) screen msg w := by
  unfold handleInput handleInputFuel
  exact handleInputBody_network tbl _ c screen msg w

/-! ### The screen functions as compositions -/

theorem animateMessage_append (m : Messenger) (a b : GoString) (w : World) :
    animateMessage m (a ++ b) w = animateMessage m b (animateMessage m a w) := by
  simp [animateMessage]

theorem foldl_animate_flatten {α : Type} (m : Messenger) (f : α → GoString) (l : List α)
    (w : World) :
    l.foldl (fun w i => animateMessage m (f i) w) w = animateMessage m (l.map f).flatten w := by
  induction l generalizing w with
  | nil => rfl
  | cons i l ih =>
    rw [List.foldl_cons, ih, List.map_cons, List.flatten_cons, animateMessage_append]

theorem logon_eq (hi : Handler) (m : Messenger) (w : World) :
    logon hi m w = scanThen hi m LOGON id
      (animateMessage m (lit "LOGON: ") (bumpLine m [] (UpdateState m LOGON w))) := rfl

theorem help_eq (hi : Handler) (m : Messenger) (w : World) :
    help hi m w = logon hi m
      (bumpLine m [] (animateMessage m (lit "HELP NOT AVAILABLE") (bumpLine m [] w))) := rfl

theorem helpGames_eq (hi : Handler) (m : Messenger) (w : World) :
    helpGames hi m w = scanThen hi m GAMES id
      (bumpLine m [2]
      (animateMessage m (lit "WHICH HAVE TACTICAL AND STRATEGIC APPLICATIONS.")
      (bumpLine m []
      (animateMessage m (lit "'GAMES' REFERS TO MODELS, SIMULATIONS AND GAMES")
      (bumpLine m [] (UpdateState m GAMES w)))))) := rfl

theorem listGames_eq (hi : Handler) (m : Messenger) (w : World) :
    listGames hi m w = logon hi m (listGamesLoop m (bumpLine m [] w)) := rfl

theorem greeting_eq (hi : Handler) (m : Messenger) (w : World) :
    greeting hi m w = scanThen hi m GREETING id
      (bumpLine m [2] (animateMessage m (lit "GREETINGS PROFESSOR FALKEN.")
      (setCursorPosition 0 0 m (Send m CLEAR (UpdateState m GREETING w))))) := rfl

theorem wellbeing_eq (hi : Handler) (m : Messenger) (w : World) :
    wellbeing hi m w = scanThen hi m WELLBEING id
      (bumpLine m [2] (animateMessage m (lit "HOW ARE YOU FEELING TODAY?")
      (bumpLine m [2] (UpdateState m WELLBEING w)))) := rfl

theorem explanation_eq (hi : Handler) (m : Messenger) (w : World) :
    explanation hi m w = scanThen hi m EXPLANATION id
      (bumpLine m [2]
      (animateMessage m (lit "THE REMOVAL OF YOUR USER ACCOUNT NUMBER ON 6/23/73?")
      (bumpLine m []
      (animateMessage m (lit "EXCELLENT. IT'S BEEN A LONG TIME. CAN YOU EXPLAIN")
      (bumpLine m [2] (UpdateState m EXPLANATION w)))))) := rfl

theorem playGame_eq (hi : Handler) (m : Messenger) (w : World) :
    playGame hi m w = scanThen hi m PLAY_GAME id
      (bumpLine m [2] (animateMessage m (lit "YES, THEY DO. SHALL WE PLAY A GAME?")
      (bumpLine m [2] (UpdateState m PLAY_GAME w)))) := rfl

theorem playGameVerify_eq (hi : Handler) (m : Messenger) (w : World) :
    playGameVerify hi m w = scanThen hi m PLAY_GAME_VERIFY id
      (bumpLine m [2] (animateMessage m (lit "WOULDN'T YOU PREFER A GOOD GAME OF CHESS?")
      (bumpLine m [2] (UpdateState m PLAY_GAME_VERIFY w)))) := rfl

set_option maxRecDepth 100000 in
theorem globalThermoNuclearWar_eq (hi : Handler) (m : Messenger) (w : World) :
    globalThermoNuclearWar hi m w
      = scanThen hi m GLOBAL_THERMONOCULEAR_WAR (fun _ => lit "")
        (animateMessage m (lit "PLEASE CHOOSE ONE: ")
        (bumpLine m [2]
        (animateMessage m (lit "  2.    SOVIET UNION")
        (bumpLine m []
        (animateMessage m (lit "  1.    UNITED STATES")
        (bumpLine m [2]
        (animateMessage m (lit "WHICH SIDE DO YOU WANT?")
        (bumpLine m [2]
        (animateMessage m
          (padLeft 24 (lit "UNITED STATES") ++ padLeft 36 (lit "SOVIET UNION") ++ lit "\n\n")
        (bumpLine m []
        (animateMessage m artText
        (setCursorPosition 0 0 m
        (Send m CLEAR
        (animateMessage m (lit "Fine.")
        (UpdateState m GLOBAL_THERMONOCULEAR_WAR w))))))))))))))) := by
  unfold globalThermoNuclearWar
  simp only [foldl_animate_flatten]
  rfl

theorem strikeCommands_eq (hi : Handler) (m : Messenger) (w : World) :
    strikeCommands hi m w = scanThen hi m STRIKE_COMMAND id
      (bumpLine m [2]
      (animateMessage m (lit "CITY AND/OR COUNTY NAME:")
      (bumpLine m []
      (animateMessage m (lit "PLEASE LIST PRIMARY TARGETS BY")
      (bumpLine m [2]
      (animateMessage m (Repeat UNDERLINE (lit "AWAITING FIRST STRIKE COMMAND").length)
      (bumpLine m []
      (animateMessage m (lit "AWAITING FIRST STRIKE COMMAND")
      (setCursorPosition 0 0 m (Send m CLEAR (UpdateState m STRIKE_COMMAND w))))))))))) := rfl

theorem strikeCommandDos_eq (hi : Handler) (m : Messenger) (w : World) :
    strikeCommandDos hi m w = scanThen hi m LOGON id
      (bumpLine m [] (UpdateState m STRIKE_COMMAND_2 w)) := rfl

theorem notRecognized_eq (hi : Handler) (m : Messenger) (w : World) :
    notRecognized hi m w = logon hi m
      (Disconnect m (bumpLine m [] (animateMessage m (lit "--CONNECTION TERMINATED--")
      (animateMessage m (lit "IDENTIFICATION NOT RECOGNIZED BY SYSTEM\n")
      (bumpLine m [] w))))) := rfl

/-! ### `handleInput` satisfies the recursion of the source

Rendering never touches the standard input and every call back follows a
`scan()` that consumed one line, so the fuel given by `handleInput` is never
used up: `handleInput_unfold` is the equation the source function is defined by. -/

@[simp] theorem Send_stdin (m : Messenger) (s : GoString) (w : World) :
    (Send m s w).stdin = w.stdin := by rw [Send_eq]

@[simp] theorem animateMessage_stdin (m : Messenger) (s : GoString) (w : World) :
    (animateMessage m s w).stdin = w.stdin := by rw [animateMessage_eq]

@[simp] theorem bumpLine_stdin (m : Messenger) (n : List Int) (w : World) :
    (bumpLine m n w).stdin = w.stdin := by rw [bumpLine_eq]

@[simp] theorem setCursorPosition_stdin (r c : Int) (m : Messenger) (w : World) :
    (setCursorPosition r c m w).stdin = w.stdin := by rw [setCursorPosition_eq]

@[simp] theorem UpdateState_stdin (m : Messenger) (s : Screen) (w : World) :
    (UpdateState m s w).stdin = w.stdin := by cases m <;> rfl

@[simp] theorem Disconnect_stdin (m : Messenger) (w : World) :
    (Disconnect m w).stdin = w.stdin := by cases m <;> rfl

@[simp] theorem emit_stdin (e : Event) (w : World) : (w.emit e).stdin = w.stdin := rfl

@[simp] theorem listGamesLoop_stdin (m : Messenger) (w : World) :
    (listGamesLoop m w).stdin = w.stdin := by
  unfold listGamesLoop
  generalize games.length - 1 = k
  generalize games.enum = l
  induction l generalizing w with
  | nil => rfl
  | cons x l ih =>
    rw [List.foldl_cons, ih]
    split_ifs <;> simp

theorem scanThen_agree (h1 h2 : Handler) (m : Messenger) (next : Screen)
    (arg : GoString → GoString) (w : World) (h : agreeBelow w.stdin.length h1 h2) :
    scanThen h1 m next arg w = scanThen h2 m next arg w := by
  unfold scanThen scan
  split_ifs
  · cases hs : w.stdin with
    | nil => rfl
    | cons l ls =>
      simp only
      apply h
      simp [hs]
  · rfl

theorem handleInputBody_agree (tbl : Nat → Nat) (h1 h2 : Handler) (m : Messenger) (s : Screen)
    (msg : GoString) (w : World) (h : agreeBelow w.stdin.length h1 h2) :
    handleInputBody tbl h1 m s msg w = handleInputBody tbl h2 m s msg w := by
  have key : ∀ (w' : World), w'.stdin = w.stdin → ∀ next arg,
      scanThen h1 m next arg w' = scanThen h2 m next arg w' := by
    intro w' hw next arg
    apply scanThen_agree
    rw [hw]; exact h
  unfold handleInputBody
  cases s <;> simp only [] <;> (try split_ifs) <;>
    first
    | rfl
    | (simp only [logon_eq, help_eq, helpGames_eq, listGames_eq, greeting_eq, wellbeing_eq,
        explanation_eq, playGame_eq, playGameVerify_eq, globalThermoNuclearWar_eq,
        strikeCommands_eq, strikeCommandDos_eq, notRecognized_eq]
       apply key
       simp)

/-- Any fuel above the number of lines left to read gives the result of `handleInput`. -/
theorem handleInputFuel_enough (tbl : Nat → Nat) (n : Nat) :
    ∀ (m : Messenger) (s : Screen) (msg : GoString) (w : World), w.stdin.length < n →
      handleInputFuel tbl n m s msg w = handleInput tbl m s msg w := by
  induction n using Nat.strong_induction_on with
  | _ n ih =>
    intro m s msg w hn
    unfold handleInput
    cases n with
    | zero => omega
    | succ k =>
      show handleInputBody tbl (handleInputFuel tbl k) m s msg w
        = handleInputBody tbl (handleInputFuel tbl w.stdin.length) m s msg w
      apply handleInputBody_agree
      intro m' s' msg' w' hw'
      rw [ih k (by omega) m' s' msg' w' (by omega),
        ih w.stdin.length (by omega) m' s' msg' w' hw']

/-- The defining equation of the source function: `handleInput` runs its body
and the calls back are calls of `handleInput` itself. -/
theorem handleInput_unfold (tbl : Nat → Nat) (m : Messenger) (s : Screen) (msg : GoString)
    (w : World) :
    handleInput tbl m s msg w = handleInputBody tbl (handleInput tbl) m s msg w := by
  show handleInputBody tbl (handleInputFuel tbl w.stdin.length) m s msg w = _
  apply handleInputBody_agree
  intro m' s' msg' w' hw'
  exact handleInputFuel_enough tbl _ m' s' msg' w' hw'

/-! ### Network sessions, screen by screen -/

theorem scanThen_network (hi : Handler) (c : Conn) (next : Screen) (arg : GoString → GoString)
    (w : World) : scanThen hi (.NetworkMessenger c) next arg w = w := rfl

theorem scanThen_console_cons (hi : Handler) (next : Screen) (arg : GoString → GoString)
    (w : World) (l : GoString) (ls : List GoString) (h : w.stdin = l :: ls) :
    scanThen hi .ConsoleMessenger next arg w = hi .ConsoleMessenger next (arg l) { w with stdin := ls } := by
  simp [scanThen, scan, h, ScanSupport]

theorem scanThen_console_nil (hi : Handler) (next : Screen) (arg : GoString → GoString)
    (w : World) (h : w.stdin = []) :
    scanThen hi .ConsoleMessenger next arg w = w.emit (Event.await next) := by
  simp [scanThen, scan, h, ScanSupport]

theorem setCursorPosition_home (m : Messenger) (w : World) :
    setCursorPosition 0 0 m w = { w with trace := w.trace ++ [sendEvent m (lit "\x1b[1;1f")] } := by
  rw [setCursorPosition_eq]
  rfl

@[simp] theorem printed_nil : printed [] = [] := rfl
@[simp] theorem printed_append (a b : List Event) :
    printed (a ++ b) = printed a ++ printed b := by
  simp [printed]
@[simp] theorem printed_cons_stdout (s : GoString) (t : List Event) :
    printed (Event.stdout s :: t) = s ++ printed t := by
  simp [printed]
@[simp] theorem printed_cons_await (s : Screen) (t : List Event) :
    printed (Event.await s :: t) = printed t := by
  simp [printed]
@[simp] theorem printed_animate (msg : GoString) :
    printed (msg.map (fun b => Event.stdout (fmtC b))) = msg.flatMap fmtC := by
  induction msg with
  | nil => rfl
  | cons s ss ih =>
    simp only [List.map_cons, List.flatMap_cons]
    rw [← ih]
    simp [printed]
@[simp] theorem printed_replicate (k : Nat) (s : GoString) :
    printed (List.replicate k (Event.stdout s)) = (List.replicate k s).flatten := by
  induction k with
  | zero => rfl
  | succ k ih => simp [List.replicate_succ, printed] at ih ⊢; exact ih

/-- What the side-selection screen types is the same on both messengers. -/
theorem war_text_facts :
    (lit "Fine.").flatMap fmtC = lit "Fine."
    ∧ (List.replicate 1 (lit "\n")).flatten = lit "\n"
    ∧ (List.replicate 2 (lit "\n")).flatten = lit "\n\n"
    ∧ menuText = (lit "WHICH SIDE DO YOU WANT?").flatMap fmtC ++ (lit "\n\n"
      ++ ((lit "  1.    UNITED STATES").flatMap fmtC ++ (lit "\n"
      ++ ((lit "  2.    SOVIET UNION").flatMap fmtC ++ (lit "\n\n"
      ++ (lit "PLEASE CHOOSE ONE: ").flatMap fmtC))))) := by decide

theorem globalThermoNuclearWar_written (hi : Handler) (c : Conn) (w : World) :
    written c (globalThermoNuclearWar hi (.NetworkMessenger c) w).trace
      = written c w.trace ++ warIntro ++ menuText := by
  obtain ⟨e1, e3, e4, e5⟩ := war_text_facts
  rw [globalThermoNuclearWar_eq, scanThen_network]
  simp only [animateMessage_eq, bumpLine_eq, setCursorPosition_home, Send_eq, UpdateState,
    written_append, written_animate, written_replicate, written_cons_write, written_nil,
    sendEvent_network, bumpCount_nil, bumpCount_two, List.append_assoc, List.append_nil]
  simp only [warIntro, List.append_assoc, e1, e3, e4, e5]

theorem globalThermoNuclearWar_console (hi : Handler) (w : World) (h : w.stdin = []) :
    ∃ v : World, globalThermoNuclearWar hi .ConsoleMessenger w
        = v.emit (Event.await GLOBAL_THERMONOCULEAR_WAR)
      ∧ printed v.trace = printed w.trace ++ warIntro ++ menuText := by
  obtain ⟨e1, e3, e4, e5⟩ := war_text_facts
  rw [globalThermoNuclearWar_eq, scanThen_console_nil _ _ _ _ (by simpa using h)]
  refine ⟨_, rfl, ?_⟩
  simp only [animateMessage_eq, bumpLine_eq, setCursorPosition_home, Send_eq, UpdateState,
    printed_append, printed_animate, printed_replicate, printed_cons_stdout, printed_nil,
    sendEvent_console, bumpCount_nil, bumpCount_two, List.append_assoc, List.append_nil]
  simp only [warIntro, List.append_assoc, e1, e3, e4, e5]

/-- The entry recorded for the connection after each screen function. -/
theorem recorded_after (hi : Handler) (c : Conn) (w : World) :
    (greeting hi (.NetworkMessenger c) w).tcpClients
        = mapSet w.tcpClients c { mapGet w.tcpClients c with Screen := GREETING }
    ∧ (wellbeing hi (.NetworkMessenger c) w).tcpClients
        = mapSet w.tcpClients c { mapGet w.tcpClients c with Screen := WELLBEING }
    ∧ (explanation hi (.NetworkMessenger c) w).tcpClients
        = mapSet w.tcpClients c { mapGet w.tcpClients c with Screen := EXPLANATION }
    ∧ (playGame hi (.NetworkMessenger c) w).tcpClients
        = mapSet w.tcpClients c { mapGet w.tcpClients c with Screen := PLAY_GAME }
    ∧ (playGameVerify hi (.NetworkMessenger c) w).tcpClients
        = mapSet w.tcpClients c { mapGet w.tcpClients c with Screen := PLAY_GAME_VERIFY }
    ∧ (globalThermoNuclearWar hi (.NetworkMessenger c) w).tcpClients
        = mapSet w.tcpClients c { mapGet w.tcpClients c with Screen := GLOBAL_THERMONOCULEAR_WAR }
    ∧ (strikeCommands hi (.NetworkMessenger c) w).tcpClients
        = mapSet w.tcpClients c { mapGet w.tcpClients c with Screen := STRIKE_COMMAND }
    ∧ (strikeCommandDos hi (.NetworkMessenger c) w).tcpClients
        = mapSet w.tcpClients c { mapGet w.tcpClients c with Screen := STRIKE_COMMAND_2 }
    ∧ (helpGames hi (.NetworkMessenger c) w).tcpClients
        = mapSet w.tcpClients c { mapGet w.tcpClients c with Screen := GAMES }
    ∧ (logon hi (.NetworkMessenger c) w).tcpClients
        = mapSet w.tcpClients c { mapGet w.tcpClients c with Screen := LOGON } := by
  simp only [greeting_eq, wellbeing_eq, explanation_eq, playGame_eq, playGameVerify_eq,
    globalThermoNuclearWar_eq, strikeCommands_eq, strikeCommandDos_eq, helpGames_eq, logon_eq,
    scanThen_network, animateMessage_eq, bumpLine_eq, setCursorPosition_eq, Send_eq, UpdateState]
  simp


theorem closes_after (hi : Handler) (c : Conn) (w : World) :
    closes (greeting hi (.NetworkMessenger c) w).trace = closes w.trace
    ∧ closes (wellbeing hi (.NetworkMessenger c) w).trace = closes w.trace
    ∧ closes (explanation hi (.NetworkMessenger c) w).trace = closes w.trace
    ∧ closes (playGame hi (.NetworkMessenger c) w).trace = closes w.trace
    ∧ closes (playGameVerify hi (.NetworkMessenger c) w).trace = closes w.trace
    ∧ closes (globalThermoNuclearWar hi (.NetworkMessenger c) w).trace = closes w.trace
    ∧ closes (strikeCommands hi (.NetworkMessenger c) w).trace = closes w.trace
    ∧ closes (strikeCommandDos hi (.NetworkMessenger c) w).trace = closes w.trace
    ∧ closes (helpGames hi (.NetworkMessenger c) w).trace = closes w.trace
    ∧ closes (logon hi (.NetworkMessenger c) w).trace = closes w.trace
    ∧ closes (help hi (.NetworkMessenger c) w).trace = closes w.trace := by
  simp only [greeting_eq, wellbeing_eq, explanation_eq, playGame_eq, playGameVerify_eq,
    globalThermoNuclearWar_eq, strikeCommands_eq, strikeCommandDos_eq, helpGames_eq, help_eq,
    logon_eq, scanThen_network, animateMessage_eq, bumpLine_eq, setCursorPosition_eq, Send_eq,
    UpdateState]
  simp

theorem tokens_ne :
    lit "HELP" ≠ lit "JOSHUA" ∧ lit "HELP LOGON" ≠ lit "JOSHUA" ∧ lit "HELP GAMES" ≠ lit "JOSHUA"
    ∧ lit "HELP GAMES" ≠ lit "HELP" ∧ lit "HELP GAMES" ≠ lit "HELP LOGON" := by decide

/-- The world after the server has logged the token (wopr.go 214-216). -/
theorem handleInput_LOGON (tbl : Nat → Nat) (c : Conn) (I : GoString) (w : World) :
    handleInput tbl (.NetworkMessenger c) LOGON I w
      = if stripInput tbl I = lit "JOSHUA" then
          greeting idle (.NetworkMessenger c) (w.emit (Event.stdout (stripInput tbl I ++ lit "\n")))
        else if stripInput tbl I = lit "HELP" ∨ stripInput tbl I = lit "HELP LOGON" then
          help idle (.NetworkMessenger c) (w.emit (Event.stdout (stripInput tbl I ++ lit "\n")))
        else if stripInput tbl I = lit "HELP GAMES" then
          helpGames idle (.NetworkMessenger c) (w.emit (Event.stdout (stripInput tbl I ++ lit "\n")))
        else
          notRecognized idle (.NetworkMessenger c)
            (w.emit (Event.stdout (stripInput tbl I ++ lit "\n"))) := by
  rw [handleInput_network]
  rfl

theorem handleInput_GAMES (tbl : Nat → Nat) (c : Conn) (I : GoString) (w : World) :
    handleInput tbl (.NetworkMessenger c) GAMES I w
      = if stripInput tbl I = lit "LIST GAMES" then
          listGames idle (.NetworkMessenger c) (w.emit (Event.stdout (stripInput tbl I ++ lit "\n")))
        else
          logon idle (.NetworkMessenger c) (w.emit (Event.stdout (stripInput tbl I ++ lit "\n"))) := by
  rw [handleInput_network]
  rfl

set_option maxRecDepth 4000 in
theorem handleInput_conversation (tbl : Nat → Nat) (c : Conn) (I : GoString) (w : World) :
    handleInput tbl (.NetworkMessenger c) GREETING I w
        = wellbeing idle (.NetworkMessenger c) (w.emit (Event.stdout (stripInput tbl I ++ lit "\n")))
    ∧ handleInput tbl (.NetworkMessenger c) WELLBEING I w
        = explanation idle (.NetworkMessenger c) (w.emit (Event.stdout (stripInput tbl I ++ lit "\n")))
    ∧ handleInput tbl (.NetworkMessenger c) EXPLANATION I w
        = playGame idle (.NetworkMessenger c) (w.emit (Event.stdout (stripInput tbl I ++ lit "\n")))
    ∧ handleInput tbl (.NetworkMessenger c) PLAY_GAME I w
        = playGameVerify idle (.NetworkMessenger c)
            (w.emit (Event.stdout (stripInput tbl I ++ lit "\n")))
    ∧ handleInput tbl (.NetworkMessenger c) PLAY_GAME_VERIFY I w
        = globalThermoNuclearWar idle (.NetworkMessenger c)
            (w.emit (Event.stdout (stripInput tbl I ++ lit "\n")))
    ∧ handleInput tbl (.NetworkMessenger c) GLOBAL_THERMONOCULEAR_WAR I w
        = strikeCommands idle (.NetworkMessenger c)
            (w.emit (Event.stdout (stripInput tbl I ++ lit "\n")))
    ∧ handleInput tbl (.NetworkMessenger c) STRIKE_COMMAND I w
        = strikeCommandDos idle (.NetworkMessenger c)
            (w.emit (Event.stdout (stripInput tbl I ++ lit "\n")))
    ∧ handleInput tbl (.NetworkMessenger c) STRIKE_COMMAND_2 I w
        = w.emit (Event.stdout (stripInput tbl I ++ lit "\n")) := by
  simp only [handleInput_network]
  exact ⟨rfl, rfl, rfl, rfl, rfl, rfl, rfl, rfl⟩

@[simp] theorem emit_tcpClients (e : Event) (w : World) : (w.emit e).tcpClients = w.tcpClients := rfl

@[simp] theorem emit_trace (e : Event) (w : World) : (w.emit e).trace = w.trace ++ [e] := rfl

/-- C1: on a network messenger at LOGON, an input whose token is JOSHUA records
GREETING; a token HELP or HELP LOGON types "HELP NOT AVAILABLE" and records
LOGON; a token HELP GAMES records GAMES.  In none of these cases is the
connection closed, that is, `Disconnect` does not run. -/
theorem C1_logon_tokens (tbl : Nat → Nat) (c : Conn) (I : GoString) (w : World) :
    (stripInput tbl I = lit "JOSHUA" →
      screenOf (handleInput tbl (.NetworkMessenger c) LOGON I w) c = some GREETING
      ∧ closes (handleInput tbl (.NetworkMessenger c) LOGON I w).trace = closes w.trace)
    ∧ (stripInput tbl I = lit "HELP" ∨ stripInput tbl I = lit "HELP LOGON" →
      written c (handleInput tbl (.NetworkMessenger c) LOGON I w).trace
        = written c w.trace ++ lit "\nHELP NOT AVAILABLE\n\nLOGON: "
      ∧ screenOf (handleInput tbl (.NetworkMessenger c) LOGON I w) c = some LOGON
      ∧ closes (handleInput tbl (.NetworkMessenger c) LOGON I w).trace = closes w.trace)
    ∧ (stripInput tbl I = lit "HELP GAMES" →
      screenOf (handleInput tbl (.NetworkMessenger c) LOGON I w) c = some GAMES
      ∧ closes (handleInput tbl (.NetworkMessenger c) LOGON I w).trace = closes w.trace) := by
  rw [handleInput_LOGON]
  obtain ⟨n1, n2, n3, n4, n5⟩ := tokens_ne
  refine ⟨fun h => ?_, fun h => ?_, fun h => ?_⟩
  · rw [if_pos h, screenOf, (recorded_after idle c _).1, (closes_after idle c _).1]
    simp [mapSet]
  · have hj : stripInput tbl I ≠ lit "JOSHUA" := by
      rcases h with h | h <;> rw [h] <;> assumption
    rw [if_neg hj, if_pos h]
    refine ⟨?_, ?_, ?_⟩
    · simp only [help_eq, logon_eq, scanThen_network, animateMessage_eq, bumpLine_eq, Send_eq,
        UpdateState, World.emit]
      simp
      decide
    · simp only [help_eq, screenOf, (recorded_after idle c _).2.2.2.2.2.2.2.2.2]
      simp [mapSet]
    · rw [(closes_after idle c _).2.2.2.2.2.2.2.2.2.2]
      simp
  · rw [if_neg (by rw [h]; exact n3), if_neg (by rw [h]; simp [n4, n5]), if_pos h, screenOf,
      (recorded_after idle c _).2.2.2.2.2.2.2.2.1, (closes_after idle c _).2.2.2.2.2.2.2.2.1]
    simp [mapSet]


theorem C1_logon_tokens_witness :
    (screenOf (handleInput id (.NetworkMessenger 7) LOGON (lit "joshua\r\n")
        (register 7 World.initial)) 7 = some GREETING
      ∧ closes (handleInput id (.NetworkMessenger 7) LOGON (lit "joshua\r\n")
        (register 7 World.initial)).trace = closes (register 7 World.initial).trace)
    ∧ (written 7 (handleInput id (.NetworkMessenger 7) LOGON (lit "help\r\n")
        (register 7 World.initial)).trace
          = written 7 (register 7 World.initial).trace ++ lit "\nHELP NOT AVAILABLE\n\nLOGON: "
      ∧ screenOf (handleInput id (.NetworkMessenger 7) LOGON (lit "help\r\n")
        (register 7 World.initial)) 7 = some LOGON
      ∧ closes (handleInput id (.NetworkMessenger 7) LOGON (lit "help\r\n")
        (register 7 World.initial)).trace = closes (register 7 World.initial).trace)
    ∧ (screenOf (handleInput id (.NetworkMessenger 7) LOGON (lit "Help Games\n")
        (register 7 World.initial)) 7 = some GAMES
      ∧ closes (handleInput id (.NetworkMessenger 7) LOGON (lit "Help Games\n")
        (register 7 World.initial)).trace = closes (register 7 World.initial).trace) :=
  ⟨(C1_logon_tokens id 7 (lit "joshua\r\n") (register 7 World.initial)).1 (by decide),
   (C1_logon_tokens id 7 (lit "help\r\n") (register 7 World.initial)).2.1 (Or.inl (by decide)),
   (C1_logon_tokens id 7 (lit "Help Games\n") (register 7 World.initial)).2.2 (by decide)⟩

/-- What `notRecognized` does on a network messenger. -/
theorem notRecognized_net (hi : Handler) (c : Conn) (w : World) :
    written c (notRecognized hi (.NetworkMessenger c) w).trace
        = written c w.trace ++ lit
          "\nIDENTIFICATION NOT RECOGNIZED BY SYSTEM\n--CONNECTION TERMINATED--\n\x1b[0m\nLOGON: "
    ∧ closes (notRecognized hi (.NetworkMessenger c) w).trace = closes w.trace + 1
    ∧ (notRecognized hi (.NetworkMessenger c) w).tcpClients
        = mapSet (mapDelete w.tcpClients c) c ⟨false, LOGON⟩ := by
  simp only [notRecognized_eq, logon_eq, scanThen_network, animateMessage_eq, bumpLine_eq, Send_eq,
    UpdateState, Disconnect, World.emit]
  refine ⟨?_, ?_, ?_⟩
  · simp
    decide
  · simp
  · simp [mapGet, mapDelete, ClientState.zero]

theorem logon_accept (tbl : Nat → Nat) (c : Conn) (I : GoString) (w : World)
    (h : stripInput tbl I ∈ logonTokens) :
    closes (handleInput tbl (.NetworkMessenger c) LOGON I w).trace = closes w.trace := by
  rw [handleInput_LOGON]
  have k := closes_after idle c (w.emit (Event.stdout (stripInput tbl I ++ lit "\n")))
  simp only [logonTokens, List.mem_cons, List.mem_singleton, List.mem_nil_iff, or_false] at h
  split_ifs with h1 h2 h3
  · rw [k.1]; simp
  · rw [k.2.2.2.2.2.2.2.2.2.2]; simp
  · rw [k.2.2.2.2.2.2.2.2.1]; simp
  · rcases h with h | h | h | h
    · exact absurd h h1
    · exact absurd (Or.inl h) h2
    · exact absurd (Or.inr h) h2
    · exact absurd h h3

theorem logon_reject (tbl : Nat → Nat) (c : Conn) (I : GoString) (w : World)
    (h : stripInput tbl I ∉ logonTokens) :
    handleInput tbl (.NetworkMessenger c) LOGON I w
      = notRecognized idle (.NetworkMessenger c)
          (w.emit (Event.stdout (stripInput tbl I ++ lit "\n"))) := by
  rw [handleInput_LOGON]
  simp only [logonTokens, List.mem_cons, List.mem_singleton, not_or, List.mem_nil_iff,
    or_false, not_false_eq_true, and_true] at h
  rw [if_neg h.1, if_neg (by simp [h.2.1, h.2.2.1]), if_neg h.2.2.2]

theorem rejected_of_not_token (tbl : Nat → Nat) (c : Conn) (I : GoString) (w : World)
    (h : stripInput tbl I ∉ logonTokens) :
    rejected c w (handleInput tbl (.NetworkMessenger c) LOGON I w) := by
  rw [logon_reject tbl c I w h]
  obtain ⟨h1, h2, h3⟩ :=
    notRecognized_net idle c (w.emit (Event.stdout (stripInput tbl I ++ lit "\n")))
  refine ⟨?_, ?_, ?_, ?_⟩
  · unfold writtenSince
    rw [h1]
    simp
    exact ⟨lit "\n", lit "\n--CONNECTION TERMINATED--\n\x1b[0m\nLOGON: ", by decide⟩
  · unfold writtenSince
    rw [h1]
    simp
    exact ⟨lit "\nIDENTIFICATION NOT RECOGNIZED BY SYSTEM\n", lit "\n\x1b[0m\nLOGON: ", by decide⟩
  · rw [h2]; simp
  · simp [screenOf, h3, mapSet]

theorem spaced_tokens (tbl : Nat → Nat) :
    stripInput tbl (lit "") ∉ logonTokens
    ∧ stripInput tbl (lit "\r\n") ∉ logonTokens
    ∧ stripInput tbl (lit " JOSHUA") ∉ logonTokens
    ∧ stripInput tbl (lit "JOSHUA ") ∉ logonTokens
    ∧ stripInput tbl (lit "JOSH UA") ∉ logonTokens
    ∧ stripInput tbl (lit "HELP  GAMES") ∉ logonTokens := by
  have e1 : stripInput tbl (lit "") = lit "" := rfl
  have e2 : stripInput tbl (lit "\r\n") = lit "" := rfl
  have e3 : stripInput tbl (lit " JOSHUA") = lit " JOSHUA" := rfl
  have e4 : stripInput tbl (lit "JOSHUA ") = lit "JOSHUA " := rfl
  have e5 : stripInput tbl (lit "JOSH UA") = lit "JOSH UA" := rfl
  have e6 : stripInput tbl (lit "HELP  GAMES") = lit "HELP  GAMES" := rfl
  rw [e1, e2, e3, e4, e5, e6]
  decide

/-- C2: on a network messenger at LOGON the reject action (both messages sent,
`Disconnect` run exactly once, LOGON recorded again) happens if and only if
the token is none of JOSHUA, HELP, HELP LOGON, HELP GAMES; the empty token and
tokens with a leading, trailing or interior space are rejected. -/
theorem C2_logon_reject_iff (tbl : Nat → Nat) (c : Conn) (w : World) :
    (∀ I : GoString, rejected c w (handleInput tbl (.NetworkMessenger c) LOGON I w)
      ↔ stripInput tbl I ∉ logonTokens)
    ∧ rejected c w (handleInput tbl (.NetworkMessenger c) LOGON (lit "") w)
    ∧ rejected c w (handleInput tbl (.NetworkMessenger c) LOGON (lit "\r\n") w)
    ∧ rejected c w (handleInput tbl (.NetworkMessenger c) LOGON (lit " JOSHUA") w)
    ∧ rejected c w (handleInput tbl (.NetworkMessenger c) LOGON (lit "JOSHUA ") w)
    ∧ rejected c w (handleInput tbl (.NetworkMessenger c) LOGON (lit "JOSH UA") w)
    ∧ rejected c w (handleInput tbl (.NetworkMessenger c) LOGON (lit "HELP  GAMES") w) := by
  obtain ⟨s1, s2, s3, s4, s5, s6⟩ := spaced_tokens tbl
  refine ⟨fun I => ⟨fun hr hmem => ?_, rejected_of_not_token tbl c I w⟩,
    rejected_of_not_token tbl c _ w s1, rejected_of_not_token tbl c _ w s2,
    rejected_of_not_token tbl c _ w s3, rejected_of_not_token tbl c _ w s4,
    rejected_of_not_token tbl c _ w s5, rejected_of_not_token tbl c _ w s6⟩
  have h1 := logon_accept tbl c I w hmem
  have h3 := hr.2.2.1
  omega

/-- C3: on a network messenger every conversational screen advances to its
fixed successor whatever the input is, and none of these steps closes the
connection: GREETING to WELLBEING, WELLBEING to EXPLANATION, EXPLANATION to
PLAY_GAME, PLAY_GAME to PLAY_GAME_VERIFY, PLAY_GAME_VERIFY to GLOBAL_WAR,
GLOBAL_WAR to STRIKE_1, STRIKE_1 to STRIKE_2. -/
theorem C3_conversation_advances (tbl : Nat → Nat) (c : Conn) (I : GoString) (w : World) :
    (screenOf (handleInput tbl (.NetworkMessenger c) GREETING I w) c = some WELLBEING
      ∧ closes (handleInput tbl (.NetworkMessenger c) GREETING I w).trace = closes w.trace)
    ∧ (screenOf (handleInput tbl (.NetworkMessenger c) WELLBEING I w) c = some EXPLANATION
      ∧ closes (handleInput tbl (.NetworkMessenger c) WELLBEING I w).trace = closes w.trace)
    ∧ (screenOf (handleInput tbl (.NetworkMessenger c) EXPLANATION I w) c = some PLAY_GAME
      ∧ closes (handleInput tbl (.NetworkMessenger c) EXPLANATION I w).trace = closes w.trace)
    ∧ (screenOf (handleInput tbl (.NetworkMessenger c) PLAY_GAME I w) c = some PLAY_GAME_VERIFY
      ∧ closes (handleInput tbl (.NetworkMessenger c) PLAY_GAME I w).trace = closes w.trace)
    ∧ (screenOf (handleInput tbl (.NetworkMessenger c) PLAY_GAME_VERIFY I w) c
        = some GLOBAL_THERMONOCULEAR_WAR
      ∧ closes (handleInput tbl (.NetworkMessenger c) PLAY_GAME_VERIFY I w).trace = closes w.trace)
    ∧ (screenOf (handleInput tbl (.NetworkMessenger c) GLOBAL_THERMONOCULEAR_WAR I w) c
        = some STRIKE_COMMAND
      ∧ closes (handleInput tbl (.NetworkMessenger c) GLOBAL_THERMONOCULEAR_WAR I w).trace
        = closes w.trace)
    ∧ (screenOf (handleInput tbl (.NetworkMessenger c) STRIKE_COMMAND I w) c = some STRIKE_COMMAND_2
      ∧ closes (handleInput tbl (.NetworkMessenger c) STRIKE_COMMAND I w).trace = closes w.trace) := by
  obtain ⟨d1, d2, d3, d4, d5, d6, d7, -⟩ := handleInput_conversation tbl c I w
  obtain ⟨-, r1, r2, r3, r4, r5, r6, r7, -⟩ :=
    recorded_after idle c (w.emit (Event.stdout (stripInput tbl I ++ lit "\n")))
  obtain ⟨-, k1, k2, k3, k4, k5, k6, k7, -⟩ :=
    closes_after idle c (w.emit (Event.stdout (stripInput tbl I ++ lit "\n")))
  simp only [screenOf]
  rw [d1, d2, d3, d4, d5, d6, d7, r1, r2, r3, r4, r5, r6, r7, k1, k2, k3, k4, k5, k6, k7]
  simp [mapSet]



@[simp] theorem mapGet_mapSet (m : Conn → Option ClientState) (c : Conn) (v : ClientState) :
    mapGet (mapSet m c v) c = v := by
  simp [mapGet, mapSet]

theorem mapGet_of_screenOf (w : World) (c : Conn) (s : Screen) (h : screenOf w c = some s) :
    (mapGet w.tcpClients c).Screen = s := by
  unfold screenOf at h
  unfold mapGet
  cases hc : w.tcpClients c with
  | none => rw [hc] at h; cases h
  | some st => rw [hc] at h; simpa using h

/-- The screen recorded after each step of the conversation. -/
theorem next_screen (tbl : Nat → Nat) (c : Conn) (I : GoString) (w : World) :
    (stripInput tbl I = lit "JOSHUA" →
      screenOf (handleInput tbl (.NetworkMessenger c) LOGON I w) c = some GREETING)
    ∧ screenOf (handleInput tbl (.NetworkMessenger c) GREETING I w) c = some WELLBEING
    ∧ screenOf (handleInput tbl (.NetworkMessenger c) WELLBEING I w) c = some EXPLANATION
    ∧ screenOf (handleInput tbl (.NetworkMessenger c) EXPLANATION I w) c = some PLAY_GAME
    ∧ screenOf (handleInput tbl (.NetworkMessenger c) PLAY_GAME I w) c = some PLAY_GAME_VERIFY
    ∧ screenOf (handleInput tbl (.NetworkMessenger c) PLAY_GAME_VERIFY I w) c
        = some GLOBAL_THERMONOCULEAR_WAR := by
  obtain ⟨d1, d2, d3, d4, d5, -⟩ := handleInput_conversation tbl c I w
  obtain ⟨r0, r1, r2, r3, r4, r5, -⟩ :=
    recorded_after idle c (w.emit (Event.stdout (stripInput tbl I ++ lit "\n")))
  simp only [screenOf]
  refine ⟨fun h => ?_, ?_⟩
  · rw [handleInput_LOGON, if_pos h, r0]; simp [mapSet]
  · rw [d1, d2, d3, d4, d5, r1, r2, r3, r4, r5]
    simp [mapSet]

/-- The network session after JOSHUA and four, then five, further lines. -/
theorem feed_conversation (tbl : Nat → Nat) (c : Conn) (w : World) (I a1 a2 a3 a4 a5 : GoString)
    (h0 : (mapGet w.tcpClients c).Screen = LOGON) (h : stripInput tbl I = lit "JOSHUA") :
    screenOf (feed tbl c [I, a1, a2, a3, a4] w) c = some PLAY_GAME_VERIFY
    ∧ feed tbl c [I, a1, a2, a3, a4, a5] w
        = handleInput tbl (.NetworkMessenger c) PLAY_GAME_VERIFY a5
            (feed tbl c [I, a1, a2, a3, a4] w) := by
  have key : screenOf (feed tbl c [I, a1, a2, a3, a4] w) c = some PLAY_GAME_VERIFY := by
    simp only [feed, List.foldl_cons, List.foldl_nil]
    rw [h0, mapGet_of_screenOf _ _ _ ((next_screen tbl c I w).1 h),
      mapGet_of_screenOf _ _ _ (next_screen tbl c a1 _).2.1,
      mapGet_of_screenOf _ _ _ (next_screen tbl c a2 _).2.2.1,
      mapGet_of_screenOf _ _ _ (next_screen tbl c a3 _).2.2.2.1]
    exact (next_screen tbl c a4 _).2.2.2.2.1
  refine ⟨key, ?_⟩
  have e : feed tbl c [I, a1, a2, a3, a4, a5] w
      = feed tbl c [a5] (feed tbl c [I, a1, a2, a3, a4] w) := by
    simp only [feed, List.foldl_cons, List.foldl_nil]
  rw [e]
  show handleInput tbl (.NetworkMessenger c) _ a5 _ = _
  rw [mapGet_of_screenOf _ _ _ key]

theorem scanThen_console (hi : Handler) (next : Screen) (w : World) (l : GoString)
    (ls : List GoString) (h : w.stdin = l :: ls) :
    ∃ W : World, W.stdin = ls ∧ scanThen hi .ConsoleMessenger next id w = hi .ConsoleMessenger next l W :=
  ⟨{ w with stdin := ls }, rfl, scanThen_console_cons hi next id w l ls h⟩

set_option maxRecDepth 4000 in
/-- What the console does with an input, by screen (no server log on the console). -/
theorem handleInput_console (tbl : Nat → Nat) (msg : GoString) (w : World) :
    (stripInput tbl msg = lit "JOSHUA" →
      handleInput tbl .ConsoleMessenger LOGON msg w = greeting (handleInput tbl) .ConsoleMessenger w)
    ∧ handleInput tbl .ConsoleMessenger GREETING msg w
        = wellbeing (handleInput tbl) .ConsoleMessenger w
    ∧ handleInput tbl .ConsoleMessenger WELLBEING msg w
        = explanation (handleInput tbl) .ConsoleMessenger w
    ∧ handleInput tbl .ConsoleMessenger EXPLANATION msg w
        = playGame (handleInput tbl) .ConsoleMessenger w
    ∧ handleInput tbl .ConsoleMessenger PLAY_GAME msg w
        = playGameVerify (handleInput tbl) .ConsoleMessenger w
    ∧ handleInput tbl .ConsoleMessenger PLAY_GAME_VERIFY msg w
        = globalThermoNuclearWar (handleInput tbl) .ConsoleMessenger w := by
  refine ⟨fun h => ?_, ?_⟩
  · rw [handleInput_unfold]
    simp only [handleInputBody, h, if_true]
    rfl
  · simp only [handleInput_unfold tbl _ _ msg w]
    exact ⟨rfl, rfl, rfl, rfl, rfl⟩

/-- The console session from the LOGON prompt through JOSHUA and four more lines. -/
theorem console_five (tbl : Nat → Nat) (w : World) (I a1 a2 a3 a4 : GoString) (rest : List GoString)
    (hs : w.stdin = I :: a1 :: a2 :: a3 :: a4 :: rest) (h : stripInput tbl I = lit "JOSHUA") :
    ∃ W : World, W.stdin = rest
      ∧ logon (handleInput tbl) .ConsoleMessenger w = playGameVerify (handleInput tbl) .ConsoleMessenger W := by
  obtain ⟨W1, s1, e1⟩ := scanThen_console (handleInput tbl) LOGON _ I _
    (show (animateMessage .ConsoleMessenger (lit "LOGON: ")
      (bumpLine .ConsoleMessenger [] (UpdateState .ConsoleMessenger LOGON w))).stdin = _ by simpa using hs)
  rw [logon_eq, e1, (handleInput_console tbl I W1).1 h, greeting_eq]
  obtain ⟨W2, s2, e2⟩ := scanThen_console (handleInput tbl) GREETING _ a1 _
    (show (bumpLine .ConsoleMessenger [2] (animateMessage .ConsoleMessenger (lit "GREETINGS PROFESSOR FALKEN.")
      (setCursorPosition 0 0 .ConsoleMessenger (Send .ConsoleMessenger CLEAR
      (UpdateState .ConsoleMessenger GREETING W1))))).stdin = _ by simpa using s1)
  rw [e2, (handleInput_console tbl a1 W2).2.1, wellbeing_eq]
  obtain ⟨W3, s3, e3⟩ := scanThen_console (handleInput tbl) WELLBEING _ a2 _
    (show (bumpLine .ConsoleMessenger [2] (animateMessage .ConsoleMessenger (lit "HOW ARE YOU FEELING TODAY?")
      (bumpLine .ConsoleMessenger [2] (UpdateState .ConsoleMessenger WELLBEING W2)))).stdin = _ by simpa using s2)
  rw [e3, (handleInput_console tbl a2 W3).2.2.1, explanation_eq]
  obtain ⟨W4, s4, e4⟩ := scanThen_console (handleInput tbl) EXPLANATION _ a3 _
    (show (bumpLine .ConsoleMessenger [2]
      (animateMessage .ConsoleMessenger (lit "THE REMOVAL OF YOUR USER ACCOUNT NUMBER ON 6/23/73?")
      (bumpLine .ConsoleMessenger []
      (animateMessage .ConsoleMessenger (lit "EXCELLENT. IT'S BEEN A LONG TIME. CAN YOU EXPLAIN")
      (bumpLine .ConsoleMessenger [2] (UpdateState .ConsoleMessenger EXPLANATION W3)))))).stdin = _ by
        simpa using s3)
  rw [e4, (handleInput_console tbl a3 W4).2.2.2.1, playGame_eq]
  obtain ⟨W5, s5, e5⟩ := scanThen_console (handleInput tbl) PLAY_GAME _ a4 _
    (show (bumpLine .ConsoleMessenger [2] (animateMessage .ConsoleMessenger (lit "YES, THEY DO. SHALL WE PLAY A GAME?")
      (bumpLine .ConsoleMessenger [2] (UpdateState .ConsoleMessenger PLAY_GAME W4)))).stdin = _ by simpa using s4)
  rw [e5, (handleInput_console tbl a4 W5).2.2.2.2.1]
  exact ⟨W5, s5, rfl⟩

theorem playGameVerify_console (hi : Handler) (w : World) (l : GoString) (ls : List GoString)
    (h : w.stdin = l :: ls) :
    ∃ W : World, W.stdin = ls
      ∧ playGameVerify hi .ConsoleMessenger w = hi .ConsoleMessenger PLAY_GAME_VERIFY l W := by
  rw [playGameVerify_eq]
  exact scanThen_console hi PLAY_GAME_VERIFY _ l ls (by simpa using h)

theorem playGameVerify_console_blocked (hi : Handler) (w : World) (h : w.stdin = []) :
    ∃ v : World, playGameVerify hi .ConsoleMessenger w = v.emit (Event.await PLAY_GAME_VERIFY)
      ∧ printed v.trace = printed w.trace ++ lit "\n\nWOULDN'T YOU PREFER A GOOD GAME OF CHESS?\n\n" := by
  rw [playGameVerify_eq, scanThen_console_nil _ _ _ _ (by simpa using h)]
  refine ⟨_, rfl, ?_⟩
  simp only [animateMessage_eq, bumpLine_eq, UpdateState]
  simp
  decide


/-- The bytes each screen function sends to its connection. -/
theorem written_after (hi : Handler) (c : Conn) (w : World) :
    written c (greeting hi (.NetworkMessenger c) w).trace
        = written c w.trace ++ lit "\x1b[2J\x1b[1;1fGREETINGS PROFESSOR FALKEN.\n\n"
    ∧ written c (wellbeing hi (.NetworkMessenger c) w).trace
        = written c w.trace ++ lit "\n\nHOW ARE YOU FEELING TODAY?\n\n"
    ∧ written c (explanation hi (.NetworkMessenger c) w).trace
        = written c w.trace ++ lit ("\n\nEXCELLENT. IT'S BEEN A LONG TIME. CAN YOU EXPLAIN\n"
            ++ "THE REMOVAL OF YOUR USER ACCOUNT NUMBER ON 6/23/73?\n\n")
    ∧ written c (playGame hi (.NetworkMessenger c) w).trace
        = written c w.trace ++ lit "\n\nYES, THEY DO. SHALL WE PLAY A GAME?\n\n"
    ∧ written c (playGameVerify hi (.NetworkMessenger c) w).trace
        = written c w.trace ++ lit "\n\nWOULDN'T YOU PREFER A GOOD GAME OF CHESS?\n\n"
    ∧ written c (logon hi (.NetworkMessenger c) w).trace
        = written c w.trace ++ lit "\nLOGON: " := by
  simp only [greeting_eq, wellbeing_eq, explanation_eq, playGame_eq, playGameVerify_eq, logon_eq,
    scanThen_network, animateMessage_eq, bumpLine_eq, setCursorPosition_home, Send_eq, UpdateState]
  simp
  refine ⟨?_, ?_, ?_, ?_, ?_, ?_⟩ <;> decide

set_option maxRecDepth 100000 in
/-- The text of the first five screens of the conversation. -/
theorem feed_five_written (tbl : Nat → Nat) (c : Conn) (w : World) (I a1 a2 a3 a4 : GoString)
    (h0 : (mapGet w.tcpClients c).Screen = LOGON) (h : stripInput tbl I = lit "JOSHUA") :
    written c (feed tbl c [I, a1, a2, a3, a4] w).trace = written c w.trace ++ fiveText := by
  simp only [feed, List.foldl_cons, List.foldl_nil]
  rw [h0, mapGet_of_screenOf _ _ _ ((next_screen tbl c I w).1 h),
    mapGet_of_screenOf _ _ _ (next_screen tbl c a1 _).2.1,
    mapGet_of_screenOf _ _ _ (next_screen tbl c a2 _).2.2.1,
    mapGet_of_screenOf _ _ _ (next_screen tbl c a3 _).2.2.2.1]
  rw [(handleInput_conversation tbl c a4 _).2.2.2.1, (written_after idle c _).2.2.2.2.1]
  simp only [emit_trace, written_append, written_cons_stdout, written_nil, List.append_nil]
  rw [(handleInput_conversation tbl c a3 _).2.2.1, (written_after idle c _).2.2.2.1]
  simp only [emit_trace, written_append, written_cons_stdout, written_nil, List.append_nil]
  rw [(handleInput_conversation tbl c a2 _).2.1, (written_after idle c _).2.2.1]
  simp only [emit_trace, written_append, written_cons_stdout, written_nil, List.append_nil]
  rw [(handleInput_conversation tbl c a1 _).1, (written_after idle c _).2.1]
  simp only [emit_trace, written_append, written_cons_stdout, written_nil, List.append_nil]
  rw [handleInput_LOGON, if_pos h, (written_after idle c _).1]
  simp only [emit_trace, written_append, written_cons_stdout, written_nil, List.append_nil,
    List.append_assoc, List.append_cancel_left_eq]
  decide

theorem scanThen_console_trace (hi : Handler) (next : Screen) (w : World) (l : GoString)
    (ls : List GoString) (h : w.stdin = l :: ls) :
    ∃ W : World, W.stdin = ls ∧ W.trace = w.trace
      ∧ scanThen hi .ConsoleMessenger next id w = hi .ConsoleMessenger next l W :=
  ⟨{ w with stdin := ls }, rfl, rfl, scanThen_console_cons hi next id w l ls h⟩

set_option maxRecDepth 100000 in
/-- One screen of the conversation on the console, with a line typed: what is
printed before the line is read and passed on. -/
theorem console_step (hi : Handler) (w : World) (l : GoString) (ls : List GoString)
    (h : w.stdin = l :: ls) :
    (∃ W : World, W.stdin = ls ∧ printed W.trace = printed w.trace ++ lit "\nLOGON: "
      ∧ logon hi .ConsoleMessenger w = hi .ConsoleMessenger LOGON l W)
    ∧ (∃ W : World, W.stdin = ls
      ∧ printed W.trace = printed w.trace ++ lit "\x1b[2J\x1b[1;1fGREETINGS PROFESSOR FALKEN.\n\n"
      ∧ greeting hi .ConsoleMessenger w = hi .ConsoleMessenger GREETING l W)
    ∧ (∃ W : World, W.stdin = ls
      ∧ printed W.trace = printed w.trace ++ lit "\n\nHOW ARE YOU FEELING TODAY?\n\n"
      ∧ wellbeing hi .ConsoleMessenger w = hi .ConsoleMessenger WELLBEING l W)
    ∧ (∃ W : World, W.stdin = ls
      ∧ printed W.trace = printed w.trace
          ++ lit ("\n\nEXCELLENT. IT'S BEEN A LONG TIME. CAN YOU EXPLAIN\n"
            ++ "THE REMOVAL OF YOUR USER ACCOUNT NUMBER ON 6/23/73?\n\n")
      ∧ explanation hi .ConsoleMessenger w = hi .ConsoleMessenger EXPLANATION l W)
    ∧ (∃ W : World, W.stdin = ls
      ∧ printed W.trace = printed w.trace ++ lit "\n\nYES, THEY DO. SHALL WE PLAY A GAME?\n\n"
      ∧ playGame hi .ConsoleMessenger w = hi .ConsoleMessenger PLAY_GAME l W)
    ∧ (∃ W : World, W.stdin = ls
      ∧ printed W.trace
          = printed w.trace ++ lit "\n\nWOULDN'T YOU PREFER A GOOD GAME OF CHESS?\n\n"
      ∧ playGameVerify hi .ConsoleMessenger w = hi .ConsoleMessenger PLAY_GAME_VERIFY l W) := by
  refine ⟨?_, ?_, ?_, ?_, ?_, ?_⟩
  · rw [logon_eq]
    obtain ⟨W, s, t, e⟩ := scanThen_console_trace hi LOGON _ l ls
      (show (animateMessage .ConsoleMessenger (lit "LOGON: ")
        (bumpLine .ConsoleMessenger [] (UpdateState .ConsoleMessenger LOGON w))).stdin = _ by
          simpa using h)
    refine ⟨W, s, ?_, e⟩
    rw [t]
    simp only [animateMessage_eq, bumpLine_eq, setCursorPosition_home, Send_eq, UpdateState]
    simp
    decide
  · rw [greeting_eq]
    obtain ⟨W, s, t, e⟩ := scanThen_console_trace hi GREETING _ l ls
      (show (bumpLine .ConsoleMessenger [2]
        (animateMessage .ConsoleMessenger (lit "GREETINGS PROFESSOR FALKEN.")
        (setCursorPosition 0 0 .ConsoleMessenger (Send .ConsoleMessenger CLEAR
        (UpdateState .ConsoleMessenger GREETING w))))).stdin = _ by simpa using h)
    refine ⟨W, s, ?_, e⟩
    rw [t]
    simp only [animateMessage_eq, bumpLine_eq, setCursorPosition_home, Send_eq, UpdateState]
    simp
    decide
  · rw [wellbeing_eq]
    obtain ⟨W, s, t, e⟩ := scanThen_console_trace hi WELLBEING _ l ls
      (show (bumpLine .ConsoleMessenger [2]
        (animateMessage .ConsoleMessenger (lit "HOW ARE YOU FEELING TODAY?")
        (bumpLine .ConsoleMessenger [2] (UpdateState .ConsoleMessenger WELLBEING w)))).stdin = _ by
          simpa using h)
    refine ⟨W, s, ?_, e⟩
    rw [t]
    simp only [animateMessage_eq, bumpLine_eq, setCursorPosition_home, Send_eq, UpdateState]
    simp
    decide
  · rw [explanation_eq]
    obtain ⟨W, s, t, e⟩ := scanThen_console_trace hi EXPLANATION _ l ls
      (show (bumpLine .ConsoleMessenger [2]
        (animateMessage .ConsoleMessenger
          (lit "THE REMOVAL OF YOUR USER ACCOUNT NUMBER ON 6/23/73?")
        (bumpLine .ConsoleMessenger []
        (animateMessage .ConsoleMessenger
          (lit "EXCELLENT. IT'S BEEN A LONG TIME. CAN YOU EXPLAIN")
        (bumpLine .ConsoleMessenger [2]
          (UpdateState .ConsoleMessenger EXPLANATION w)))))).stdin = _ by simpa using h)
    refine ⟨W, s, ?_, e⟩
    rw [t]
    simp only [animateMessage_eq, bumpLine_eq, setCursorPosition_home, Send_eq, UpdateState]
    simp
    decide
  · rw [playGame_eq]
    obtain ⟨W, s, t, e⟩ := scanThen_console_trace hi PLAY_GAME _ l ls
      (show (bumpLine .ConsoleMessenger [2]
        (animateMessage .ConsoleMessenger (lit "YES, THEY DO. SHALL WE PLAY A GAME?")
        (bumpLine .ConsoleMessenger [2] (UpdateState .ConsoleMessenger PLAY_GAME w)))).stdin = _ by
          simpa using h)
    refine ⟨W, s, ?_, e⟩
    rw [t]
    simp only [animateMessage_eq, bumpLine_eq, setCursorPosition_home, Send_eq, UpdateState]
    simp
    decide
  · rw [playGameVerify_eq]
    obtain ⟨W, s, t, e⟩ := scanThen_console_trace hi PLAY_GAME_VERIFY _ l ls
      (show (bumpLine .ConsoleMessenger [2]
        (animateMessage .ConsoleMessenger (lit "WOULDN'T YOU PREFER A GOOD GAME OF CHESS?")
        (bumpLine .ConsoleMessenger [2]
          (UpdateState .ConsoleMessenger PLAY_GAME_VERIFY w)))).stdin = _ by simpa using h)
    refine ⟨W, s, ?_, e⟩
    rw [t]
    simp only [animateMessage_eq, bumpLine_eq, setCursorPosition_home, Send_eq, UpdateState]
    simp
    decide

set_option maxRecDepth 100000 in
/-- The console session from the LOGON prompt through JOSHUA and four more
lines, with what has been printed when `playGameVerify` is entered. -/
theorem console_five_printed (tbl : Nat → Nat) (w : World) (I a1 a2 a3 a4 : GoString)
    (rest : List GoString) (hs : w.stdin = I :: a1 :: a2 :: a3 :: a4 :: rest)
    (h : stripInput tbl I = lit "JOSHUA") :
    ∃ W : World, W.stdin = rest
      ∧ printed W.trace = printed w.trace ++ lit "\nLOGON: "
          ++ lit ("\x1b[2J\x1b[1;1fGREETINGS PROFESSOR FALKEN.\n\n" ++
            "\n\nHOW ARE YOU FEELING TODAY?\n\n" ++
            "\n\nEXCELLENT. IT'S BEEN A LONG TIME. CAN YOU EXPLAIN\n" ++
            "THE REMOVAL OF YOUR USER ACCOUNT NUMBER ON 6/23/73?\n\n" ++
            "\n\nYES, THEY DO. SHALL WE PLAY A GAME?\n\n")
      ∧ logon (handleInput tbl) .ConsoleMessenger w
          = playGameVerify (handleInput tbl) .ConsoleMessenger W := by
  obtain ⟨W1, s1, p1, e1⟩ := (console_step (handleInput tbl) w I _ hs).1
  obtain ⟨W2, s2, p2, e2⟩ := (console_step (handleInput tbl) W1 a1 _ s1).2.1
  obtain ⟨W3, s3, p3, e3⟩ := (console_step (handleInput tbl) W2 a2 _ s2).2.2.1
  obtain ⟨W4, s4, p4, e4⟩ := (console_step (handleInput tbl) W3 a3 _ s3).2.2.2.1
  obtain ⟨W5, s5, p5, e5⟩ := (console_step (handleInput tbl) W4 a4 _ s4).2.2.2.2.1
  refine ⟨W5, s5, ?_, ?_⟩
  · rw [p5, p4, p3, p2, p1]
    simp only [List.append_assoc, List.append_cancel_left_eq]
    decide
  · rw [e1, (handleInput_console tbl I W1).1 h, e2, (handleInput_console tbl a1 W2).2.1, e3,
      (handleInput_console tbl a2 W3).2.2.1, e4, (handleInput_console tbl a3 W4).2.2.2.1, e5,
      (handleInput_console tbl a4 W5).2.2.2.2.1]

set_option maxRecDepth 100000 in
theorem fiveText_no_menu : ¬ menuText <:+: fiveText := by decide

set_option maxRecDepth 100000 in
theorem five_text_facts :
    ¬ menuText <:+: lit "\nLOGON: " ++ fiveText
    ∧ lit ("\x1b[2J\x1b[1;1fGREETINGS PROFESSOR FALKEN.\n\n" ++
            "\n\nHOW ARE YOU FEELING TODAY?\n\n" ++
            "\n\nEXCELLENT. IT'S BEEN A LONG TIME. CAN YOU EXPLAIN\n" ++
            "THE REMOVAL OF YOUR USER ACCOUNT NUMBER ON 6/23/73?\n\n" ++
            "\n\nYES, THEY DO. SHALL WE PLAY A GAME?\n\n")
        ++ lit "\n\nWOULDN'T YOU PREFER A GOOD GAME OF CHESS?\n\n" = fiveText := by decide

/-- C4: a session at the LOGON prompt that is fed JOSHUA and then five
arbitrary lines.  After the fifth input (JOSHUA and four lines) it is at
PLAY_GAME_VERIFY, what it has written is the text of the first five screens,
and the side-selection menu is not in it.  After the sixth input it is at
GLOBAL_WAR and the menu is the last thing written.  Stated for a network
session (`feed`) and for the console session started by `logon`, whose inputs
are the lines typed. -/
theorem C4_six_inputs (tbl : Nat → Nat) (c : Conn) (w wc5 wc : World)
    (I a1 a2 a3 a4 a5 : GoString)
    (h : stripInput tbl I = lit "JOSHUA") (h0 : (mapGet w.tcpClients c).Screen = LOGON)
    (hs5 : wc5.stdin = [I, a1, a2, a3, a4]) (hs : wc.stdin = [I, a1, a2, a3, a4, a5]) :
    (screenOf (feed tbl c [I, a1, a2, a3, a4] w) c = some PLAY_GAME_VERIFY
      ∧ writtenSince c w (feed tbl c [I, a1, a2, a3, a4] w) = fiveText
      ∧ ¬ menuText <:+: writtenSince c w (feed tbl c [I, a1, a2, a3, a4] w)
      ∧ screenOf (feed tbl c [I, a1, a2, a3, a4, a5] w) c = some GLOBAL_THERMONOCULEAR_WAR
      ∧ written c (feed tbl c [I, a1, a2, a3, a4, a5] w).trace
          = written c w.trace ++ fiveText ++ warIntro ++ menuText
      ∧ ∃ pre, written c (feed tbl c [I, a1, a2, a3, a4, a5] w).trace = pre ++ menuText)
    ∧ (∃ u : World, logon (handleInput tbl) .ConsoleMessenger wc5
          = u.emit (Event.await PLAY_GAME_VERIFY)
        ∧ printed u.trace = printed wc5.trace ++ lit "\nLOGON: " ++ fiveText
        ∧ ¬ menuText <:+: (printed u.trace).drop (printed wc5.trace).length)
    ∧ (∃ v : World, logon (handleInput tbl) .ConsoleMessenger wc
          = v.emit (Event.await GLOBAL_THERMONOCULEAR_WAR)
        ∧ printed v.trace
          = printed wc.trace ++ lit "\nLOGON: " ++ fiveText ++ warIntro ++ menuText
        ∧ ∃ pre, printed v.trace = pre ++ menuText) := by
  obtain ⟨f2, f3⟩ := five_text_facts
  obtain ⟨k, e⟩ := feed_conversation tbl c w I a1 a2 a3 a4 a5 h0 h
  have t5 := feed_five_written tbl c w I a1 a2 a3 a4 h0 h
  have t6 : written c (feed tbl c [I, a1, a2, a3, a4, a5] w).trace
      = written c w.trace ++ fiveText ++ warIntro ++ menuText := by
    rw [e, (handleInput_conversation tbl c a5 _).2.2.2.2.1, globalThermoNuclearWar_written]
    simp only [emit_trace, written_append, written_cons_stdout, written_nil, List.append_nil, t5]
  have s5 : writtenSince c w (feed tbl c [I, a1, a2, a3, a4] w) = fiveText := by
    unfold writtenSince
    rw [t5]
    simp
  obtain ⟨W, sW, pW, eW⟩ := console_five_printed tbl wc I a1 a2 a3 a4 [a5] hs h
  obtain ⟨W', sW', pW', eW'⟩ := (console_step (handleInput tbl) W a5 [] sW).2.2.2.2.2
  obtain ⟨v, ev, pv⟩ := globalThermoNuclearWar_console (handleInput tbl) W' sW'
  have e6 : logon (handleInput tbl) .ConsoleMessenger wc
      = v.emit (Event.await GLOBAL_THERMONOCULEAR_WAR) := by
    rw [eW, eW', (handleInput_console tbl a5 W').2.2.2.2.2, ev]
  have p6 : printed v.trace
      = printed wc.trace ++ lit "\nLOGON: " ++ fiveText ++ warIntro ++ menuText := by
    rw [pv, pW', pW, ← f3]
    simp only [List.append_assoc]
  obtain ⟨U, sU, pU, eU⟩ := console_five_printed tbl wc5 I a1 a2 a3 a4 [] hs5 h
  obtain ⟨u, eu, pu⟩ := playGameVerify_console_blocked (handleInput tbl) U sU
  have p5 : printed u.trace = printed wc5.trace ++ lit "\nLOGON: " ++ fiveText := by
    rw [pu, pU, ← f3]
    simp only [List.append_assoc]
  refine ⟨⟨k, s5, ?_, ?_, t6, _, t6⟩, ⟨u, ?_, p5, ?_⟩, ⟨v, e6, p6, _, p6⟩⟩
  · rw [s5]
    exact fiveText_no_menu
  · rw [e]
    exact (next_screen tbl c a5 _).2.2.2.2.2
  · rw [eU, eu]
  · rw [p5, List.append_assoc, List.drop_left]
    exact f2

theorem C4_six_inputs_witness :
    (screenOf (feed id 0 [lit "joshua\r\n", lit "A", lit "B", lit "C", lit "D"] (register 0 World.initial)) 0 = some PLAY_GAME_VERIFY
      ∧ writtenSince 0 (register 0 World.initial) (feed id 0 [lit "joshua\r\n", lit "A", lit "B", lit "C", lit "D"] (register 0 World.initial)) = fiveText
      ∧ ¬ menuText <:+: writtenSince 0 (register 0 World.initial) (feed id 0 [lit "joshua\r\n", lit "A", lit "B", lit "C", lit "D"] (register 0 World.initial))
      ∧ screenOf (feed id 0 [lit "joshua\r\n", lit "A", lit "B", lit "C", lit "D", lit "E"] (register 0 World.initial)) 0 = some GLOBAL_THERMONOCULEAR_WAR
      ∧ written 0 (feed id 0 [lit "joshua\r\n", lit "A", lit "B", lit "C", lit "D", lit "E"] (register 0 World.initial)).trace
          = written 0 (register 0 World.initial).trace ++ fiveText ++ warIntro ++ menuText
      ∧ ∃ pre, written 0 (feed id 0 [lit "joshua\r\n", lit "A", lit "B", lit "C", lit "D", lit "E"] (register 0 World.initial)).trace = pre ++ menuText)
    ∧ (∃ u : World, logon (handleInput id) .ConsoleMessenger ({ World.initial with stdin := [lit "joshua\r\n", lit "A", lit "B", lit "C", lit "D"] } : World)
          = u.emit (Event.await PLAY_GAME_VERIFY)
        ∧ printed u.trace = printed ({ World.initial with stdin := [lit "joshua\r\n", lit "A", lit "B", lit "C", lit "D"] } : World).trace ++ lit "\nLOGON: " ++ fiveText
        ∧ ¬ menuText <:+: (printed u.trace).drop (printed ({ World.initial with stdin := [lit "joshua\r\n", lit "A", lit "B", lit "C", lit "D"] } : World).trace).length)
    ∧ (∃ v : World, logon (handleInput id) .ConsoleMessenger ({ World.initial with stdin := [lit "joshua\r\n", lit "A", lit "B", lit "C", lit "D", lit "E"] } : World)
          = v.emit (Event.await GLOBAL_THERMONOCULEAR_WAR)
        ∧ printed v.trace
          = printed ({ World.initial with stdin := [lit "joshua\r\n", lit "A", lit "B", lit "C", lit "D", lit "E"] } : World).trace ++ lit "\nLOGON: " ++ fiveText ++ warIntro ++ menuText
        ∧ ∃ pre, printed v.trace = pre ++ menuText) :=
  C4_six_inputs id 0 (register 0 World.initial)
    { World.initial with stdin := [lit "joshua\r\n", lit "A", lit "B", lit "C", lit "D"] }
    { World.initial with stdin := [lit "joshua\r\n", lit "A", lit "B", lit "C", lit "D", lit "E"] }
    (lit "joshua\r\n") (lit "A") (lit "B") (lit "C") (lit "D") (lit "E") (by decide) rfl rfl rfl

/-- After JOSHUA and four more lines the session is at PLAY_GAME_VERIFY, not at
GLOBAL_WAR, and the menu has not been written. -/
theorem C4_counterexample :
    screenOf (feed id 0 [lit "JOSHUA", lit "A", lit "B", lit "C", lit "D"]
        (register 0 World.initial)) 0 = some PLAY_GAME_VERIFY
    ∧ screenOf (feed id 0 [lit "JOSHUA", lit "A", lit "B", lit "C", lit "D"]
        (register 0 World.initial)) 0 ≠ some GLOBAL_THERMONOCULEAR_WAR
    ∧ ¬ menuText <:+: written 0 (feed id 0 [lit "JOSHUA", lit "A", lit "B", lit "C", lit "D"]
        (register 0 World.initial)).trace
    ∧ ∃ v : World, logon (handleInput id) .ConsoleMessenger
          { World.initial with stdin := [lit "JOSHUA", lit "A", lit "B", lit "C", lit "D"] }
        = v.emit (Event.await PLAY_GAME_VERIFY) := by
  have k := (feed_conversation id 0 (register 0 World.initial) (lit "JOSHUA") (lit "A") (lit "B")
    (lit "C") (lit "D") (lit "E") rfl (by decide)).1
  have t := feed_five_written id 0 (register 0 World.initial) (lit "JOSHUA") (lit "A") (lit "B")
    (lit "C") (lit "D") rfl (by decide)
  refine ⟨k, ?_, ?_, ?_⟩
  · rw [k]; decide
  · rw [t]
    exact fiveText_no_menu
  · obtain ⟨W, sW, eW⟩ := console_five id
      { World.initial with stdin := [lit "JOSHUA", lit "A", lit "B", lit "C", lit "D"] }
      (lit "JOSHUA") (lit "A") (lit "B") (lit "C") (lit "D") [] rfl (by decide)
    obtain ⟨v, ev, -⟩ := playGameVerify_console_blocked (handleInput id) W sW
    exact ⟨v, by rw [eW, ev]⟩

/-- A network session whose recorded screen is STRIKE_2 stays there: no input
changes the registry, is answered or closes a connection. -/
theorem feed_strike2 (tbl : Nat → Nat) (c : Conn) (inputs : List GoString) (w : World)
    (h : screenOf w c = some STRIKE_COMMAND_2) :
    (feed tbl c inputs w).tcpClients = w.tcpClients
    ∧ written c (feed tbl c inputs w).trace = written c w.trace
    ∧ closes (feed tbl c inputs w).trace = closes w.trace := by
  induction inputs generalizing w with
  | nil => exact ⟨rfl, rfl, rfl⟩
  | cons i is ih =>
    have e : feed tbl c (i :: is) w
        = feed tbl c is (handleInput tbl (.NetworkMessenger c) STRIKE_COMMAND_2 i w) := by
      simp only [feed, List.foldl_cons]
      rw [mapGet_of_screenOf _ _ _ h]
    rw [e, (handleInput_conversation tbl c i w).2.2.2.2.2.2.2]
    obtain ⟨a, b, d⟩ := ih (w.emit (Event.stdout (stripInput tbl i ++ lit "\n"))) h
    refine ⟨a, ?_, ?_⟩
    · rw [b]; simp
    · rw [d]; simp

/-- C5: on a network messenger whose recorded screen is STRIKE_2, `handleInput`
leaves the registry as it is (the screen stays STRIKE_2), writes nothing to the
connection and does not close it; and so for every sequence of further inputs:
the session does not come back to LOGON. -/
theorem C5_strike2_stays (tbl : Nat → Nat) (c : Conn) (I : GoString) (w : World)
    (h : screenOf w c = some STRIKE_COMMAND_2) :
    screenOf (handleInput tbl (.NetworkMessenger c) STRIKE_COMMAND_2 I w) c
      = some STRIKE_COMMAND_2
    ∧ (handleInput tbl (.NetworkMessenger c) STRIKE_COMMAND_2 I w).tcpClients
      = w.tcpClients
    ∧ written c (handleInput tbl (.NetworkMessenger c) STRIKE_COMMAND_2 I w).trace
      = written c w.trace
    ∧ closes (handleInput tbl (.NetworkMessenger c) STRIKE_COMMAND_2 I w).trace
      = closes w.trace
    ∧ ∀ inputs : List GoString,
        screenOf (feed tbl c inputs w) c = some STRIKE_COMMAND_2
        ∧ written c (feed tbl c inputs w).trace = written c w.trace
        ∧ closes (feed tbl c inputs w).trace = closes w.trace := by
  refine ⟨?_, ?_, ?_, ?_, fun inputs => ?_⟩
  · rw [(handleInput_conversation tbl c I w).2.2.2.2.2.2.2]; exact h
  · rw [(handleInput_conversation tbl c I w).2.2.2.2.2.2.2]; rfl
  · rw [(handleInput_conversation tbl c I w).2.2.2.2.2.2.2]; simp
  · rw [(handleInput_conversation tbl c I w).2.2.2.2.2.2.2]; simp
  · obtain ⟨a, b, d⟩ := feed_strike2 tbl c inputs w h
    exact ⟨by rw [screenOf, a]; exact h, b, d⟩

theorem C5_strike2_stays_witness :
    screenOf (handleInput id (.NetworkMessenger 0) STRIKE_COMMAND_2 (lit "MOSCOW\r\n") (UpdateState (.NetworkMessenger 0) STRIKE_COMMAND_2 (register 0 World.initial))) 0
      = some STRIKE_COMMAND_2
    ∧ (handleInput id (.NetworkMessenger 0) STRIKE_COMMAND_2 (lit "MOSCOW\r\n") (UpdateState (.NetworkMessenger 0) STRIKE_COMMAND_2 (register 0 World.initial))).tcpClients
      = (UpdateState (.NetworkMessenger 0) STRIKE_COMMAND_2 (register 0 World.initial)).tcpClients
    ∧ written 0 (handleInput id (.NetworkMessenger 0) STRIKE_COMMAND_2 (lit "MOSCOW\r\n") (UpdateState (.NetworkMessenger 0) STRIKE_COMMAND_2 (register 0 World.initial))).trace
      = written 0 (UpdateState (.NetworkMessenger 0) STRIKE_COMMAND_2 (register 0 World.initial)).trace
    ∧ closes (handleInput id (.NetworkMessenger 0) STRIKE_COMMAND_2 (lit "MOSCOW\r\n") (UpdateState (.NetworkMessenger 0) STRIKE_COMMAND_2 (register 0 World.initial))).trace
      = closes (UpdateState (.NetworkMessenger 0) STRIKE_COMMAND_2 (register 0 World.initial)).trace
    ∧ ∀ inputs : List GoString,
        screenOf (feed id 0 inputs (UpdateState (.NetworkMessenger 0) STRIKE_COMMAND_2 (register 0 World.initial))) 0 = some STRIKE_COMMAND_2
        ∧ written 0 (feed id 0 inputs (UpdateState (.NetworkMessenger 0) STRIKE_COMMAND_2 (register 0 World.initial))).trace = written 0 (UpdateState (.NetworkMessenger 0) STRIKE_COMMAND_2 (register 0 World.initial)).trace
        ∧ closes (feed id 0 inputs (UpdateState (.NetworkMessenger 0) STRIKE_COMMAND_2 (register 0 World.initial))).trace = closes (UpdateState (.NetworkMessenger 0) STRIKE_COMMAND_2 (register 0 World.initial)).trace :=
  C5_strike2_stays id 0 (lit "MOSCOW\r\n")
    (UpdateState (.NetworkMessenger 0) STRIKE_COMMAND_2 (register 0 World.initial)) (by decide)

/-- An input at STRIKE_2 on a network messenger does not bring the session back
to LOGON and renders nothing. -/
theorem strike2_not_logon :
    screenOf (handleInput id (.NetworkMessenger 0) STRIKE_COMMAND_2 (lit "MOSCOW\r\n")
        (UpdateState (.NetworkMessenger 0) STRIKE_COMMAND_2 (register 0 World.initial))) 0
      ≠ some LOGON
    ∧ written 0 (handleInput id (.NetworkMessenger 0) STRIKE_COMMAND_2 (lit "MOSCOW\r\n")
        (UpdateState (.NetworkMessenger 0) STRIKE_COMMAND_2 (register 0 World.initial))).trace
      = [] := by
  rw [(handleInput_conversation id 0 _ _).2.2.2.2.2.2.2]
  constructor
  · decide
  · decide

theorem games_not_in_prompt : ∀ g ∈ games, ¬ g <:+: lit "\nLOGON: " := by decide

set_option maxRecDepth 100000 in
theorem listGames_written (hi : Handler) (c : Conn) (w : World) :
    written c (listGames hi (.NetworkMessenger c) w).trace
      = written c w.trace ++ (gamesText ++ lit "\nLOGON: ") := by
  rw [listGames_eq, (written_after hi c _).2.2.2.2.2]
  simp only [listGamesLoop, games, List.enum, List.enumFrom, List.foldl_cons, List.foldl_nil,
    animateMessage_eq, bumpLine_eq]
  simp
  decide

/-- C6: at GAMES on a network messenger the bytes written are the game list
followed by the LOGON prompt when the token is LIST GAMES and the LOGON prompt
alone otherwise; the screen recorded afterwards is LOGON, and no game name is
written unless the token is LIST GAMES. -/
theorem C6_games_screen (tbl : Nat → Nat) (c : Conn) (I : GoString) (w : World) :
    written c (handleInput tbl (.NetworkMessenger c) GAMES I w).trace
      = written c w.trace
        ++ (if stripInput tbl I = lit "LIST GAMES" then gamesText ++ lit "\nLOGON: "
            else lit "\nLOGON: ")
    ∧ screenOf (handleInput tbl (.NetworkMessenger c) GAMES I w) c = some LOGON
    ∧ (stripInput tbl I ≠ lit "LIST GAMES" →
        ∀ g ∈ games, ¬ g <:+: writtenSince c w (handleInput tbl (.NetworkMessenger c) GAMES I w))
    := by
  rw [handleInput_GAMES]
  by_cases h : stripInput tbl I = lit "LIST GAMES"
  · simp only [if_pos h]
    refine ⟨?_, ?_, fun hn => absurd h hn⟩
    · rw [listGames_written]; simp
    · rw [listGames_eq, screenOf, (recorded_after idle c _).2.2.2.2.2.2.2.2.2]
      simp [mapSet]
  · simp only [if_neg h]
    refine ⟨?_, ?_, fun _ => ?_⟩
    · rw [(written_after idle c _).2.2.2.2.2]; simp
    · rw [screenOf, (recorded_after idle c _).2.2.2.2.2.2.2.2.2]
      simp [mapSet]
    · unfold writtenSince
      rw [(written_after idle c _).2.2.2.2.2]
      simp
      exact games_not_in_prompt


theorem C6_games_screen_witness :
    written 3 (handleInput id (.NetworkMessenger 3) GAMES (lit "list games\r\n")
        (register 3 World.initial)).trace
      = written 3 (register 3 World.initial).trace ++ (gamesText ++ lit "\nLOGON: ")
    ∧ written 3 (handleInput id (.NetworkMessenger 3) GAMES (lit "chess\r\n")
        (register 3 World.initial)).trace
      = written 3 (register 3 World.initial).trace ++ lit "\nLOGON: "
    ∧ screenOf (handleInput id (.NetworkMessenger 3) GAMES (lit "chess\r\n")
        (register 3 World.initial)) 3 = some LOGON
    ∧ ∀ g ∈ games, ¬ g <:+: writtenSince 3 (register 3 World.initial)
        (handleInput id (.NetworkMessenger 3) GAMES (lit "chess\r\n") (register 3 World.initial)) :=
  ⟨(C6_games_screen id 3 (lit "list games\r\n") (register 3 World.initial)).1,
   (C6_games_screen id 3 (lit "chess\r\n") (register 3 World.initial)).1,
   (C6_games_screen id 3 (lit "chess\r\n") (register 3 World.initial)).2.1,
   (C6_games_screen id 3 (lit "chess\r\n") (register 3 World.initial)).2.2 (by decide)⟩

/-! ### UTF-8: decoding what was encoded -/

theorem decode1 (u : Nat) (rest : GoString) (h : u ≤ 0x7F) :
    DecodeRune (u :: rest) = (u, 1) := by
  have a : u < 128 := by omega
  simp only [DecodeRune]
  rw [if_pos a]

theorem decode2 (u : Nat) (rest : GoString) (h1 : 0x7F < u) (h2 : u ≤ 0x7FF) :
    DecodeRune ((0xC0 + u / 64) :: (0x80 + u % 64) :: rest) = (u, 2) := by
  have a : ¬ (192 + u / 64 < 128) := by omega
  have b : ¬ (192 + u / 64 < 194) := by omega
  have c : 192 + u / 64 < 224 := by omega
  have d : 128 ≤ 128 + u % 64 ∧ 128 + u % 64 ≤ 191 := by omega
  have e : (192 + u / 64) % 32 * 64 + (128 + u % 64) % 64 = u := by omega
  simp only [DecodeRune]
  rw [if_neg a, if_neg b, if_pos c, if_pos d, e]

theorem decode3 (u : Nat) (rest : GoString) (h1 : 0x7FF < u) (h2 : u ≤ 0xFFFF)
    (h3 : ¬ (0xD800 ≤ u ∧ u ≤ 0xDFFF)) :
    DecodeRune ((0xE0 + u / 4096) :: (0x80 + u / 64 % 64) :: (0x80 + u % 64) :: rest) = (u, 3) := by
  have a : ¬ (224 + u / 4096 < 128) := by omega
  have b : ¬ (224 + u / 4096 < 194) := by omega
  have c : ¬ (224 + u / 4096 < 224) := by omega
  have c' : 224 + u / 4096 < 240 := by omega
  have d : (if 224 + u / 4096 = 224 then 160 else 128) ≤ 128 + u / 64 % 64
      ∧ 128 + u / 64 % 64 ≤ (if 224 + u / 4096 = 237 then 159 else 191) := by
    split_ifs <;> omega
  have d' : 128 ≤ 128 + u % 64 ∧ 128 + u % 64 ≤ 191 := by omega
  have e : (224 + u / 4096) % 16 * 4096 + (128 + u / 64 % 64) % 64 * 64 + (128 + u % 64) % 64 = u := by
    omega
  simp only [DecodeRune]
  rw [if_neg a, if_neg b, if_neg c, if_pos c', if_pos d, if_pos d', e]

theorem decode4 (u : Nat) (rest : GoString) (h1 : 0xFFFF < u) (h2 : u ≤ 0x10FFFF) :
    DecodeRune ((0xF0 + u / 262144) :: (0x80 + u / 4096 % 64) :: (0x80 + u / 64 % 64)
      :: (0x80 + u % 64) :: rest) = (u, 4) := by
  have a : ¬ (240 + u / 262144 < 128) := by omega
  have b : ¬ (240 + u / 262144 < 194) := by omega
  have c : ¬ (240 + u / 262144 < 224) := by omega
  have c' : ¬ (240 + u / 262144 < 240) := by omega
  have c'' : 240 + u / 262144 < 245 := by omega
  have d : (if 240 + u / 262144 = 240 then 144 else 128) ≤ 128 + u / 4096 % 64
      ∧ 128 + u / 4096 % 64 ≤ (if 240 + u / 262144 = 244 then 143 else 191) := by
    split_ifs <;> omega
  have d' : 128 ≤ 128 + u / 64 % 64 ∧ 128 + u / 64 % 64 ≤ 191 := by omega
  have d'' : 128 ≤ 128 + u % 64 ∧ 128 + u % 64 ≤ 191 := by omega
  have e : (240 + u / 262144) % 8 * 262144 + (128 + u / 4096 % 64) % 64 * 4096
      + (128 + u / 64 % 64) % 64 * 64 + (128 + u % 64) % 64 = u := by
    omega
  simp only [DecodeRune]
  rw [if_neg a, if_neg b, if_neg c, if_neg c', if_pos c'', if_pos d, if_pos d', if_pos d'', e]

theorem decodeErr (rest : GoString) :
    DecodeRune (0xEF :: 0xBF :: 0xBD :: rest) = (RuneError, 3) := by
  simp [DecodeRune, RuneError]

theorem runesFrom_cons (c : Nat) (cs : GoString) :
    runesFrom 0 (c :: cs)
      = (DecodeRune (c :: cs)).1 :: runesFrom ((DecodeRune (c :: cs)).2 - 1) cs := rfl

theorem runesFrom_skip (k c : Nat) (cs : GoString) :
    runesFrom (k + 1) (c :: cs) = runesFrom k cs := rfl

theorem encode1 (u : Nat) (h : u ≤ 0x7F) : EncodeRune u = [u] := by
  unfold EncodeRune
  rw [if_pos h]

theorem encode2 (u : Nat) (h1 : 0x7F < u) (h2 : u ≤ 0x7FF) :
    EncodeRune u = [0xC0 + u / 64, 0x80 + u % 64] := by
  unfold EncodeRune
  rw [if_neg (by omega), if_pos h2]

theorem encodeErr (u : Nat) (h : ¬ ValidRune u) : EncodeRune u = [0xEF, 0xBF, 0xBD] := by
  unfold ValidRune at h
  unfold EncodeRune
  rw [if_neg (by omega), if_neg (by omega), if_pos (by omega)]

theorem encode3 (u : Nat) (h1 : 0x7FF < u) (h2 : u ≤ 0xFFFF) (h : ValidRune u) :
    EncodeRune u = [0xE0 + u / 4096, 0x80 + u / 64 % 64, 0x80 + u % 64] := by
  unfold ValidRune at h
  unfold EncodeRune
  rw [if_neg (by omega), if_neg (by omega), if_neg (by omega), if_pos h2]

theorem encode4 (u : Nat) (h1 : 0xFFFF < u) (h : ValidRune u) :
    EncodeRune u
      = [0xF0 + u / 262144, 0x80 + u / 4096 % 64, 0x80 + u / 64 % 64, 0x80 + u % 64] := by
  unfold ValidRune at h
  unfold EncodeRune
  rw [if_neg (by omega), if_neg (by omega), if_neg (by omega), if_neg (by omega)]

/-- Decoding what was encoded. -/
theorem runesFrom_encode (u : Nat) (rest : GoString) :
    runesFrom 0 (EncodeRune u ++ rest) = san u :: runesFrom 0 rest := by
  unfold san
  by_cases hv : ValidRune u
  · rw [if_pos hv]
    have hv' := hv
    unfold ValidRune at hv'
    by_cases h1 : u ≤ 0x7F
    · rw [encode1 u h1]
      show runesFrom 0 (u :: rest) = _
      rw [runesFrom_cons, decode1 u rest h1]
      rfl
    · by_cases h2 : u ≤ 0x7FF
      · rw [encode2 u (by omega) h2]
        show runesFrom 0 (_ :: _ :: rest) = _
        rw [runesFrom_cons, decode2 u rest (by omega) h2]
        rfl
      · by_cases h3 : u ≤ 0xFFFF
        · rw [encode3 u (by omega) h3 hv]
          show runesFrom 0 (_ :: _ :: _ :: rest) = _
          rw [runesFrom_cons, decode3 u rest (by omega) h3 (by omega)]
          rfl
        · rw [encode4 u (by omega) hv]
          show runesFrom 0 (_ :: _ :: _ :: _ :: rest) = _
          rw [runesFrom_cons, decode4 u rest (by omega) (by omega)]
          rfl
  · rw [if_neg hv, encodeErr u hv]
    show runesFrom 0 (_ :: _ :: _ :: rest) = _
    rw [runesFrom_cons, decodeErr]
    rfl

theorem runes_flatMap_encode (us : List Nat) :
    runes (us.flatMap EncodeRune) = us.map san := by
  unfold runes
  induction us with
  | nil => rfl
  | cons u us ih => rw [List.flatMap_cons, runesFrom_encode, ih, List.map_cons]

theorem decodedOk_err (s : GoString) : DecodedOk s RuneError := by
  right; unfold RuneError ValidRune; omega

theorem decode_spec : ∀ s : GoString, DecodedOk s (DecodeRune s).1
  | [] => decodedOk_err _
  | [s0] => by
    simp only [DecodeRune]
    split_ifs
    · left; exact ⟨by assumption, rfl⟩
    all_goals exact decodedOk_err _
  | [s0, s1] => by
    simp only [DecodeRune]
    split_ifs
    · left; exact ⟨by assumption, rfl⟩
    all_goals first
      | exact decodedOk_err _
      | (right; unfold ValidRune; simp only []; omega)
  | [s0, s1, s2] => by
    simp only [DecodeRune]
    split_ifs
    · left; exact ⟨by assumption, rfl⟩
    all_goals first
      | exact decodedOk_err _
      | (right; unfold ValidRune; simp only []; omega)
  | s0 :: s1 :: s2 :: s3 :: rest => by
    simp only [DecodeRune]
    split_ifs
    · left; exact ⟨by assumption, rfl⟩
    all_goals first
      | exact decodedOk_err _
      | (right; unfold ValidRune; simp only []; omega)


theorem runesFrom_ok : ∀ (s : GoString) (k : Nat) (r : Nat), r ∈ runesFrom k s →
    (r < 128 ∧ r ∈ s) ∨ (128 ≤ r ∧ ValidRune r)
  | [], k, r, h => by cases k <;> simp [runesFrom] at h
  | c :: cs, k + 1, r, h => by
    rw [runesFrom_skip] at h
    rcases runesFrom_ok cs k r h with ⟨h1, h2⟩ | h'
    · exact Or.inl ⟨h1, List.mem_cons_of_mem _ h2⟩
    · exact Or.inr h'
  | c :: cs, 0, r, h => by
    rw [runesFrom_cons, List.mem_cons] at h
    rcases h with h | h
    · rcases decode_spec (c :: cs) with ⟨h1, h2⟩ | h'
      · simp only [List.head?_cons, Option.some.injEq] at h2
        exact Or.inl ⟨h ▸ h1, by rw [h, ← h2]; exact List.mem_cons_self _ _⟩
      · exact Or.inr (h ▸ h')
    · rcases runesFrom_ok cs _ r h with ⟨h1, h2⟩ | h'
      · exact Or.inl ⟨h1, List.mem_cons_of_mem _ h2⟩
      · exact Or.inr h'

theorem encode_bytes (u : Nat) (h : 128 ≤ u) : ∀ b ∈ EncodeRune u, 128 ≤ b := by
  intro b hb
  unfold EncodeRune at hb
  split_ifs at hb <;> simp only [List.mem_cons, List.mem_singleton, List.not_mem_nil, or_false] at hb <;>
    omega

/-! ### `stripInput` -/

theorem replace_byte (b : Nat) (s : GoString) :
    Replace s [b] [] = s.filter (fun c => decide (c ≠ b)) := by
  unfold Replace
  induction s with
  | nil => rfl
  | cons c cs ih =>
    by_cases h : c = b
    · subst h
      simp [replaceFrom, List.isPrefixOf, ih]
    · have hb : (b == c) = false := by simpa using fun e => h e.symm
      simp [replaceFrom, List.isPrefixOf, ih, h, hb]

theorem stripInput_eq (tbl : Nat → Nat) (x : GoString) :
    stripInput tbl x = ToUpper tbl (dropCRLF x) := by
  have e1 : lit "\r" = [13] := by decide
  have e2 : lit "\n" = [10] := by decide
  have e3 : lit "" = [] := by decide
  unfold stripInput dropCRLF
  simp only [e1, e2, e3, replace_byte, List.filter_filter]
  congr 2
  funext b
  simp [Bool.and_comm]

theorem dropCRLF_self (y : GoString) (h : ∀ b ∈ y, b ≠ 10 ∧ b ≠ 13) : dropCRLF y = y := by
  unfold dropCRLF
  rw [List.filter_eq_self]
  intro b hb
  have := h b hb
  simp [this.1, this.2]

theorem upperASCII_idem (c : Nat) : upperASCII (upperASCII c) = upperASCII c := by
  unfold upperASCII
  split_ifs <;> omega

theorem ToUpper_ascii (tbl : Nat → Nat) (s : GoString) (h : ∀ c ∈ s, c < 128) :
    ToUpper tbl s = s.map upperASCII := by
  unfold ToUpper
  rw [if_pos (List.all_eq_true.2 (fun c hc => decide_eq_true (h c hc)))]

/-- The result of `ToUpper` is a run of encoded runes that `stripInput` leaves alone. -/
theorem ToUpper_settled (tbl : Nat → Nat) (ht : CaseTable tbl) (s : GoString)
    (hs : ∀ b ∈ s, b ≠ 10 ∧ b ≠ 13) :
    ∃ us : List Nat, (∀ u ∈ us, Settled tbl u) ∧ ToUpper tbl s = us.flatMap EncodeRune := by
  have asc : ∀ a, a < 128 → a ≠ 10 ∧ a ≠ 13 → Settled tbl (upperASCII a) := by
    intro a h1 h2
    unfold Settled ValidRune unicodeToUpper
    have := upperASCII_idem a
    refine ⟨?_, ?_, ?_, ?_, ?_⟩
    · unfold upperASCII; split_ifs <;> omega
    · unfold upperASCII; split_ifs <;> omega
    · unfold upperASCII; split_ifs <;> omega
    · unfold upperASCII; split_ifs <;> omega
    · rw [if_pos (by unfold upperASCII; split_ifs <;> omega)]
      exact this
  by_cases ha : ∀ c ∈ s, c < 128
  · refine ⟨s.map upperASCII, ?_, ?_⟩
    · intro u hu
      obtain ⟨a, ha1, rfl⟩ := List.mem_map.1 hu
      exact asc a (ha a ha1) (hs a ha1)
    · rw [ToUpper_ascii tbl s ha]
      have : ∀ l : List Nat, (∀ c ∈ l, c < 128) → l.map upperASCII = (l.map upperASCII).flatMap EncodeRune := by
        intro l
        induction l with
        | nil => intro _; rfl
        | cons c l ih =>
          intro hl
          rw [List.map_cons, List.flatMap_cons, ← ih (fun c hc => hl c (List.mem_cons_of_mem _ hc))]
          rw [encode1 _ (by have := hl c (List.mem_cons_self _ _); unfold upperASCII; split_ifs <;> omega)]
          rfl
      exact this s ha
  · refine ⟨(runes s).map (unicodeToUpper tbl), ?_, ?_⟩
    · intro u hu
      obtain ⟨r, hr, rfl⟩ := List.mem_map.1 hu
      rcases runesFrom_ok s 0 r hr with ⟨h1, h2⟩ | ⟨h1, h2⟩
      · have : unicodeToUpper tbl r = upperASCII r := by
          unfold unicodeToUpper; rw [if_pos (by omega)]
        rw [this]
        exact asc r h1 (hs r h2)
      · have e : unicodeToUpper tbl r = tbl r := by
          unfold unicodeToUpper; rw [if_neg (by omega)]
        obtain ⟨t1, t2, t3⟩ := ht r h1 h2
        rw [e]
        unfold Settled
        refine ⟨t1, ?_, ?_, ?_, ?_⟩
        · intro h; have := t2 (by omega); omega
        · intro h; have := t2 (by omega); omega
        · intro h; have := t2 (by omega); omega
        · unfold unicodeToUpper
          by_cases hl : tbl r ≤ 127
          · rw [if_pos hl]
            have := t2 (by omega)
            unfold upperASCII
            rw [if_neg (by omega)]
          · rw [if_neg hl]
            exact t3 (by omega)
    · unfold ToUpper
      rw [if_neg (fun hall => ha (fun c hc => of_decide_eq_true (List.all_eq_true.1 hall c hc)))]
      unfold Map
      rw [List.flatMap_map]

/-- A run of encoded settled runes is left alone by `stripInput`. -/
theorem stripInput_settled (tbl : Nat → Nat) (us : List Nat) (h : ∀ u ∈ us, Settled tbl u) :
    stripInput tbl (us.flatMap EncodeRune) = us.flatMap EncodeRune := by
  have hb : ∀ b ∈ us.flatMap EncodeRune, (b ≠ 10 ∧ b ≠ 13) ∧ ¬ (97 ≤ b ∧ b ≤ 122) := by
    intro b hb
    obtain ⟨u, hu, hbu⟩ := List.mem_flatMap.1 hb
    obtain ⟨-, q1, q2, q3, -⟩ := h u hu
    by_cases hl : u ≤ 127
    · rw [encode1 u hl, List.mem_singleton] at hbu
      subst hbu
      exact ⟨⟨q1, q2⟩, q3⟩
    · have := encode_bytes u (by omega) b hbu
      omega
  rw [stripInput_eq, dropCRLF_self _ (fun b hb' => (hb b hb').1)]
  by_cases ha : ∀ c ∈ us.flatMap EncodeRune, c < 128
  · rw [ToUpper_ascii tbl _ ha]
    refine (List.map_congr_left (fun b hb' => ?_)).trans (List.map_id _)
    unfold upperASCII
    rw [if_neg (hb b hb').2]
    rfl
  · unfold ToUpper
    rw [if_neg (fun hall => ha (fun c hc => of_decide_eq_true (List.all_eq_true.1 hall c hc)))]
    unfold Map
    rw [runes_flatMap_encode, List.flatMap_map]
    apply List.flatMap_congr
    intro u hu
    obtain ⟨q0, -, -, -, q4⟩ := h u hu
    unfold san
    rw [if_pos q0, q4]

theorem caseTable_sample : CaseTable sampleTable := by
  intro r h1 h2
  unfold ValidRune at *
  unfold sampleTable
  refine ⟨?_, ?_, ?_⟩
  · split_ifs <;> omega
  · split_ifs <;> omega
  · intro h
    split_ifs at h ⊢ <;> omega

/-- C7: `stripInput` is idempotent, for every string of bytes and every case
table with the properties `CaseTable` of the Unicode upper-case mapping. -/
theorem C7_stripInput_idempotent (tbl : Nat → Nat) (ht : CaseTable tbl) (x : GoString) :
    stripInput tbl (stripInput tbl x) = stripInput tbl x := by
  have hc : ∀ b ∈ dropCRLF x, b ≠ 10 ∧ b ≠ 13 := by
    intro b hb
    unfold dropCRLF at hb
    have := (List.mem_filter.1 hb).2
    simp at this
    exact ⟨this.2, this.1⟩
  obtain ⟨us, h1, h2⟩ := ToUpper_settled tbl ht (dropCRLF x) hc
  rw [stripInput_eq tbl x, h2]
  exact stripInput_settled tbl us h1

theorem C7_stripInput_idempotent_witness :
    CaseTable sampleTable
    ∧ stripInput sampleTable (stripInput sampleTable (lit "Joshua\r\n é\r"))
        = stripInput sampleTable (lit "Joshua\r\n é\r")
    ∧ stripInput sampleTable (lit "Joshua\r\n é\r") = lit "JOSHUA É" :=
  ⟨caseTable_sample, C7_stripInput_idempotent sampleTable caseTable_sample (lit "Joshua\r\n é\r"),
    by decide⟩


/-- C9: `UpdateState` on a registered network connection `a` sets the screen
of `a`, keeps its `Authenticated` flag, and leaves the entry of every other
connection, in particular of a registered `b`, and the set of registered
connections unchanged. -/
theorem C9_update_isolated (w : World) (a b : Conn) (s : Screen) (sa sb : ClientState)
    (hab : a ≠ b) (ha : w.tcpClients a = some sa) (hb : w.tcpClients b = some sb) :
    (UpdateState (.NetworkMessenger a) s w).tcpClients a
        = some { Authenticated := sa.Authenticated, Screen := s }
    ∧ (UpdateState (.NetworkMessenger a) s w).tcpClients b = some sb
    ∧ (∀ k, k ≠ a → (UpdateState (.NetworkMessenger a) s w).tcpClients k = w.tcpClients k)
    ∧ (∀ k, ((UpdateState (.NetworkMessenger a) s w).tcpClients k).isSome
        = (w.tcpClients k).isSome) := by
  refine ⟨?_, ?_, ?_, ?_⟩
  · simp [UpdateState, mapSet, mapGet, ha]
  · simp [UpdateState, mapSet, hb, Ne.symm hab]
  · intro k hk
    simp [UpdateState, mapSet, hk]
  · intro k
    by_cases hk : k = a
    · subst hk
      simp [UpdateState, mapSet, ha]
    · simp [UpdateState, mapSet, hk]

theorem C9_update_isolated_witness :
    (UpdateState (.NetworkMessenger 1) GREETING (register 2 (register 1 World.initial))).tcpClients 1
        = some { Authenticated := false, Screen := GREETING }
    ∧ (UpdateState (.NetworkMessenger 1) GREETING (register 2 (register 1 World.initial))).tcpClients 2
        = some ⟨false, LOGON⟩
    ∧ (∀ k, k ≠ 1 →
        (UpdateState (.NetworkMessenger 1) GREETING (register 2 (register 1 World.initial))).tcpClients k
          = (register 2 (register 1 World.initial)).tcpClients k)
    ∧ (∀ k,
        ((UpdateState (.NetworkMessenger 1) GREETING
            (register 2 (register 1 World.initial))).tcpClients k).isSome
          = ((register 2 (register 1 World.initial)).tcpClients k).isSome) :=
  C9_update_isolated (register 2 (register 1 World.initial)) 1 2 GREETING ⟨false, LOGON⟩
    ⟨false, LOGON⟩ (by decide) (by decide) (by decide)

/-! ### The registry after a reject -/

/-- After a reject the connection has been closed and has an entry again. -/
theorem reject_leaves_entry (tbl : Nat → Nat) (c : Conn) (I : GoString) (w : World)
    (h : stripInput tbl I ∉ logonTokens) :
    (handleInput tbl (.NetworkMessenger c) LOGON I w).tcpClients c = some ⟨false, LOGON⟩
    ∧ closes (handleInput tbl (.NetworkMessenger c) LOGON I w).trace = closes w.trace + 1 := by
  rw [logon_reject tbl c I w h]
  constructor
  · rw [(notRecognized_net idle c _).2.2]
    simp [mapSet]
  · rw [(notRecognized_net idle c _).2.1]
    simp

theorem Disconnect_releases (c : Conn) (w : World) :
    (Disconnect (.NetworkMessenger c) w).tcpClients c = none := by
  simp [Disconnect, mapDelete, Send_eq, World.emit]

/-- C10, at a failing input: `Disconnect` alone releases the entry, but once
the reject of the input "X" has been handled the connection 0, which has been
closed, has an entry in `tcpClients` again (written by the `logon` call that
ends `notRecognized`). -/
theorem C10_entry_after_reject :
    (Disconnect (.NetworkMessenger 0) (register 0 World.initial)).tcpClients 0 = none
    ∧ (handleInput id (.NetworkMessenger 0) LOGON (lit "X\r\n") (register 0 World.initial)).tcpClients 0
        = some ⟨false, LOGON⟩
    ∧ closes (handleInput id (.NetworkMessenger 0) LOGON (lit "X\r\n") (register 0 World.initial)).trace
        = closes (register 0 World.initial).trace + 1 :=
  ⟨Disconnect_releases 0 _,
    reject_leaves_entry id 0 (lit "X\r\n") (register 0 World.initial) (by decide)⟩

/-! ### Lookups, the read loop, the terminal width, typing, and the console at STRIKE_2 -/

/-- C11, as amended: a lookup for a connection without an entry is not an error.
Reading its state gives the default (not authenticated, LOGON) and recording a
screen creates the entry, without any effect that would signal a failure; the
other entries stay as they are. -/
theorem C11_missing_entry_default (w : World) (c : Conn) (s : Screen)
    (h : w.tcpClients c = none) :
    mapGet w.tcpClients c = ⟨false, LOGON⟩
    ∧ (UpdateState (.NetworkMessenger c) s w).tcpClients c = some ⟨false, s⟩
    ∧ (UpdateState (.NetworkMessenger c) s w).trace = w.trace
    ∧ (∀ k, k ≠ c → (UpdateState (.NetworkMessenger c) s w).tcpClients k = w.tcpClients k) := by
  refine ⟨?_, ?_, rfl, ?_⟩
  · simp [mapGet, h, ClientState.zero]
  · simp [UpdateState, mapSet, mapGet, h, ClientState.zero]
  · intro k hk
    simp [UpdateState, mapSet, hk]

theorem C11_missing_entry_default_witness :
    mapGet World.initial.tcpClients 5 = ⟨false, LOGON⟩
    ∧ (UpdateState (.NetworkMessenger 5) GREETING World.initial).tcpClients 5
        = some ⟨false, GREETING⟩
    ∧ (UpdateState (.NetworkMessenger 5) GREETING World.initial).trace = World.initial.trace
    ∧ (∀ k, k ≠ 5 → (UpdateState (.NetworkMessenger 5) GREETING World.initial).tcpClients k
        = World.initial.tcpClients k) :=
  C11_missing_entry_default World.initial 5 GREETING rfl

/-- An unregistered connection: the lookup yields the default state and
`UpdateState` creates an entry. -/
theorem C11_counterexample :
    World.initial.tcpClients 5 = none
    ∧ mapGet World.initial.tcpClients 5 = ClientState.zero
    ∧ ((UpdateState (.NetworkMessenger 5) GREETING World.initial).tcpClients 5).isSome = true := by
  decide

/-- C13: a non-empty chunk read without error whose first byte is 255 is
dropped by the loop of `connectClient`: the world, with the registry and all
that was sent, is as before.  Any other non-empty chunk read without error is
passed to `handleInput` with the screen recorded for the connection. -/
theorem C13_telnet_chunks (tbl : Nat → Nat) (c : Conn) (r : ReadResult) (rest : List ReadResult)
    (w : World) (hne : r.bytes ≠ []) (herr : r.err = false) :
    (r.bytes.head? = some 255 →
      readStep tbl c r w = some w
      ∧ connectClientLoop tbl c (r :: rest) w = connectClientLoop tbl c rest w)
    ∧ (r.bytes.head? ≠ some 255 →
      readStep tbl c r w
        = some (handleInput tbl (.NetworkMessenger c) (mapGet w.tcpClients c).Screen r.bytes w)
      ∧ connectClientLoop tbl c (r :: rest) w
        = connectClientLoop tbl c rest
            (handleInput tbl (.NetworkMessenger c) (mapGet w.tcpClients c).Screen r.bytes w)) := by
  obtain ⟨bytes, err⟩ := r
  simp only at hne herr
  subst herr
  cases bytes with
  | nil => exact absurd rfl hne
  | cons b bs =>
    constructor
    · intro h
      simp only [List.head?_cons, Option.some.injEq] at h
      subst h
      have e : readStep tbl c ⟨255 :: bs, false⟩ w = some w := by
        simp [readStep]
      exact ⟨e, by simp only [connectClientLoop, e]⟩
    · intro h
      have hb : b ≠ 255 := fun e => h (by rw [e]; rfl)
      have e : readStep tbl c ⟨b :: bs, false⟩ w
          = some (handleInput tbl (.NetworkMessenger c) (mapGet w.tcpClients c).Screen (b :: bs) w) := by
        simp [readStep, hb]
      exact ⟨e, by simp only [connectClientLoop, e]⟩

theorem getTerminalWidth_eq (w : World) : getTerminalWidth w = w.termWidth := by
  unfold getTerminalWidth
  simp

/-- C18, at a failing input: when `term.GetSize` fails and reports width 0,
`getTerminalWidth` returns 0 and not 80; when it succeeds with 132 columns the
result is 132. -/
theorem C18_width_on_error :
    getTerminalWidth { World.initial with termWidth := 0, termErr := true } = 0
    ∧ getTerminalWidth { World.initial with termWidth := 0, termErr := true } ≠ 80
    ∧ getTerminalWidth { World.initial with termWidth := 132, termErr := false } = 132 := by
  simp [getTerminalWidth_eq]

theorem animate_written (c : Conn) (msg : GoString) (w : World) :
    written c (animateMessage (.NetworkMessenger c) msg w).trace
      = written c w.trace ++ msg.flatMap fmtC := by
  rw [animateMessage_eq]
  simp

/-- For a message of ASCII bytes the bytes written are the message. -/
theorem animate_ascii (c : Conn) (msg : GoString) (w : World) (h : ∀ b ∈ msg, b < 128) :
    written c (animateMessage (.NetworkMessenger c) msg w).trace = written c w.trace ++ msg := by
  rw [animate_written]
  congr 1
  induction msg with
  | nil => rfl
  | cons b bs ih =>
    rw [List.flatMap_cons, ih (fun x hx => h x (List.mem_cons_of_mem _ hx))]
    have hb := h b (List.mem_cons_self _ _)
    unfold fmtC
    rw [encode1 b (by omega)]
    rfl

theorem art_facts : lit "Ż" <:+: artText ∧ artText.flatMap fmtC ≠ artText := by
  constructor
  · decide!
  · decide!

/-- C14, at a failing input: the bytes C5 BB of the letter in the map of the
United States are written as C3 85 C2 BB, and what `animateMessage` writes for
the rows of the two maps is not the text of the rows. -/
theorem C14_art_not_reproduced :
    lit "Ż" = [0xC5, 0xBB]
    ∧ written 0 (animateMessage (.NetworkMessenger 0) (lit "Ż") World.initial).trace
        = [0xC3, 0x85, 0xC2, 0xBB]
    ∧ lit "Ż" <:+: artText
    ∧ written 0 (animateMessage (.NetworkMessenger 0) artText World.initial).trace ≠ artText := by
  refine ⟨by decide, by decide, art_facts.1, ?_⟩
  rw [animate_written]
  exact art_facts.2

/-- What the console does with an input at LOGON, by token. -/
theorem handleInput_LOGON_console (tbl : Nat → Nat) (I : GoString) (w : World) :
    handleInput tbl .ConsoleMessenger LOGON I w
      = if stripInput tbl I = lit "JOSHUA" then greeting (handleInput tbl) .ConsoleMessenger w
        else if stripInput tbl I = lit "HELP" ∨ stripInput tbl I = lit "HELP LOGON" then
          help (handleInput tbl) .ConsoleMessenger w
        else if stripInput tbl I = lit "HELP GAMES" then
          helpGames (handleInput tbl) .ConsoleMessenger w
        else notRecognized (handleInput tbl) .ConsoleMessenger w := by
  rw [handleInput_unfold]
  rfl

/-- C20: on the console the line `c` read by `strikeCommandDos` is handled by
`handleInput` at LOGON, after one newline and without the LOGON prompt: JOSHUA
goes on with `greeting`, HELP GAMES with `helpGames`, and a token outside the
four LOGON tokens prints the reject message and goes on with `logon`. -/
theorem C20_strike2_line_is_logon_token (tbl : Nat → Nat) (w : World) (c : GoString)
    (ls : List GoString) (hs : w.stdin = c :: ls) :
    strikeCommandDos (handleInput tbl) .ConsoleMessenger w
        = handleInput tbl .ConsoleMessenger LOGON c
            { bumpLine .ConsoleMessenger [] w with stdin := ls }
    ∧ printed (bumpLine .ConsoleMessenger [] w).trace = printed w.trace ++ lit "\n"
    ∧ (stripInput tbl c = lit "JOSHUA" →
        strikeCommandDos (handleInput tbl) .ConsoleMessenger w
          = greeting (handleInput tbl) .ConsoleMessenger
              { bumpLine .ConsoleMessenger [] w with stdin := ls })
    ∧ (stripInput tbl c = lit "HELP GAMES" →
        strikeCommandDos (handleInput tbl) .ConsoleMessenger w
          = helpGames (handleInput tbl) .ConsoleMessenger
              { bumpLine .ConsoleMessenger [] w with stdin := ls })
    ∧ (stripInput tbl c ∉ logonTokens →
        ∃ v : World,
          strikeCommandDos (handleInput tbl) .ConsoleMessenger w
            = logon (handleInput tbl) .ConsoleMessenger v
          ∧ printed v.trace = printed w.trace ++ lit "\n"
            ++ lit "\nIDENTIFICATION NOT RECOGNIZED BY SYSTEM\n--CONNECTION TERMINATED--\n") := by
  obtain ⟨n1, n2, n3, n4, n5⟩ := tokens_ne
  have e : strikeCommandDos (handleInput tbl) .ConsoleMessenger w
      = handleInput tbl .ConsoleMessenger LOGON c
          { bumpLine .ConsoleMessenger [] w with stdin := ls } := by
    rw [strikeCommandDos_eq]
    exact scanThen_console_cons (handleInput tbl) LOGON id _ c ls (by simpa using hs)
  have p : printed (bumpLine .ConsoleMessenger [] w).trace = printed w.trace ++ lit "\n" := by
    rw [bumpLine_eq]
    simp
  refine ⟨e, p, fun h => ?_, fun h => ?_, fun h => ?_⟩
  · rw [e, handleInput_LOGON_console, if_pos h]
  · rw [e, handleInput_LOGON_console, if_neg (by rw [h]; exact n3),
      if_neg (by rw [h]; simp [n4, n5]), if_pos h]
  · simp only [logonTokens, List.mem_cons, List.mem_singleton, not_or, List.mem_nil_iff,
      or_false, not_false_eq_true, and_true] at h
    refine ⟨Disconnect .ConsoleMessenger (bumpLine .ConsoleMessenger []
      (animateMessage .ConsoleMessenger (lit "--CONNECTION TERMINATED--")
      (animateMessage .ConsoleMessenger (lit "IDENTIFICATION NOT RECOGNIZED BY SYSTEM\n")
      (bumpLine .ConsoleMessenger []
        { bumpLine .ConsoleMessenger [] w with stdin := ls })))), ?_, ?_⟩
    · rw [e, handleInput_LOGON_console, if_neg h.1, if_neg (by simp [h.2.1, h.2.2.1]),
        if_neg h.2.2.2]
      exact notRecognized_eq _ _ _
    · simp only [animateMessage_eq, bumpLine_eq, Disconnect]
      simp
      decide


theorem C13_telnet_chunks_witness :
    (readStep id 4 ⟨[255, 253, 3], false⟩ (register 4 World.initial) = some (register 4 World.initial)
      ∧ connectClientLoop id 4 [⟨[255, 253, 3], false⟩] (register 4 World.initial)
        = connectClientLoop id 4 [] (register 4 World.initial))
    ∧ (readStep id 4 ⟨lit "joshua\r\n", false⟩ (register 4 World.initial)
        = some (handleInput id (.NetworkMessenger 4)
            (mapGet (register 4 World.initial).tcpClients 4).Screen (lit "joshua\r\n")
            (register 4 World.initial))
      ∧ connectClientLoop id 4 [⟨lit "joshua\r\n", false⟩] (register 4 World.initial)
        = connectClientLoop id 4 []
            (handleInput id (.NetworkMessenger 4)
              (mapGet (register 4 World.initial).tcpClients 4).Screen (lit "joshua\r\n")
              (register 4 World.initial))) :=
  ⟨(C13_telnet_chunks id 4 ⟨[255, 253, 3], false⟩ [] (register 4 World.initial) (by decide) rfl).1
      (by decide),
   (C13_telnet_chunks id 4 ⟨lit "joshua\r\n", false⟩ [] (register 4 World.initial) (by decide)
      rfl).2 (by decide)⟩

theorem C20_strike2_line_is_logon_token_witness :
    strikeCommandDos (handleInput id) .ConsoleMessenger { World.initial with stdin := [lit "joshua"] }
        = greeting (handleInput id) .ConsoleMessenger
            { bumpLine .ConsoleMessenger [] { World.initial with stdin := [lit "joshua"] } with
              stdin := [] }
    ∧ strikeCommandDos (handleInput id) .ConsoleMessenger
          { World.initial with stdin := [lit "help games"] }
        = helpGames (handleInput id) .ConsoleMessenger
            { bumpLine .ConsoleMessenger [] { World.initial with stdin := [lit "help games"] } with
              stdin := [] }
    ∧ ∃ v : World,
        strikeCommandDos (handleInput id) .ConsoleMessenger
            { World.initial with stdin := [lit "moscow"] }
          = logon (handleInput id) .ConsoleMessenger v
        ∧ printed v.trace
          = printed ({ World.initial with stdin := [lit "moscow"] } : World).trace ++ lit "\n"
            ++ lit "\nIDENTIFICATION NOT RECOGNIZED BY SYSTEM\n--CONNECTION TERMINATED--\n" :=
  ⟨(C20_strike2_line_is_logon_token id { World.initial with stdin := [lit "joshua"] }
      (lit "joshua") [] rfl).2.2.1 (by decide),
   (C20_strike2_line_is_logon_token id { World.initial with stdin := [lit "help games"] }
      (lit "help games") [] rfl).2.2.2.1 (by decide),
   (C20_strike2_line_is_logon_token id { World.initial with stdin := [lit "moscow"] }
      (lit "moscow") [] rfl).2.2.2.2 (by decide)⟩

/-! ### Frame: what a session does not touch -/

theorem written_write_other (k c : Conn) (h : c ≠ k) (s : GoString) (t : List Event) :
    written k (Event.write c s :: t) = written k t := by
  simp [written, h]

theorem written_animate_other (k c : Conn) (h : c ≠ k) (msg : GoString) :
    written k (msg.map (fun b => Event.write c (fmtC b))) = [] := by
  induction msg with
  | nil => rfl
  | cons b bs ih => rw [List.map_cons, written_write_other k c h, ih]

theorem written_replicate_other (k c : Conn) (h : c ≠ k) (n : Nat) (s : GoString) :
    written k (List.replicate n (Event.write c s)) = [] := by
  induction n with
  | zero => rfl
  | succ n ih => rw [List.replicate_succ, written_write_other k c h, ih]

theorem foldl_send {α : Type} (m : Messenger) (f : α → GoString) (l : List α) (w : World) :
    l.foldl (fun w i => Send m (f i) w) w
      = { w with trace := w.trace ++ l.map (fun i => sendEvent m (f i)) } := by
  induction l generalizing w with
  | nil => simp
  | cons i l ih =>
    rw [List.foldl_cons, ih, Send_eq]
    simp

theorem written_map_write_other {α : Type} (k c : Conn) (h : c ≠ k) (f : α → GoString)
    (l : List α) : written k (l.map (fun i => Event.write c (f i))) = [] := by
  induction l with
  | nil => rfl
  | cons b bs ih => rw [List.map_cons, written_write_other k c h, ih]

theorem closes_map_write {α : Type} (c : Conn) (f : α → GoString) (l : List α) :
    closes (l.map (fun i => Event.write c (f i))) = 0 := by
  induction l with
  | nil => rfl
  | cons b bs ih => rw [List.map_cons, closes_cons_write, ih]

/-- What `identifyServer` leaves as it is, on a network messenger. -/
theorem identifyServer_frame (c : Conn) (w : World) :
    (identifyServer (.NetworkMessenger c) w).tcpClients = w.tcpClients
    ∧ (identifyServer (.NetworkMessenger c) w).stdin = w.stdin
    ∧ closes (identifyServer (.NetworkMessenger c) w).trace = closes w.trace
    ∧ ∀ k, c ≠ k → written k (identifyServer (.NetworkMessenger c) w).trace = written k w.trace := by
  unfold identifyServer
  simp only [foldl_send]
  simp only [Send_eq, setCursorPosition_eq, bumpLine_eq, sendEvent_network]
  refine ⟨trivial, trivial, ?_, fun k hk => ?_⟩
  · simp [closes_map_write]
  · simp [written_map_write_other k c hk, written_write_other k c hk]


set_option maxRecDepth 100000 in
/-- The loop of `listGames` on a network messenger: the registry and the count
of `Close` calls stay, and nothing is written to another connection. -/
theorem listGamesLoop_frame (c : Conn) (w : World) :
    (listGamesLoop (.NetworkMessenger c) w).tcpClients = w.tcpClients
    ∧ closes (listGamesLoop (.NetworkMessenger c) w).trace = closes w.trace
    ∧ ∀ k, c ≠ k → written k (listGamesLoop (.NetworkMessenger c) w).trace = written k w.trace := by
  simp only [listGamesLoop, games, List.enum, List.enumFrom, List.foldl_cons, List.foldl_nil,
    animateMessage_eq, bumpLine_eq]
  refine ⟨?_, ?_, fun k hk => ?_⟩
  · simp
  · simp
  · simp [written_animate_other k c hk, written_write_other k c hk]

/-- The registry after `help`, `listGames` and `notRecognized` on a network messenger. -/
theorem recorded_after_logon (hi : Handler) (c : Conn) (w : World) :
    (help hi (.NetworkMessenger c) w).tcpClients
        = mapSet w.tcpClients c { mapGet w.tcpClients c with Screen := LOGON }
    ∧ (listGames hi (.NetworkMessenger c) w).tcpClients
        = mapSet w.tcpClients c { mapGet w.tcpClients c with Screen := LOGON }
    ∧ closes (listGames hi (.NetworkMessenger c) w).trace = closes w.trace := by
  refine ⟨?_, ?_, ?_⟩
  · rw [help_eq, (recorded_after hi c _).2.2.2.2.2.2.2.2.2]
    simp only [animateMessage_eq, bumpLine_eq]
  · rw [listGames_eq, (recorded_after hi c _).2.2.2.2.2.2.2.2.2, (listGamesLoop_frame c _).1]
    simp only [bumpLine_eq]
  · rw [listGames_eq, (closes_after hi c _).2.2.2.2.2.2.2.2.2.1, (listGamesLoop_frame c _).2.1]
    simp only [bumpLine_eq]
    simp

/-- The bytes `help`, `helpGames`, `strikeCommands` and `strikeCommandDos` send
to their connection. -/
theorem written_after_more (hi : Handler) (c : Conn) (w : World) :
    written c (help hi (.NetworkMessenger c) w).trace
        = written c w.trace ++ lit "\nHELP NOT AVAILABLE\n\nLOGON: "
    ∧ written c (helpGames hi (.NetworkMessenger c) w).trace
        = written c w.trace ++ lit ("\n'GAMES' REFERS TO MODELS, SIMULATIONS AND GAMES\n"
            ++ "WHICH HAVE TACTICAL AND STRATEGIC APPLICATIONS.\n\n")
    ∧ written c (strikeCommands hi (.NetworkMessenger c) w).trace
        = written c w.trace ++ lit ("\x1b[2J\x1b[1;1fAWAITING FIRST STRIKE COMMAND\n"
            ++ "-----------------------------\n\n"
            ++ "PLEASE LIST PRIMARY TARGETS BY\nCITY AND/OR COUNTY NAME:\n\n")
    ∧ written c (strikeCommandDos hi (.NetworkMessenger c) w).trace
        = written c w.trace ++ lit "\n" := by
  simp only [help_eq, helpGames_eq, strikeCommands_eq, strikeCommandDos_eq, logon_eq,
    scanThen_network, animateMessage_eq, bumpLine_eq, setCursorPosition_home, Send_eq, UpdateState]
  simp
  refine ⟨?_, ?_, ?_⟩ <;> decide

set_option maxRecDepth 100000 in
/-- A screen function of one connection writes nothing to another connection. -/
theorem written_other_after (hi : Handler) (c k : Conn) (hk : c ≠ k) (w : World) :
    written k (greeting hi (.NetworkMessenger c) w).trace = written k w.trace
    ∧ written k (wellbeing hi (.NetworkMessenger c) w).trace = written k w.trace
    ∧ written k (explanation hi (.NetworkMessenger c) w).trace = written k w.trace
    ∧ written k (playGame hi (.NetworkMessenger c) w).trace = written k w.trace
    ∧ written k (playGameVerify hi (.NetworkMessenger c) w).trace = written k w.trace
    ∧ written k (globalThermoNuclearWar hi (.NetworkMessenger c) w).trace = written k w.trace
    ∧ written k (strikeCommands hi (.NetworkMessenger c) w).trace = written k w.trace
    ∧ written k (strikeCommandDos hi (.NetworkMessenger c) w).trace = written k w.trace
    ∧ written k (helpGames hi (.NetworkMessenger c) w).trace = written k w.trace
    ∧ written k (logon hi (.NetworkMessenger c) w).trace = written k w.trace
    ∧ written k (help hi (.NetworkMessenger c) w).trace = written k w.trace
    ∧ written k (notRecognized hi (.NetworkMessenger c) w).trace = written k w.trace := by
  simp only [greeting_eq, wellbeing_eq, explanation_eq, playGame_eq, playGameVerify_eq,
    globalThermoNuclearWar_eq, strikeCommands_eq, strikeCommandDos_eq, helpGames_eq, help_eq,
    notRecognized_eq, logon_eq, scanThen_network, animateMessage_eq, bumpLine_eq,
    setCursorPosition_eq, Send_eq, UpdateState, Disconnect, World.emit]
  simp [written_animate_other k c hk, written_write_other k c hk]

theorem listGames_written_other (hi : Handler) (c k : Conn) (hk : c ≠ k) (w : World) :
    written k (listGames hi (.NetworkMessenger c) w).trace = written k w.trace := by
  rw [listGames_eq, (written_other_after hi c k hk _).2.2.2.2.2.2.2.2.2.1,
    (listGamesLoop_frame c _).2.2 k hk]
  simp only [bumpLine_eq]
  simp [written_write_other k c hk]


/-! ### `handleInput` on a network messenger follows the transition table -/

theorem handleInput_written (tbl : Nat → Nat) (c : Conn) (S : Screen) (I : GoString) (w : World) :
    written c (handleInput tbl (.NetworkMessenger c) S I w).trace
      = written c w.trace ++ reply S (stripInput tbl I) := by
  obtain ⟨d1, d2, d3, d4, d5, d6, d7, d8⟩ := handleInput_conversation tbl c I w
  obtain ⟨a1, a2, a3, a4, a5, a6⟩ :=
    written_after idle c (w.emit (Event.stdout (stripInput tbl I ++ lit "\n")))
  obtain ⟨b1, b2, b3, b4⟩ :=
    written_after_more idle c (w.emit (Event.stdout (stripInput tbl I ++ lit "\n")))
  cases S
  · rw [handleInput_LOGON]
    simp only [reply]
    split_ifs
    · rw [a1]; simp
    · rw [b1]; simp
    · rw [b2]; simp
    · rw [(notRecognized_net idle c _).1]; simp
  · rw [handleInput_GAMES]
    simp only [reply]
    split_ifs
    · rw [listGames_written]; simp
    · rw [a6]; simp
  · rw [d1, a2]; simp [reply]
  · rw [d2, a3]; simp [reply]
  · rw [d3, a4]; simp [reply]
  · rw [d4, a5]; simp [reply]
  · rw [d5, globalThermoNuclearWar_written]; simp [reply]
  · rw [d6, b3]; simp [reply]
  · rw [d7, b4]; simp [reply]
  · rw [d8]; simp [reply]

theorem handleInput_closes (tbl : Nat → Nat) (c : Conn) (S : Screen) (I : GoString) (w : World) :
    closes (handleInput tbl (.NetworkMessenger c) S I w).trace
      = closes w.trace + (if isReject S (stripInput tbl I) then 1 else 0) := by
  obtain ⟨d1, d2, d3, d4, d5, d6, d7, d8⟩ := handleInput_conversation tbl c I w
  obtain ⟨-, k1, k2, k3, k4, k5, k6, k7, -, k9, -⟩ :=
    closes_after idle c (w.emit (Event.stdout (stripInput tbl I ++ lit "\n")))
  cases S
  · by_cases h : stripInput tbl I ∈ logonTokens
    · rw [logon_accept tbl c I w h]
      simp [isReject, h]
    · rw [logon_reject tbl c I w h, (notRecognized_net idle c _).2.1]
      simp [isReject, h]
  · rw [handleInput_GAMES]
    simp only [isReject, Bool.false_eq_true, if_false, Nat.add_zero]
    split_ifs
    · rw [(recorded_after_logon idle c _).2.2]; simp
    · rw [k9]; simp
  · rw [d1, k1]; simp [isReject]
  · rw [d2, k2]; simp [isReject]
  · rw [d3, k3]; simp [isReject]
  · rw [d4, k4]; simp [isReject]
  · rw [d5, k5]; simp [isReject]
  · rw [d6, k6]; simp [isReject]
  · rw [d7, k7]; simp [isReject]
  · rw [d8]; simp [isReject]

theorem handleInput_registry (tbl : Nat → Nat) (c : Conn) (S : Screen) (I : GoString)
    (w : World) :
    (handleInput tbl (.NetworkMessenger c) S I w).tcpClients
      = fun k => if k = c then nextEntry S (stripInput tbl I) (w.tcpClients c) else w.tcpClients k := by
  obtain ⟨d1, d2, d3, d4, d5, d6, d7, d8⟩ := handleInput_conversation tbl c I w
  obtain ⟨r0, r1, r2, r3, r4, r5, r6, r7, r8, r9⟩ :=
    recorded_after idle c (w.emit (Event.stdout (stripInput tbl I ++ lit "\n")))
  obtain ⟨q1, q2, -⟩ :=
    recorded_after_logon idle c (w.emit (Event.stdout (stripInput tbl I ++ lit "\n")))
  have upd : ∀ s : Screen, mapSet w.tcpClients c { mapGet w.tcpClients c with Screen := s }
      = fun k => if k = c then
          some { Authenticated := ((w.tcpClients c).getD ClientState.zero).Authenticated,
                 Screen := s }
        else w.tcpClients k := fun s => rfl
  obtain ⟨n1, n2, n3, n4, n5⟩ := tokens_ne
  cases S
  · rw [handleInput_LOGON]
    by_cases h1 : stripInput tbl I = lit "JOSHUA"
    · rw [if_pos h1, r0, emit_tcpClients, upd]
      simp [nextEntry, nextScreen, isReject, logonTokens, h1]
    · by_cases h2 : stripInput tbl I = lit "HELP" ∨ stripInput tbl I = lit "HELP LOGON"
      · rw [if_neg h1, if_pos h2, q1, emit_tcpClients, upd]
        rcases h2 with h2 | h2 <;> simp [nextEntry, nextScreen, isReject, logonTokens, h2, n1, n2]
      · by_cases h3 : stripInput tbl I = lit "HELP GAMES"
        · rw [if_neg h1, if_neg h2, if_pos h3, r8, emit_tcpClients, upd]
          simp [nextEntry, nextScreen, isReject, logonTokens, h3, n3, n4, n5]
        · rw [if_neg h1, if_neg h2, if_neg h3, (notRecognized_net idle c _).2.2]
          simp only [not_or] at h2
          funext k
          simp [nextEntry, nextScreen, isReject, logonTokens, h1, h2.1, h2.2, h3, mapSet,
            mapDelete]
          split_ifs <;> rfl
  · rw [handleInput_GAMES]
    have e : nextEntry GAMES (stripInput tbl I) (w.tcpClients c)
        = some { Authenticated := ((w.tcpClients c).getD ClientState.zero).Authenticated,
                 Screen := LOGON } := rfl
    rw [e]
    split_ifs
    · rw [q2, emit_tcpClients, upd]
    · rw [r9, emit_tcpClients, upd]
  · rw [d1, r1]; simp [upd, nextEntry, nextScreen, isReject]
  · rw [d2, r2]; simp [upd, nextEntry, nextScreen, isReject]
  · rw [d3, r3]; simp [upd, nextEntry, nextScreen, isReject]
  · rw [d4, r4]; simp [upd, nextEntry, nextScreen, isReject]
  · rw [d5, r5]; simp [upd, nextEntry, nextScreen, isReject]
  · rw [d6, r6]; simp [upd, nextEntry, nextScreen, isReject]
  · rw [d7, r7]; simp [upd, nextEntry, nextScreen, isReject]
  · rw [d8]
    funext k
    simp only [emit_tcpClients, nextEntry, nextScreen]
    split_ifs with hk
    · rw [hk]
    · rfl

theorem handleInput_written_other (tbl : Nat → Nat) (c k : Conn) (hk : c ≠ k) (S : Screen)
    (I : GoString) (w : World) :
    written k (handleInput tbl (.NetworkMessenger c) S I w).trace = written k w.trace := by
  obtain ⟨d1, d2, d3, d4, d5, d6, d7, d8⟩ := handleInput_conversation tbl c I w
  obtain ⟨o0, o1, o2, o3, o4, o5, o6, o7, o8, o9, o10, o11⟩ :=
    written_other_after idle c k hk (w.emit (Event.stdout (stripInput tbl I ++ lit "\n")))
  cases S
  · rw [handleInput_LOGON]
    split_ifs
    · rw [o0]; simp
    · rw [o10]; simp
    · rw [o8]; simp
    · rw [o11]; simp
  · rw [handleInput_GAMES]
    split_ifs
    · rw [listGames_written_other idle c k hk]; simp
    · rw [o9]; simp
  · rw [d1, o1]; simp
  · rw [d2, o2]; simp
  · rw [d3, o3]; simp
  · rw [d4, o4]; simp
  · rw [d5, o5]; simp
  · rw [d6, o6]; simp
  · rw [d7, o7]; simp
  · rw [d8]; simp

/-! ### The transition is a function of the screen and the normalised input -/

theorem writtenSince_eq (c : Conn) (w w' : World) (T : GoString)
    (h : written c w'.trace = written c w.trace ++ T) : writtenSince c w w' = T := by
  unfold writtenSince
  rw [h]
  simp

/-- C16: the reply written to the client, the registry entry of the client and the number of
connections closed by one call of `handleInput` on a network messenger are functions of the
screen argument and of `stripInput` of the text (and of the entry of the client before the
call): two calls with the same screen, inputs of equal normal form and the same entry of
the client agree on all three, whatever the other entries of the registry, the row counter
and the earlier trace are; they are given by `reply`, `nextEntry` and `isReject`. -/
theorem C16_transition_pure (tbl : Nat → Nat) (c : Conn) (S : Screen) (I1 I2 : GoString)
    (w1 w2 : World) (h : stripInput tbl I1 = stripInput tbl I2)
    (hc : w1.tcpClients c = w2.tcpClients c) :
    writtenSince c w1 (handleInput tbl (.NetworkMessenger c) S I1 w1)
        = writtenSince c w2 (handleInput tbl (.NetworkMessenger c) S I2 w2)
    ∧ (handleInput tbl (.NetworkMessenger c) S I1 w1).tcpClients c
        = (handleInput tbl (.NetworkMessenger c) S I2 w2).tcpClients c
    ∧ closes (handleInput tbl (.NetworkMessenger c) S I1 w1).trace - closes w1.trace
        = closes (handleInput tbl (.NetworkMessenger c) S I2 w2).trace - closes w2.trace
    ∧ writtenSince c w1 (handleInput tbl (.NetworkMessenger c) S I1 w1)
        = reply S (stripInput tbl I1)
    ∧ (handleInput tbl (.NetworkMessenger c) S I1 w1).tcpClients c
        = nextEntry S (stripInput tbl I1) (w1.tcpClients c)
    ∧ closes (handleInput tbl (.NetworkMessenger c) S I1 w1).trace
        = closes w1.trace + (if isReject S (stripInput tbl I1) then 1 else 0) := by
  have e1 := writtenSince_eq c w1 _ _ (handleInput_written tbl c S I1 w1)
  have e2 := writtenSince_eq c w2 _ _ (handleInput_written tbl c S I2 w2)
  have r1 : (handleInput tbl (.NetworkMessenger c) S I1 w1).tcpClients c
      = nextEntry S (stripInput tbl I1) (w1.tcpClients c) := by
    rw [handleInput_registry]; simp
  have r2 : (handleInput tbl (.NetworkMessenger c) S I2 w2).tcpClients c
      = nextEntry S (stripInput tbl I2) (w2.tcpClients c) := by
    rw [handleInput_registry]; simp
  have k1 := handleInput_closes tbl c S I1 w1
  have k2 := handleInput_closes tbl c S I2 w2
  refine ⟨?_, ?_, ?_, e1, r1, k1⟩
  · rw [e1, e2, h]
  · rw [r1, r2, h, hc]
  · rw [k1, k2, h]; simp

theorem C16_transition_pure_witness :
    writtenSince 0 (register 0 World.initial)
        (handleInput id (.NetworkMessenger 0) LOGON (lit "joshua\r\n") (register 0 World.initial))
      = writtenSince 0 { register 5 (register 0 World.initial) with currentRow := 17 }
        (handleInput id (.NetworkMessenger 0) LOGON (lit "JOSHUA")
          { register 5 (register 0 World.initial) with currentRow := 17 })
    ∧ (handleInput id (.NetworkMessenger 0) LOGON (lit "joshua\r\n")
        (register 0 World.initial)).tcpClients 0
      = (handleInput id (.NetworkMessenger 0) LOGON (lit "JOSHUA")
          { register 5 (register 0 World.initial) with currentRow := 17 }).tcpClients 0 :=
  ⟨(C16_transition_pure id 0 LOGON (lit "joshua\r\n") (lit "JOSHUA") (register 0 World.initial)
      { register 5 (register 0 World.initial) with currentRow := 17 } (by decide) (by decide)).1,
   (C16_transition_pure id 0 LOGON (lit "joshua\r\n") (lit "JOSHUA") (register 0 World.initial)
      { register 5 (register 0 World.initial) with currentRow := 17 } (by decide)
      (by decide)).2.1⟩

/-! ### The server: greeting, frame and the registry invariant -/

/-- What `initWOPR` does to the registry on a network messenger, and what it leaves. -/
theorem initWOPR_net (tbl : Nat → Nat) (c : Conn) (w : World) :
    (initWOPR tbl (.NetworkMessenger c) w).tcpClients
        = mapSet w.tcpClients c { mapGet w.tcpClients c with Screen := LOGON }
    ∧ closes (initWOPR tbl (.NetworkMessenger c) w).trace = closes w.trace
    ∧ ∀ k, c ≠ k → written k (initWOPR tbl (.NetworkMessenger c) w).trace = written k w.trace := by
  unfold initWOPR
  simp only [Send_eq, sendEvent_network]
  refine ⟨?_, ?_, fun k hk => ?_⟩
  · show (logon _ _ _).tcpClients = _
    rw [(recorded_after _ c _).2.2.2.2.2.2.2.2.2, (identifyServer_frame c _).1]
  · show closes ((logon _ _ _).trace ++ _) = _
    rw [closes_append, (closes_after _ c _).2.2.2.2.2.2.2.2.2.1, (identifyServer_frame c _).2.2.1]
    simp
  · show written k ((logon _ _ _).trace ++ _) = _
    rw [written_append, (written_other_after _ c k hk _).2.2.2.2.2.2.2.2.2.1,
      (identifyServer_frame c _).2.2.2 k hk]
    simp [written_write_other k c hk]

theorem nextEntry_unauth (S : Screen) (tok : GoString) (e : Option ClientState)
    (h : ∀ st, e = some st → st.Authenticated = false) :
    ∀ st, nextEntry S tok e = some st → st.Authenticated = false := by
  intro st hst
  unfold nextEntry at hst
  split at hst
  · exact h st hst
  · split_ifs at hst
    · cases hst; rfl
    · cases hst
      cases e with
      | none => rfl
      | some s0 => exact h s0 rfl

theorem mapSet_unauth (w : World) (h : NoneAuthenticated w) (c : Conn) (s : Screen) :
    ∀ k st, mapSet w.tcpClients c { mapGet w.tcpClients c with Screen := s } k = some st →
      st.Authenticated = false := by
  intro k st hst
  unfold mapSet at hst
  split_ifs at hst with hk
  · cases hst
    unfold mapGet
    cases hc : w.tcpClients c with
    | none => rfl
    | some s0 => exact h c s0 hc
  · exact h k st hst

theorem run_unauth (tbl : Nat → Nat) (op : Op) (w : World) (h : NoneAuthenticated w) :
    NoneAuthenticated (op.run tbl w) := by
  cases op with
  | accept c =>
    intro k st hst
    simp only [Op.run] at hst
    rw [(initWOPR_net tbl c _).1] at hst
    refine mapSet_unauth (register c w) ?_ c LOGON k st hst
    intro k' st' h'
    simp only [register, mapSet] at h'
    split_ifs at h'
    · cases h'; rfl
    · exact h k' st' h'
  | read c r =>
    simp only [Op.run, readStep]
    split_ifs
    · exact h
    · exact h
    · intro k st hst
      simp only [Option.getD_some] at hst
      rw [handleInput_registry] at hst
      simp only at hst
      split_ifs at hst with hk
      · exact nextEntry_unauth _ _ _ (fun s0 hs0 => h c s0 hs0) st hst
      · exact h k st hst
  | update c s =>
    intro k st hst
    exact mapSet_unauth w h c s k st hst
  | disconnect c =>
    intro k st hst
    simp only [Op.run, Disconnect, Send_eq, World.emit, mapDelete] at hst
    split_ifs at hst
    exact h k st hst

/-- C19: no operation of the program (accepting a connection and greeting it, handling one
read, `UpdateState`, `Disconnect`) stores a record whose `Authenticated` field is true:
if no entry of the registry is authenticated, none is after any sequence of operations. -/
theorem C19_never_authenticated (tbl : Nat → Nat) (ops : List Op) (w : World)
    (h : NoneAuthenticated w) :
    NoneAuthenticated (ops.foldl (fun w op => op.run tbl w) w) := by
  induction ops generalizing w with
  | nil => exact h
  | cons op ops ih => exact ih _ (run_unauth tbl op w h)

theorem noneAuthenticated_initial : NoneAuthenticated World.initial := by
  intro k st h
  cases h

theorem C19_never_authenticated_witness :
    NoneAuthenticated World.initial
    ∧ NoneAuthenticated
        ([Op.accept 1, Op.read 1 ⟨lit "joshua\r\n", false⟩, Op.read 1 ⟨[255, 253, 3], false⟩,
          Op.read 1 ⟨lit "fine\r\n", false⟩, Op.update 1 GAMES, Op.disconnect 1].foldl
            (fun w op => op.run id w) World.initial)
    ∧ ([Op.accept 1, Op.read 1 ⟨lit "joshua\r\n", false⟩, Op.read 1 ⟨lit "fine\r\n", false⟩].foldl
            (fun w op => op.run id w) World.initial).tcpClients 1
        = some ⟨false, WELLBEING⟩ :=
  ⟨noneAuthenticated_initial,
   C19_never_authenticated id _ World.initial noneAuthenticated_initial,
   by decide⟩

/-! ### After the reject -/

/-- The effects of `notRecognized` on a network messenger, in order. -/
theorem notRecognized_trace (hi : Handler) (c : Conn) (w : World) :
    (notRecognized hi (.NetworkMessenger c) w).trace
      = (w.trace ++ Event.write c (lit "\n")
          :: ((lit "IDENTIFICATION NOT RECOGNIZED BY SYSTEM\n").map (fun b => Event.write c (fmtC b))
            ++ (lit "--CONNECTION TERMINATED--").map (fun b => Event.write c (fmtC b))
            ++ [Event.write c (lit "\n")]))
        ++ Event.write c (lit "\x1b[0m") :: Event.close c
          :: Event.write c (lit "\n")
          :: (lit "LOGON: ").map (fun b => Event.write c (fmtC b)) := by
  simp only [notRecognized_eq, logon_eq, scanThen_network, animateMessage_eq, bumpLine_eq, Send_eq,
    UpdateState, Disconnect, World.emit, sendEvent_network]
  simp [bumpCount]

/-- C12: on the rejected input "X" at LOGON the colour reset is written and the connection is
closed right after it, with no close before; but the reset is not the last write: after the
close `notRecognized` calls `logon`, which sends the eight writes of a new line and the
prompt "LOGON: " to the closed connection. -/
theorem C12_sends_after_close :
    ∃ pre post,
      (handleInput id (.NetworkMessenger 0) LOGON (lit "X\r\n") (register 0 World.initial)).trace
        = pre ++ Event.write 0 (lit "\x1b[0m") :: Event.close 0 :: post
      ∧ closes pre = 0
      ∧ post = [Event.write 0 (lit "\n"), Event.write 0 (lit "L"), Event.write 0 (lit "O"),
          Event.write 0 (lit "G"), Event.write 0 (lit "O"), Event.write 0 (lit "N"),
          Event.write 0 (lit ":"), Event.write 0 (lit " ")]
      ∧ written 0 post = lit "\nLOGON: " := by
  rw [logon_reject id 0 (lit "X\r\n") _ (by decide), notRecognized_trace]
  exact ⟨_, _, rfl, by decide, by decide, by decide⟩

/-! ### The accept loop -/

theorem readStep_frame (tbl : Nat → Nat) (c : Conn) (r : ReadResult) (w w' : World)
    (h : readStep tbl c r w = some w') (k : Conn) (hk : c ≠ k) :
    w'.tcpClients k = w.tcpClients k ∧ written k w'.trace = written k w.trace := by
  unfold readStep at h
  split_ifs at h
  · cases h; exact ⟨rfl, rfl⟩
  · cases h
    refine ⟨?_, handleInput_written_other tbl c k hk _ _ w⟩
    rw [handleInput_registry]
    simp [Ne.symm hk]

theorem connectClientLoop_frame (tbl : Nat → Nat) (c : Conn) (reads : List ReadResult)
    (k : Conn) (hk : c ≠ k) (w : World) :
    (connectClientLoop tbl c reads w).1.tcpClients k = w.tcpClients k
    ∧ written k (connectClientLoop tbl c reads w).1.trace = written k w.trace := by
  induction reads generalizing w with
  | nil => exact ⟨rfl, rfl⟩
  | cons r rest ih =>
    unfold connectClientLoop
    cases h : readStep tbl c r w with
    | none => exact ⟨rfl, rfl⟩
    | some w' =>
      obtain ⟨a, b⟩ := readStep_frame tbl c r w w' h k hk
      obtain ⟨a', b'⟩ := ih w'
      exact ⟨a'.trans a, b'.trans b⟩

/-- A session leaves the entries and the connections of the other clients alone. -/
theorem connectClient_frame (tbl : Nat → Nat) (c : Conn) (reads : List ReadResult)
    (k : Conn) (hk : c ≠ k) (w : World) :
    (connectClient tbl c reads w).1.tcpClients k = w.tcpClients k
    ∧ written k (connectClient tbl c reads w).1.trace = written k w.trace := by
  unfold connectClient
  obtain ⟨a, b⟩ := connectClientLoop_frame tbl c reads k hk (initWOPR tbl (.NetworkMessenger c) w)
  obtain ⟨i1, _, i3⟩ := initWOPR_net tbl c w
  refine ⟨?_, b.trans (i3 k hk)⟩
  rw [a, i1]
  simp [mapSet, Ne.symm hk]

/-- While every read so far returned data, `connectClient` has not returned. -/
theorem connectClientLoop_waiting (tbl : Nat → Nat) (c : Conn) (reads : List ReadResult)
    (h : ∀ r ∈ reads, r.bytes ≠ [] ∧ r.err = false) (w : World) :
    (connectClientLoop tbl c reads w).2 = false := by
  induction reads generalizing w with
  | nil => rfl
  | cons r rest ih =>
    obtain ⟨h1, h2⟩ := h r (List.mem_cons_self _ _)
    have hrest := fun x hx => h x (List.mem_cons_of_mem _ hx)
    unfold connectClientLoop
    cases hr : readStep tbl c r w with
    | none =>
      unfold readStep at hr
      rw [if_neg (by simp [h1, h2])] at hr
      split_ifs at hr
    | some w' => exact ih hrest w'

/-- While `connectClient` has not returned, the accept loop has not gone on to
the next connection. -/
theorem acceptLoop_waiting (tbl : Nat → Nat) (c : Conn) (reads : List ReadResult)
    (rest : List Accepted) (w : World)
    (h : (connectClient tbl c reads (register c w)).2 = false) :
    acceptLoop tbl (Accepted.conn c reads :: rest) w
      = ((connectClient tbl c reads (register c w)).1, some c) := by
  unfold acceptLoop
  cases hc : connectClient tbl c reads (register c w) with
  | mk w' b =>
    rw [hc] at h
    cases h
    simp only [hc]

/-- C17: the accept loop runs the session itself.  With two connections to accept, and the
first one having sent JOSHUA and nothing more, `acceptLoop` is inside `connectClient` of the
first connection (its screen is GREETING); the second connection has no registry entry and
nothing was written to it. -/
theorem C17_session_runs_in_accept_loop :
    (acceptLoop id [Accepted.conn 1 [⟨lit "JOSHUA\r\n", false⟩],
        Accepted.conn 2 [⟨lit "JOSHUA\r\n", false⟩]] World.initial).2 = some 1
    ∧ (acceptLoop id [Accepted.conn 1 [⟨lit "JOSHUA\r\n", false⟩],
        Accepted.conn 2 [⟨lit "JOSHUA\r\n", false⟩]] World.initial).1.tcpClients 1
        = some ⟨false, GREETING⟩
    ∧ (acceptLoop id [Accepted.conn 1 [⟨lit "JOSHUA\r\n", false⟩],
        Accepted.conn 2 [⟨lit "JOSHUA\r\n", false⟩]] World.initial).1.tcpClients 2 = none
    ∧ written 2 (acceptLoop id [Accepted.conn 1 [⟨lit "JOSHUA\r\n", false⟩],
        Accepted.conn 2 [⟨lit "JOSHUA\r\n", false⟩]] World.initial).1.trace = [] := by
  rw [acceptLoop_waiting id 1 _ _ World.initial
    (connectClientLoop_waiting id 1 _ (by decide) _)]
  obtain ⟨a, b⟩ := connectClient_frame id 1 [⟨lit "JOSHUA\r\n", false⟩] 2 (by decide)
    (register 1 World.initial)
  exact ⟨rfl, by decide, a, b⟩

/-! ### Counting the new lines -/

theorem bump_iter (n : Nat) (r : Int) (h1 : -2 ^ 63 ≤ r) (h2 : r + n < 2 ^ 63) :
    (fun r => wrapInt (r + 1))^[n] r = r + n := by
  induction n with
  | zero => simp
  | succ n ih =>
    rw [Function.iterate_succ_apply', ih (by push_cast at h2; omega)]
    unfold wrapInt
    push_cast at h2 ⊢
    norm_num at h1 h2 ⊢
    omega

theorem newlineWrites_append (c : Conn) (t u : List Event) :
    newlineWrites c (t ++ u) = newlineWrites c t + newlineWrites c u := by
  unfold newlineWrites
  exact List.countP_append _ _ _

theorem newlineWrites_replicate (c : Conn) (n : Nat) :
    newlineWrites c (List.replicate n (Event.write c (lit "\n"))) = n := by
  unfold newlineWrites
  induction n with
  | zero => rfl
  | succ n ih => rw [List.replicate_succ, List.countP_cons, ih]; simp

theorem fmtC_newline (b : Nat) : fmtC b = lit "\n" ↔ b = 10 := by
  constructor
  · intro h
    rw [show lit "\n" = [10] from rfl] at h
    unfold fmtC EncodeRune at h
    split_ifs at h <;> simp at h
    omega
  · intro h
    subst h
    rfl

theorem newlineWrites_animate (c : Conn) (msg : GoString) :
    newlineWrites c (msg.map (fun b => Event.write c (fmtC b))) = msg.count 10 := by
  unfold newlineWrites
  induction msg with
  | nil => rfl
  | cons b bs ih =>
    rw [List.map_cons, List.countP_cons, ih, List.count_cons]
    by_cases hb : b = 10
    · subst hb; simp; rfl
    · have : fmtC b ≠ lit "\n" := fun e => hb ((fmtC_newline b).1 e)
      simp [hb, this]

theorem newlineWrites_nil (c : Conn) : newlineWrites c [] = 0 := rfl

theorem newlineWrites_cons_write (c : Conn) (s : GoString) (t : List Event) :
    newlineWrites c (Event.write c s :: t) = (if s = lit "\n" then 1 else 0) + newlineWrites c t := by
  unfold newlineWrites
  rw [List.countP_cons, Nat.add_comm]
  by_cases h : s = lit "\n"
  · subst h; simp
  · simp [h]

theorem newlineWrites_cons_close (c d : Conn) (t : List Event) :
    newlineWrites c (Event.close d :: t) = newlineWrites c t := by
  unfold newlineWrites
  rw [List.countP_cons]
  simp

theorem bumpCount_nat (n : Nat) : bumpCount [(n : Int)] = n := by
  simp [bumpCount]

theorem art_newlines : artText.count 10 = 12 := by decide!

theorem accounts_bumpLine (c : Conn) (w : World) (n : Nat) (hlo : -2 ^ 63 ≤ w.currentRow)
    (hn : w.currentRow + n < 2 ^ 63) :
    Accounts c w (bumpLine (.NetworkMessenger c) [(n : Int)] w) n n := by
  unfold Accounts
  simp only [bumpLine_eq, sendEvent_network, bumpCount_nat]
  exact ⟨by rw [newlineWrites_append, newlineWrites_replicate], bump_iter n _ hlo hn⟩

theorem accounts_bumpLine_nil (c : Conn) (w : World) (hlo : -2 ^ 63 ≤ w.currentRow)
    (hn : w.currentRow + 1 < 2 ^ 63) :
    Accounts c w (bumpLine (.NetworkMessenger c) [] w) 1 1 := by
  unfold Accounts
  simp only [bumpLine_eq, sendEvent_network, bumpCount_nil]
  exact ⟨by rw [newlineWrites_append, newlineWrites_replicate], bump_iter 1 _ hlo hn⟩

theorem accounts_logon (hi : Handler) (c : Conn) (w : World) (hlo : -2 ^ 63 ≤ w.currentRow)
    (hhi : w.currentRow + 1 < 2 ^ 63) :
    Accounts c w (logon hi (.NetworkMessenger c) w) 1 1 := by
  unfold Accounts
  simp only [logon_eq, scanThen_network, animateMessage_eq, bumpLine_eq, Send_eq, UpdateState,
    sendEvent_network, setCursorPosition_eq]
  constructor
  · simp only [newlineWrites_append, newlineWrites_replicate, newlineWrites_animate,
      newlineWrites_nil, newlineWrites_cons_write, newlineWrites_cons_close, Nat.add_assoc]
    rw [Nat.add_left_cancel_iff]
    decide
  · simp only [bumpCount_nil, bumpCount_two, ← Function.iterate_add_apply]
    exact bump_iter _ _ hlo (by push_cast; omega)

theorem accounts_help (hi : Handler) (c : Conn) (w : World) (hlo : -2 ^ 63 ≤ w.currentRow)
    (hhi : w.currentRow + 3 < 2 ^ 63) :
    Accounts c w (help hi (.NetworkMessenger c) w) 3 3 := by
  unfold Accounts
  simp only [help_eq, logon_eq, scanThen_network, animateMessage_eq, bumpLine_eq, Send_eq, UpdateState,
    sendEvent_network, setCursorPosition_eq]
  constructor
  · simp only [newlineWrites_append, newlineWrites_replicate, newlineWrites_animate,
      newlineWrites_nil, newlineWrites_cons_write, newlineWrites_cons_close, Nat.add_assoc]
    rw [Nat.add_left_cancel_iff]
    decide
  · simp only [bumpCount_nil, bumpCount_two, ← Function.iterate_add_apply]
    exact bump_iter _ _ hlo (by push_cast; omega)

theorem accounts_helpGames (hi : Handler) (c : Conn) (w : World) (hlo : -2 ^ 63 ≤ w.currentRow)
    (hhi : w.currentRow + 4 < 2 ^ 63) :
    Accounts c w (helpGames hi (.NetworkMessenger c) w) 4 4 := by
  unfold Accounts
  simp only [helpGames_eq, scanThen_network, animateMessage_eq, bumpLine_eq, Send_eq, UpdateState,
    sendEvent_network, setCursorPosition_eq]
  constructor
  · simp only [newlineWrites_append, newlineWrites_replicate, newlineWrites_animate,
      newlineWrites_nil, newlineWrites_cons_write, newlineWrites_cons_close, Nat.add_assoc]
    rw [Nat.add_left_cancel_iff]
    decide
  · simp only [bumpCount_nil, bumpCount_two, ← Function.iterate_add_apply]
    exact bump_iter _ _ hlo (by push_cast; omega)

theorem accounts_greeting (hi : Handler) (c : Conn) (w : World) (hlo : -2 ^ 63 ≤ w.currentRow)
    (hhi : w.currentRow + 2 < 2 ^ 63) :
    Accounts c w (greeting hi (.NetworkMessenger c) w) 2 2 := by
  unfold Accounts
  simp only [greeting_eq, scanThen_network, animateMessage_eq, bumpLine_eq, Send_eq, UpdateState,
    sendEvent_network, setCursorPosition_eq]
  constructor
  · simp only [newlineWrites_append, newlineWrites_replicate, newlineWrites_animate,
      newlineWrites_nil, newlineWrites_cons_write, newlineWrites_cons_close, Nat.add_assoc]
    rw [Nat.add_left_cancel_iff]
    decide
  · simp only [bumpCount_nil, bumpCount_two, ← Function.iterate_add_apply]
    exact bump_iter _ _ hlo (by push_cast; omega)

theorem accounts_wellbeing (hi : Handler) (c : Conn) (w : World) (hlo : -2 ^ 63 ≤ w.currentRow)
    (hhi : w.currentRow + 4 < 2 ^ 63) :
    Accounts c w (wellbeing hi (.NetworkMessenger c) w) 4 4 := by
  unfold Accounts
  simp only [wellbeing_eq, scanThen_network, animateMessage_eq, bumpLine_eq, Send_eq, UpdateState,
    sendEvent_network, setCursorPosition_eq]
  constructor
  · simp only [newlineWrites_append, newlineWrites_replicate, newlineWrites_animate,
      newlineWrites_nil, newlineWrites_cons_write, newlineWrites_cons_close, Nat.add_assoc]
    rw [Nat.add_left_cancel_iff]
    decide
  · simp only [bumpCount_nil, bumpCount_two, ← Function.iterate_add_apply]
    exact bump_iter _ _ hlo (by push_cast; omega)

theorem accounts_explanation (hi : Handler) (c : Conn) (w : World) (hlo : -2 ^ 63 ≤ w.currentRow)
    (hhi : w.currentRow + 5 < 2 ^ 63) :
    Accounts c w (explanation hi (.NetworkMessenger c) w) 5 5 := by
  unfold Accounts
  simp only [explanation_eq, scanThen_network, animateMessage_eq, bumpLine_eq, Send_eq, UpdateState,
    sendEvent_network, setCursorPosition_eq]
  constructor
  · simp only [newlineWrites_append, newlineWrites_replicate, newlineWrites_animate,
      newlineWrites_nil, newlineWrites_cons_write, newlineWrites_cons_close, Nat.add_assoc]
    rw [Nat.add_left_cancel_iff]
    decide
  · simp only [bumpCount_nil, bumpCount_two, ← Function.iterate_add_apply]
    exact bump_iter _ _ hlo (by push_cast; omega)

theorem accounts_playGame (hi : Handler) (c : Conn) (w : World) (hlo : -2 ^ 63 ≤ w.currentRow)
    (hhi : w.currentRow + 4 < 2 ^ 63) :
    Accounts c w (playGame hi (.NetworkMessenger c) w) 4 4 := by
  unfold Accounts
  simp only [playGame_eq, scanThen_network, animateMessage_eq, bumpLine_eq, Send_eq, UpdateState,
    sendEvent_network, setCursorPosition_eq]
  constructor
  · simp only [newlineWrites_append, newlineWrites_replicate, newlineWrites_animate,
      newlineWrites_nil, newlineWrites_cons_write, newlineWrites_cons_close, Nat.add_assoc]
    rw [Nat.add_left_cancel_iff]
    decide
  · simp only [bumpCount_nil, bumpCount_two, ← Function.iterate_add_apply]
    exact bump_iter _ _ hlo (by push_cast; omega)

theorem accounts_playGameVerify (hi : Handler) (c : Conn) (w : World) (hlo : -2 ^ 63 ≤ w.currentRow)
    (hhi : w.currentRow + 4 < 2 ^ 63) :
    Accounts c w (playGameVerify hi (.NetworkMessenger c) w) 4 4 := by
  unfold Accounts
  simp only [playGameVerify_eq, scanThen_network, animateMessage_eq, bumpLine_eq, Send_eq, UpdateState,
    sendEvent_network, setCursorPosition_eq]
  constructor
  · simp only [newlineWrites_append, newlineWrites_replicate, newlineWrites_animate,
      newlineWrites_nil, newlineWrites_cons_write, newlineWrites_cons_close, Nat.add_assoc]
    rw [Nat.add_left_cancel_iff]
    decide
  · simp only [bumpCount_nil, bumpCount_two, ← Function.iterate_add_apply]
    exact bump_iter _ _ hlo (by push_cast; omega)

theorem accounts_strikeCommands (hi : Handler) (c : Conn) (w : World) (hlo : -2 ^ 63 ≤ w.currentRow)
    (hhi : w.currentRow + 6 < 2 ^ 63) :
    Accounts c w (strikeCommands hi (.NetworkMessenger c) w) 6 6 := by
  unfold Accounts
  simp only [strikeCommands_eq, scanThen_network, animateMessage_eq, bumpLine_eq, Send_eq, UpdateState,
    sendEvent_network, setCursorPosition_eq]
  constructor
  · simp only [newlineWrites_append, newlineWrites_replicate, newlineWrites_animate,
      newlineWrites_nil, newlineWrites_cons_write, newlineWrites_cons_close, Nat.add_assoc]
    rw [Nat.add_left_cancel_iff]
    decide
  · simp only [bumpCount_nil, bumpCount_two, ← Function.iterate_add_apply]
    exact bump_iter _ _ hlo (by push_cast; omega)

theorem accounts_listGames (hi : Handler) (c : Conn) (w : World) (hlo : -2 ^ 63 ≤ w.currentRow)
    (hhi : w.currentRow + 19 < 2 ^ 63) :
    Accounts c w (listGames hi (.NetworkMessenger c) w) 19 19 := by
  unfold Accounts
  simp only [listGames_eq, logon_eq, scanThen_network, listGamesLoop, games, List.enum,
    List.enumFrom, List.foldl_cons, List.foldl_nil, animateMessage_eq, bumpLine_eq, Send_eq,
    UpdateState, sendEvent_network]
  constructor
  · simp only [newlineWrites_append, newlineWrites_replicate, newlineWrites_animate,
      newlineWrites_nil, newlineWrites_cons_write, newlineWrites_cons_close, Nat.add_assoc]
    simp
    simp only [newlineWrites_append, newlineWrites_animate, newlineWrites_nil,
      newlineWrites_cons_write, Nat.add_assoc]
    rw [Nat.add_left_cancel_iff]
    decide
  · simp
    exact bump_iter 19 _ hlo (by push_cast; omega)

theorem accounts_notRecognized (hi : Handler) (c : Conn) (w : World)
    (hlo : -2 ^ 63 ≤ w.currentRow) (hhi : w.currentRow + 3 < 2 ^ 63) :
    Accounts c w (notRecognized hi (.NetworkMessenger c) w) 4 3 := by
  unfold Accounts
  simp only [notRecognized_eq, logon_eq, scanThen_network, animateMessage_eq, bumpLine_eq, Send_eq,
    UpdateState, Disconnect, World.emit, sendEvent_network]
  constructor
  · simp only [newlineWrites_append, newlineWrites_replicate, newlineWrites_animate,
      newlineWrites_nil, newlineWrites_cons_write, newlineWrites_cons_close, Nat.add_assoc]
    rw [Nat.add_left_cancel_iff]
    decide
  · simp only [bumpCount_nil, bumpCount_two, ← Function.iterate_add_apply]
    exact bump_iter _ _ hlo (by push_cast; omega)

theorem accounts_globalThermoNuclearWar (hi : Handler) (c : Conn) (w : World)
    (hlo : -2 ^ 63 ≤ w.currentRow) (hhi : w.currentRow + 8 < 2 ^ 63) :
    Accounts c w (globalThermoNuclearWar hi (.NetworkMessenger c) w) 22 8 := by
  unfold Accounts
  simp only [globalThermoNuclearWar_eq, scanThen_network, animateMessage_eq, bumpLine_eq, Send_eq,
    UpdateState, sendEvent_network, setCursorPosition_eq]
  constructor
  · simp only [newlineWrites_append, newlineWrites_replicate, newlineWrites_animate,
      newlineWrites_nil, newlineWrites_cons_write, newlineWrites_cons_close, Nat.add_assoc, art_newlines]
    rw [Nat.add_left_cancel_iff]
    decide
  · simp only [bumpCount_nil, bumpCount_two, ← Function.iterate_add_apply]
    exact bump_iter _ _ hlo (by push_cast; omega)

/-- C15: on a network messenger, and while the row counter stays inside the range of `int`,
`bumpLine` without a count sends one "\n" and with the count `n` sends `n`, adding as much
to the row counter; and for logon, help, helpGames, listGames, greeting, wellbeing,
explanation, playGame, playGameVerify and strikeCommands the number of "\n" sends is the
amount added to the row counter.  For `globalThermoNuclearWar` there are 22 such sends and 8
is added, for `notRecognized` 4 and 3: the new lines inside a typed message are sent as
"\n" too and are not counted. -/
theorem C15_newline_accounting (hi : Handler) (c : Conn) (w : World) (n : Nat)
    (hlo : -2 ^ 63 ≤ w.currentRow) (hhi : w.currentRow + 19 < 2 ^ 63)
    (hn : w.currentRow + n < 2 ^ 63) :
    Accounts c w (bumpLine (.NetworkMessenger c) [] w) 1 1
    ∧ Accounts c w (bumpLine (.NetworkMessenger c) [(n : Int)] w) n n
    ∧ Accounts c w (logon hi (.NetworkMessenger c) w) 1 1
    ∧ Accounts c w (help hi (.NetworkMessenger c) w) 3 3
    ∧ Accounts c w (helpGames hi (.NetworkMessenger c) w) 4 4
    ∧ Accounts c w (listGames hi (.NetworkMessenger c) w) 19 19
    ∧ Accounts c w (greeting hi (.NetworkMessenger c) w) 2 2
    ∧ Accounts c w (wellbeing hi (.NetworkMessenger c) w) 4 4
    ∧ Accounts c w (explanation hi (.NetworkMessenger c) w) 5 5
    ∧ Accounts c w (playGame hi (.NetworkMessenger c) w) 4 4
    ∧ Accounts c w (playGameVerify hi (.NetworkMessenger c) w) 4 4
    ∧ Accounts c w (strikeCommands hi (.NetworkMessenger c) w) 6 6
    ∧ Accounts c w (globalThermoNuclearWar hi (.NetworkMessenger c) w) 22 8
    ∧ Accounts c w (notRecognized hi (.NetworkMessenger c) w) 4 3 :=
  ⟨accounts_bumpLine_nil c w hlo (by omega), accounts_bumpLine c w n hlo hn,
   accounts_logon hi c w hlo (by omega), accounts_help hi c w hlo (by omega),
   accounts_helpGames hi c w hlo (by omega), accounts_listGames hi c w hlo hhi,
   accounts_greeting hi c w hlo (by omega), accounts_wellbeing hi c w hlo (by omega),
   accounts_explanation hi c w hlo (by omega), accounts_playGame hi c w hlo (by omega),
   accounts_playGameVerify hi c w hlo (by omega), accounts_strikeCommands hi c w hlo (by omega),
   accounts_globalThermoNuclearWar hi c w hlo (by omega),
   accounts_notRecognized hi c w hlo (by omega)⟩

theorem C15_newline_accounting_witness :
    (-2 ^ 63 ≤ World.initial.currentRow ∧ World.initial.currentRow + 19 < 2 ^ 63
      ∧ World.initial.currentRow + (5 : Nat) < 2 ^ 63)
    ∧ Accounts 0 World.initial (bumpLine (.NetworkMessenger 0) [((5 : Nat) : Int)] World.initial) 5 5
    ∧ Accounts 0 World.initial (listGames idle (.NetworkMessenger 0) World.initial) 19 19 :=
  ⟨by decide,
   (C15_newline_accounting idle 0 World.initial 5 (by decide) (by decide) (by decide)).2.1,
   (C15_newline_accounting idle 0 World.initial 5 (by decide) (by decide)
     (by decide)).2.2.2.2.2.1⟩

theorem C15_counterexample :
    newlineWrites 0 World.initial.trace = 0 ∧ World.initial.currentRow = 0
    ∧ newlineWrites 0 (notRecognized idle (.NetworkMessenger 0) World.initial).trace = 4
    ∧ (notRecognized idle (.NetworkMessenger 0) World.initial).currentRow = 3
    ∧ newlineWrites 0 (globalThermoNuclearWar idle (.NetworkMessenger 0) World.initial).trace = 22
    ∧ (globalThermoNuclearWar idle (.NetworkMessenger 0) World.initial).currentRow = 8 := by
  obtain ⟨a, b⟩ := accounts_notRecognized idle 0 World.initial (by decide) (by decide)
  obtain ⟨a', b'⟩ := accounts_globalThermoNuclearWar idle 0 World.initial (by decide) (by decide)
  exact ⟨rfl, rfl, a, b, a', b'⟩

end Wopr
